import Mathlib

/-!
DEIP story scripts: authority, proposal and approval choreography

A shallow embedding of the story scripts of the repository (`src/casimir/story.js`,
`src/casimir/preset.js`, `src/substrate-rpc/story.js`, the `casimir-nowar-*` scripts,
`src/config.js`) together with the facts proved about them.

Conventions of the embedding:

* every identifier that a script draws at random (`genRipemd160Hash(randomAsHex(20))`,
  `randomAsHex(20)`) is a symbolic constant named after the script variable that holds it;
  two different variables hold two different identifiers;
* a seed account is identified with its key pair, so `getPubKey()` and `getPrivKey()` of one
  account denote the same `Key`;
* command payload that names no account (descriptions, hashes, amounts, symbols, time stamps)
  is left out of the commands.
-/

namespace Deip

/-! ## Identifiers -/

/-- Key pairs: the seed accounts the scripts generate, and keys taken from the configuration. -/
inductive Key where
  | alice | bob | charlie | dave | eveTemp | eve | treasury
  | creator | buyer | hotWallet
  | configured (k : String)
  | fromPassword (username password : String)
  deriving DecidableEq, Repr

/-- Account (DAO) identifiers: the ids the scripts generate, named after the script variables,
and names given as plain strings (user names, ids taken from the configuration). -/
inductive DaoId where
  | aliceDaoId | bobDaoId | charlieDaoId | daveDaoId | eveDaoId
  | aliceBobDaoId | eveCharlieDaoId | bobDaveDaoId
  | multigroup1DaoId | multigroup2DaoId | treasuryDaoId
  | moderatorDaoId | creatorDaoId | buyerDaoId | hotWalletDaoId
  | named (id : String)
  deriving DecidableEq, Repr

/-- Proposal identifiers (`proposal1Id`, `proposal2Id`). -/
inductive ProposalId where
  | proposal1Id | proposal2Id
  deriving DecidableEq, Repr

/-- Script variables that hold the result of a `chainTxBuilder.getBatchWeight` call. -/
inductive BatchWeightVar where
  | proposal1BatchWeight | proposal2BatchWeight
  deriving DecidableEq, Repr, Fintype

/-- The chain protocol selected by `config.PROTOCOL`; the scripts only test it against
`PROTOCOL_CHAIN.SUBSTRATE`. -/
inductive Protocol where
  | GRAPHENE | SUBSTRATE
  deriving DecidableEq, Repr

/-- JavaScript values as far as the scripts look at them. -/
inductive JsValue where
  | undefined
  | null
  | bool (b : Bool)
  | number (n : Int)
  | nan
  | string (s : String)
  | object
  deriving DecidableEq, Repr

/-- JavaScript truthiness: the operand of `!x` and of `x ? a : b`. -/
def JsValue.truthy : JsValue → Bool
  | .undefined => false
  | .null => false
  | .bool b => b
  | .number n => n != 0
  | .nan => false
  | .string s => s != ""
  | .object => true

/-! ## Authorities -/

/-- The signer of an `auths` entry: `{ key: ... }` is an individual, `{ name: ... }` a DAO. -/
inductive Signer where
  | key (k : Key)
  | name (d : DaoId)
  deriving DecidableEq, Repr

/-- One entry of `owner.auths`; `weight` is `none` when the script writes no weight. -/
structure Auth where
  signer : Signer
  weight : Option Nat
  deriving DecidableEq, Repr

/-- The `owner` of an authority: the weighted signers and `owner.weight`, the threshold. -/
structure Owner where
  auths : List Auth
  weight : Nat
  deriving DecidableEq, Repr

/-- The weight an entry contributes; an entry without a weight contributes nothing. -/
def Auth.weightValue (a : Auth) : Nat := a.weight.getD 0

/-- The sum of the weights written in `owner.auths`. -/
def Owner.sumWeights (o : Owner) : Nat := (o.auths.map Auth.weightValue).sum

/-- The invariant of the data model: `threshold >= 1` and `threshold <= sum(weights)`. -/
def Owner.thresholdInvariant (o : Owner) : Prop := 1 ≤ o.weight ∧ o.weight ≤ o.sumWeights

instance (o : Owner) : Decidable o.thresholdInvariant := by
  unfold Owner.thresholdInvariant; infer_instance

/-- The DAOs named as signers in an authority. -/
def Owner.daoSigners (o : Owner) : List DaoId :=
  o.auths.filterMap fun a => match a.signer with
    | .name d => some d
    | .key _ => none

/-! ## Casimir commands -/

/-- The commands of `@deip/commands` that the scripts build, except `CreateProposalCmd`;
these are the commands a proposal can hold. -/
inductive Cmd where
  | CreateDaoCmd (entityId : DaoId) (owner : Owner) (creator : DaoId)
  | UpdateDaoCmd (entityId : DaoId)
  | AlterDaoAuthorityCmd (entityId : DaoId) (owner : Owner)
  | AddDaoMemberCmd (teamId member : DaoId) (isThresholdPreserved : Bool)
  | RemoveDaoMemberCmd (teamId member : DaoId) (isThresholdPreserved : Bool)
  | CreatePortalCmd (owner : DaoId)
  | CreateProjectCmd (teamId : DaoId)
  | UpdateProjectCmd (teamId : DaoId)
  | CreateProjectContentCmd (teamId : DaoId) (authors : List DaoId)
  | CreateReviewCmd (author : DaoId)
  | UpvoteReviewCmd (voter : DaoId)
  | AcceptProposalCmd (entityId : ProposalId) (account : DaoId) (batchWeight : BatchWeightVar)
  | CreateFungibleTokenCmd (issuer : DaoId)
  | IssueFungibleTokenCmd (issuer recipient : DaoId)
  | CreateNonFungibleTokenCmd (issuer : DaoId)
  | IssueNonFungibleTokenCmd (issuer recipient : DaoId)
  | UpdateNonFungibleTokenOwnerCmd (issuer owner : DaoId)
  | UpdateNonFungibleTokenTeamCmd (issuer : DaoId)
  | TransferAssetCmd (src dst : DaoId)
  | TransferFungibleTokenCmd (src : DaoId) (dst : Signer)
  | TransferNonFungibleTokenCmd (src dst : DaoId)
  | CreateInvestmentOpportunityCmd (teamId : DaoId)
  | InvestCmd (investor : DaoId)
  | CreateContractAgreementCmd (creator : DaoId) (parties : List DaoId)
  | AcceptContractAgreementCmd (party : DaoId)
  deriving DecidableEq, Repr

/-- A command added to a transaction: a plain command or a `CreateProposalCmd` with its
`proposedCmds` (and the `batchWeight` field, which one script passes). -/
inductive TxCmd where
  | cmd (c : Cmd)
  | CreateProposalCmd (entityId : ProposalId) (creator : DaoId) (proposedCmds : List Cmd)
      (batchWeight : Option BatchWeightVar)
  deriving DecidableEq, Repr

/-- The account a command acts for: the new DAO of a `CreateDaoCmd`, otherwise the
`entityId`, `teamId`, `author`, `voter`, `issuer`, `from`, `investor`, `party`, `creator`,
`owner` or `account` of the command. -/
def Cmd.actor : Cmd → DaoId
  | .CreateDaoCmd entityId _ _ => entityId
  | .UpdateDaoCmd entityId => entityId
  | .AlterDaoAuthorityCmd entityId _ => entityId
  | .AddDaoMemberCmd teamId _ _ => teamId
  | .RemoveDaoMemberCmd teamId _ _ => teamId
  | .CreatePortalCmd owner => owner
  | .CreateProjectCmd teamId => teamId
  | .UpdateProjectCmd teamId => teamId
  | .CreateProjectContentCmd teamId _ => teamId
  | .CreateReviewCmd author => author
  | .UpvoteReviewCmd voter => voter
  | .AcceptProposalCmd _ account _ => account
  | .CreateFungibleTokenCmd issuer => issuer
  | .IssueFungibleTokenCmd issuer _ => issuer
  | .CreateNonFungibleTokenCmd issuer => issuer
  | .IssueNonFungibleTokenCmd issuer _ => issuer
  | .UpdateNonFungibleTokenOwnerCmd issuer _ => issuer
  | .UpdateNonFungibleTokenTeamCmd issuer => issuer
  | .TransferAssetCmd src _ => src
  | .TransferFungibleTokenCmd src _ => src
  | .TransferNonFungibleTokenCmd src _ => src
  | .CreateInvestmentOpportunityCmd teamId => teamId
  | .InvestCmd investor => investor
  | .CreateContractAgreementCmd creator _ => creator
  | .AcceptContractAgreementCmd party => party

/-- The account a transaction command acts for; a proposal is created by its `creator`. -/
def TxCmd.actor : TxCmd → DaoId
  | .cmd c => c.actor
  | .CreateProposalCmd _ creator _ _ => creator

/-- A transaction built once with `chainTxBuilder.begin()` ... `txBuilder.end()`, and the keys
it is signed with: one entry per `signAsync` followed by `sendTxAndWaitAsync`, in script
order. -/
structure Tx where
  cmds : List TxCmd
  signers : List Key
  deriving DecidableEq, Repr

/-- One step of a Casimir script: a call of `fundAddressFromFaucet`, a call of
`chainTxBuilder.getBatchWeight` whose result is stored in a script variable, a transaction
that the script builds, signs and submits, or a raw `balances.transfer` extrinsic handed to
`api.rpc.author.submitExtrinsic`. -/
inductive Step where
  | fundAddressFromFaucet (daoIdOrPubKey : Signer) (amount : JsValue)
  | getBatchWeight (result : BatchWeightVar) (cmds : List Cmd)
  | submit (tx : Tx)
  | balancesTransfer (dst : DaoId) (amount : String) (signer : Key)
  deriving DecidableEq, Repr

/-- The transactions a script builds and submits itself, in order. -/
def submittedTxs (steps : List Step) : List Tx :=
  steps.filterMap fun s => match s with
    | .submit tx => some tx
    | _ => none

/-- The `getBatchWeight` calls of a script: the variable that receives the result and the
command list passed to the call. -/
def batchWeightCalls (steps : List Step) : List (BatchWeightVar × List Cmd) :=
  steps.filterMap fun s => match s with
    | .getBatchWeight v cmds => some (v, cmds)
    | _ => none

/-! ## `src/config.js` and the helpers of `src/casimir/preset.js` used by the stories -/

/-- The object `config.FAUCET_ACCOUNT`. -/
structure FaucetAccount where
  username : String
  wif : String
  fundingAmount : JsValue
  deriving DecidableEq, Repr

/-- The object `config.TENANT_PORTAL`. -/
structure TenantPortal where
  pubKey : String
  privKey : String
  deriving DecidableEq, Repr

/-- An asset description: `config.CORE_ASSET`, an entry of
`config.DEIP_APPCHAIN_FAUCET_STABLECOINS`. -/
structure Asset where
  id : String
  symbol : String
  precision : Nat
  deriving DecidableEq, Repr

/-- An entry of `config.TENANT_DATA.members`. -/
structure TenantMember where
  daoId : String
  password : String
  deriving DecidableEq, Repr

/-- The object `config.TENANT_DATA`. -/
structure TenantData where
  id : String
  privKey : String
  members : List TenantMember
  deriving DecidableEq, Repr

/-- The fields of `config` that the embedded code reads. -/
structure Config where
  PROTOCOL : Protocol
  CHAIN_BLOCK_INTERVAL_MILLIS : Nat
  FAUCET_ACCOUNT : FaucetAccount
  DEIP_APPCHAIN_FAUCET_SUBSTRATE_SEED_ACCOUNT_JSON : String
  CORE_ASSET : Asset
  DEIP_APPCHAIN_FAUCET_STABLECOINS : List Asset
  DEIP_APPCHAIN_FAUCET_BALANCE : String
  TENANT_DATA : TenantData
  TENANT_PORTAL : TenantPortal
  deriving DecidableEq, Repr

/-- The result of `chainService.generateChainSeedAccount`: a user name (an account name) and
a key pair. -/
structure SeedAccount where
  username : DaoId
  keyPair : Key
  deriving DecidableEq, Repr

/-- The accessor `seed.getUsername()`. -/
def SeedAccount.getUsername (seed : SeedAccount) : DaoId := seed.username

/-- The accessor `seed.getPubKey()`. -/
def SeedAccount.getPubKey (seed : SeedAccount) : Key := seed.keyPair

/-- The accessor `seed.getPrivKey()`. -/
def SeedAccount.getPrivKey (seed : SeedAccount) : Key := seed.keyPair

namespace Preset

/-- The function `getDaoCreator(seed)` of preset.js. -/
def getDaoCreator (config : Config) (seed : SeedAccount) : DaoId :=
  let faucetDaoId := config.FAUCET_ACCOUNT.username
  if Protocol.SUBSTRATE = config.PROTOCOL then
    seed.getUsername
  else
    .named faucetDaoId

/-- The function `getDaoCreatorPrivKey(seed)` of preset.js. -/
def getDaoCreatorPrivKey (config : Config) (seed : SeedAccount) : Key :=
  let faucetSeed := config.FAUCET_ACCOUNT.wif
  if Protocol.SUBSTRATE = config.PROTOCOL then
    seed.getPrivKey
  else
    .configured faucetSeed

end Preset

/-- The authority `{ owner: { auths: [{ key, weight: 1 }], weight: 1 } }` of a DAO held by one
key. -/
def singleKeyOwner (k : Key) : Owner := ⟨[⟨.key k, some 1⟩], 1⟩

/-- A transaction holding one plain command and signed once. -/
def Tx.single (c : Cmd) (k : Key) : Tx := ⟨[.cmd c], [k]⟩

/-! ## The authority graph of the specification -/

/-- The registered authorities, newest first. A DAO is registered when it is created; its
nested signers are looked up among the DAOs registered before it, so that resolution is
total. -/
abbrev Registry := List (DaoId × Owner)

/-- Modelled from the spec: the error of section 4.1 raised when a referenced signer has no
registered graph and is not an individual. -/
inductive AuthorityError where
  | UnknownPrincipal (d : DaoId)
  deriving DecidableEq, Repr

deriving instance DecidableEq for Except

/-- Modelled from the spec: the sum of section 4.1 over the entries of one graph. An entry
counts when its signer is in `approvedSet` directly, or when its signer is a group that
`satisfied` reports as satisfied; an individual counts iff it is in `approvedSet`. -/
def weightWith (satisfied : DaoId → Except AuthorityError Bool) (o : Owner)
    (approvedSet : List Signer) : Except AuthorityError Nat :=
  o.auths.foldlM (fun acc a =>
    if a.signer ∈ approvedSet then pure (acc + a.weightValue)
    else match a.signer with
      | .key _ => pure acc
      | .name g => do
        let ok ← satisfied g
        pure (if ok then acc + a.weightValue else acc)) 0

/-- Modelled from the spec: `isSatisfied(principal, approvedSet)` of section 4.1, that is
`resolveWeight(principal, approvedSet) >= principal.threshold`, by recursion through the
nested groups. -/
def isSatisfied : Registry → DaoId → List Signer → Except AuthorityError Bool
  | [], d, _ => .error (.UnknownPrincipal d)
  | (d', o) :: rest, d, approvedSet =>
    if d' = d then do
      let w ← weightWith (fun g => isSatisfied rest g approvedSet) o approvedSet
      pure (decide (o.weight ≤ w))
    else isSatisfied rest d approvedSet

/-- Modelled from the spec: `resolveWeight(principal, approvedSet)` of section 4.1. -/
def resolveWeight : Registry → DaoId → List Signer → Except AuthorityError Nat
  | [], d, _ => .error (.UnknownPrincipal d)
  | (d', o) :: rest, d, approvedSet =>
    if d' = d then weightWith (fun g => isSatisfied rest g approvedSet) o approvedSet
    else resolveWeight rest d approvedSet

/-- The threshold of a registered principal. -/
def threshold : Registry → DaoId → Except AuthorityError Nat
  | [], d => .error (.UnknownPrincipal d)
  | (d', o) :: rest, d => if d' = d then pure o.weight else threshold rest d

/-- Replace the authority of a registered DAO in place. -/
def Registry.modify (reg : Registry) (d : DaoId) (f : Owner → Owner) : Registry :=
  reg.map fun p => if p.1 = d then (p.1, f p.2) else p

/-- The effect of a command on the registered authorities. `CreateDaoCmd` registers the new
DAO, `AlterDaoAuthorityCmd` replaces an authority, `AddDaoMemberCmd` and `RemoveDaoMemberCmd`
add and remove a DAO signer and keep the threshold (every script passes
`isThresholdPreserved: true`); the command gives no weight for the added member. -/
def applyCmd (reg : Registry) : Cmd → Registry
  | .CreateDaoCmd entityId owner _ => (entityId, owner) :: reg
  | .AlterDaoAuthorityCmd entityId owner => reg.modify entityId fun _ => owner
  | .AddDaoMemberCmd teamId member _ =>
    reg.modify teamId fun o => ⟨o.auths ++ [⟨.name member, none⟩], o.weight⟩
  | .RemoveDaoMemberCmd teamId member _ =>
    reg.modify teamId fun o => ⟨o.auths.filter (fun a => a.signer ≠ .name member), o.weight⟩
  | _ => reg

/-- The registered authorities after a transaction. -/
def applyTx (reg : Registry) (tx : Tx) : Registry :=
  tx.cmds.foldl (fun r c => match c with
    | .cmd c => applyCmd r c
    | .CreateProposalCmd _ _ _ _ => r) reg

/-- The authorities a transaction is judged against: those in force before it, together
with the DAOs it creates. An altered authority takes effect for the later transactions. -/
def authoritiesFor (reg : Registry) (tx : Tx) : Registry :=
  tx.cmds.foldl (fun r c => match c with
    | .cmd (.CreateDaoCmd entityId owner _) => (entityId, owner) :: r
    | _ => r) reg

/-- Every transaction of a script paired with the authorities it is judged against. -/
def withAuthorities : Registry → List Tx → List (Registry × Tx)
  | _, [] => []
  | reg, tx :: txs => (authoritiesFor reg tx, tx) :: withAuthorities (applyTx reg tx) txs

/-- The individuals whose keys signed a transaction, as an approved set. -/
def Tx.approvedSet (tx : Tx) : List Signer := tx.signers.map Signer.key

/-- The approved set after the first `k` signatures of a transaction. -/
def Tx.approvedSetAfter (tx : Tx) (k : Nat) : List Signer := (tx.signers.take k).map Signer.key

/-! ## `src/casimir/story.js` -/

namespace CasimirStory

open DaoId ProposalId BatchWeightVar

def alice : SeedAccount := ⟨.named "alice", .alice⟩
def bob : SeedAccount := ⟨.named "bob", .bob⟩
def charlie : SeedAccount := ⟨.named "charlie", .charlie⟩
def dave : SeedAccount := ⟨.named "dave", .dave⟩
def eveTemp : SeedAccount := ⟨.named "eve", .eveTemp⟩
def eve : SeedAccount := ⟨.named "eve", .eve⟩
def treasury : SeedAccount := ⟨.named "treasury", .treasury⟩

def DAO_SEED_FUNDING_AMOUNT (config : Config) : JsValue := config.FAUCET_ACCOUNT.fundingAmount
def DAO_FUNDING_AMOUNT (config : Config) : JsValue := config.FAUCET_ACCOUNT.fundingAmount

def createAliceDaoTx (config : Config) : Tx :=
  Tx.single (.CreateDaoCmd aliceDaoId (singleKeyOwner alice.getPubKey)
    (Preset.getDaoCreator config alice)) (Preset.getDaoCreatorPrivKey config alice)

def createBobDaoTx (config : Config) : Tx :=
  Tx.single (.CreateDaoCmd bobDaoId (singleKeyOwner bob.getPubKey)
    (Preset.getDaoCreator config bob)) (Preset.getDaoCreatorPrivKey config bob)

def createCharlieDaoTx (config : Config) : Tx :=
  Tx.single (.CreateDaoCmd charlieDaoId (singleKeyOwner charlie.getPubKey)
    (Preset.getDaoCreator config charlie)) (Preset.getDaoCreatorPrivKey config charlie)

def createDaveDaoTx (config : Config) : Tx :=
  Tx.single (.CreateDaoCmd daveDaoId (singleKeyOwner dave.getPubKey)
    (Preset.getDaoCreator config dave)) (Preset.getDaoCreatorPrivKey config dave)

def createEveDaoTx (config : Config) : Tx :=
  Tx.single (.CreateDaoCmd eveDaoId (singleKeyOwner eveTemp.getPubKey)
    (Preset.getDaoCreator config eveTemp)) (Preset.getDaoCreatorPrivKey config eveTemp)

/-- The transaction that alters the authority of Eve DAO (the script calls it
`updateAliceDaoAuthTx`); it is signed with the key of `eveTemp`. -/
def updateAliceDaoAuthTx : Tx :=
  Tx.single (.AlterDaoAuthorityCmd eveDaoId (singleKeyOwner eve.getPubKey)) eveTemp.getPrivKey

def createAliceBobDaoTx : Tx :=
  Tx.single (.CreateDaoCmd aliceBobDaoId
    ⟨[⟨.name aliceDaoId, some 1⟩, ⟨.name bobDaoId, some 1⟩], 1⟩ aliceDaoId) alice.getPrivKey

def addEveDaoToAliceBobDaoTx : Tx :=
  Tx.single (.AddDaoMemberCmd aliceBobDaoId eveDaoId true) alice.getPrivKey

def removeEveDaoFromAliceBobDaoTx : Tx :=
  Tx.single (.RemoveDaoMemberCmd aliceBobDaoId eveDaoId true) alice.getPrivKey

def createEveCharlieDaoTx : Tx :=
  Tx.single (.CreateDaoCmd eveCharlieDaoId
    ⟨[⟨.name eveDaoId, some 1⟩, ⟨.name charlieDaoId, some 1⟩], 1⟩ eveDaoId) eve.getPrivKey

/-- Bob-Dave DAO, threshold 2: signed and submitted by Bob, then by Dave. -/
def createBobDaveDaoDaoTx : Tx :=
  ⟨[.cmd (.CreateDaoCmd bobDaveDaoId
      ⟨[⟨.name bobDaoId, some 1⟩, ⟨.name daveDaoId, some 1⟩], 2⟩ bobDaoId)],
   [bob.getPrivKey, dave.getPrivKey]⟩

def createMultigroup1Tx : Tx :=
  Tx.single (.CreateDaoCmd multigroup1DaoId
    ⟨[⟨.name eveCharlieDaoId, some 1⟩, ⟨.name bobDaveDaoId, some 1⟩], 1⟩ eveDaoId)
    eve.getPrivKey

/-- Multigroup-2 DAO, threshold 2: signed and submitted by Eve, then Bob, then Dave. -/
def createMultigroup2Tx : Tx :=
  ⟨[.cmd (.CreateDaoCmd multigroup2DaoId
      ⟨[⟨.name eveCharlieDaoId, some 1⟩, ⟨.name bobDaveDaoId, some 1⟩], 2⟩ eveDaoId)],
   [eve.getPrivKey, bob.getPrivKey, dave.getPrivKey]⟩

def createTreasuryDaoTx (config : Config) : Tx :=
  Tx.single (.CreateDaoCmd treasuryDaoId (singleKeyOwner treasury.getPubKey)
    (Preset.getDaoCreator config treasury)) (Preset.getDaoCreatorPrivKey config treasury)

def updateAliceDaoTx : Tx := Tx.single (.UpdateDaoCmd aliceDaoId) alice.getPrivKey
def createProject1Tx : Tx := Tx.single (.CreateProjectCmd aliceDaoId) alice.getPrivKey
def updateProject1Tx : Tx := Tx.single (.UpdateProjectCmd aliceDaoId) alice.getPrivKey

def createProject1Content1Tx : Tx :=
  Tx.single (.CreateProjectContentCmd aliceDaoId [aliceDaoId]) alice.getPrivKey

def createReview1Project1Content1Tx : Tx := Tx.single (.CreateReviewCmd bobDaoId) bob.getPrivKey

def upvote1Review1Project1Content1Tx : Tx :=
  Tx.single (.UpvoteReviewCmd charlieDaoId) charlie.getPrivKey

/-- Project-2 of Multigroup-2: signed and submitted by Eve, then Bob, then Dave. -/
def createProject2Tx : Tx :=
  ⟨[.cmd (.CreateProjectCmd multigroup2DaoId)], [eve.getPrivKey, bob.getPrivKey, dave.getPrivKey]⟩

def createProject3Cmd : Cmd := .CreateProjectCmd aliceBobDaoId
def createProject4Cmd : Cmd := .CreateProjectCmd bobDaveDaoId
def fundProject4Cmd : Cmd := .TransferAssetCmd charlieDaoId bobDaveDaoId
def fundProject3Cmd : Cmd := .TransferAssetCmd multigroup1DaoId aliceBobDaoId

def proposal1Batch : List Cmd :=
  [createProject3Cmd, createProject4Cmd, fundProject4Cmd, fundProject3Cmd]

def createProposal1Tx : Tx :=
  ⟨[.CreateProposalCmd proposal1Id eveCharlieDaoId proposal1Batch none], [eve.getPrivKey]⟩

def decideOnProposal1ByAliceBobDaoTx : Tx :=
  Tx.single (.AcceptProposalCmd proposal1Id aliceBobDaoId proposal1BatchWeight) alice.getPrivKey

/-- Bob-Dave DAO accepts Proposal-1: signed and submitted by Bob, then by Dave. -/
def decideOnProposal1ByBobDaveDaoTx : Tx :=
  ⟨[.cmd (.AcceptProposalCmd proposal1Id bobDaveDaoId proposal1BatchWeight)],
   [bob.getPrivKey, dave.getPrivKey]⟩

def decideOnProposal1ByCharlieTx : Tx :=
  Tx.single (.AcceptProposalCmd proposal1Id charlieDaoId proposal1BatchWeight) charlie.getPrivKey

def decideOnProposal1ByMultigroup1DaoTx : Tx :=
  Tx.single (.AcceptProposalCmd proposal1Id multigroup1DaoId proposal1BatchWeight) eve.getPrivKey

def createStablecoin1Tx : Tx :=
  Tx.single (.CreateFungibleTokenCmd treasuryDaoId) treasury.getPrivKey

def issueStablecoin1Tx : Tx :=
  ⟨[.cmd (.IssueFungibleTokenCmd treasuryDaoId bobDaoId),
    .cmd (.IssueFungibleTokenCmd treasuryDaoId eveDaoId),
    .cmd (.IssueFungibleTokenCmd treasuryDaoId charlieDaoId)], [treasury.getPrivKey]⟩

def createFt1Tx : Tx := Tx.single (.CreateFungibleTokenCmd aliceDaoId) alice.getPrivKey
def issueFt1Tx : Tx := Tx.single (.IssueFungibleTokenCmd aliceDaoId aliceDaoId) alice.getPrivKey
def transferFt1Tx : Tx := Tx.single (.TransferAssetCmd aliceDaoId charlieDaoId) alice.getPrivKey
def createNft2Tx : Tx := Tx.single (.CreateNonFungibleTokenCmd aliceDaoId) alice.getPrivKey

def issueNft2ToAliceDaoTx : Tx :=
  Tx.single (.IssueNonFungibleTokenCmd aliceDaoId aliceDaoId) alice.getPrivKey

def issueNft2ToBobDaoTx : Tx :=
  Tx.single (.IssueNonFungibleTokenCmd aliceDaoId bobDaoId) alice.getPrivKey

def createNft3Tx : Tx := Tx.single (.CreateNonFungibleTokenCmd aliceDaoId) alice.getPrivKey

def issueNft3ToAliceDaoTx : Tx :=
  Tx.single (.IssueNonFungibleTokenCmd aliceDaoId aliceDaoId) alice.getPrivKey

def transferNft2Tx : Tx := Tx.single (.TransferAssetCmd aliceDaoId charlieDaoId) alice.getPrivKey

def createInvestmentOpportunityTx : Tx :=
  Tx.single (.CreateInvestmentOpportunityCmd aliceDaoId) alice.getPrivKey

def investToInvestmentOpportunity1ByBobTx : Tx := Tx.single (.InvestCmd bobDaoId) bob.getPrivKey
def investToInvestmentOpportunity1ByEveTx : Tx := Tx.single (.InvestCmd eveDaoId) eve.getPrivKey

def createContractAgreement1Tx : Tx :=
  Tx.single (.CreateContractAgreementCmd aliceDaoId [charlieDaoId, aliceDaoId]) alice.getPrivKey

def acceptContractAgreement1ByAliceTx : Tx :=
  Tx.single (.AcceptContractAgreementCmd aliceDaoId) alice.getPrivKey

def acceptContractAgreement1ByCharlieTx : Tx :=
  Tx.single (.AcceptContractAgreementCmd charlieDaoId) charlie.getPrivKey

/-- The steps of `run()` of casimir/story.js, in script order. -/
def run (config : Config) : List Step :=
  [ .fundAddressFromFaucet (.key alice.getPubKey) (DAO_SEED_FUNDING_AMOUNT config),
    .submit (createAliceDaoTx config),
    .fundAddressFromFaucet (.name aliceDaoId) (DAO_FUNDING_AMOUNT config),
    .fundAddressFromFaucet (.key bob.getPubKey) (DAO_SEED_FUNDING_AMOUNT config),
    .submit (createBobDaoTx config),
    .fundAddressFromFaucet (.name bobDaoId) (DAO_FUNDING_AMOUNT config),
    .fundAddressFromFaucet (.key charlie.getPubKey) (DAO_SEED_FUNDING_AMOUNT config),
    .submit (createCharlieDaoTx config),
    .fundAddressFromFaucet (.name charlieDaoId) (DAO_FUNDING_AMOUNT config),
    .fundAddressFromFaucet (.key dave.getPubKey) (DAO_SEED_FUNDING_AMOUNT config),
    .submit (createDaveDaoTx config),
    .fundAddressFromFaucet (.name daveDaoId) (DAO_FUNDING_AMOUNT config),
    .fundAddressFromFaucet (.key eveTemp.getPubKey) (DAO_SEED_FUNDING_AMOUNT config),
    .submit (createEveDaoTx config),
    .fundAddressFromFaucet (.name eveDaoId) (DAO_FUNDING_AMOUNT config),
    .fundAddressFromFaucet (.key eve.getPubKey) (DAO_SEED_FUNDING_AMOUNT config),
    .submit updateAliceDaoAuthTx,
    .submit createAliceBobDaoTx,
    .fundAddressFromFaucet (.name aliceBobDaoId) (DAO_FUNDING_AMOUNT config),
    .submit addEveDaoToAliceBobDaoTx,
    .submit removeEveDaoFromAliceBobDaoTx,
    .submit createEveCharlieDaoTx,
    .fundAddressFromFaucet (.name eveCharlieDaoId) (DAO_FUNDING_AMOUNT config),
    .submit createBobDaveDaoDaoTx,
    .fundAddressFromFaucet (.name bobDaveDaoId) (DAO_FUNDING_AMOUNT config),
    .submit createMultigroup1Tx,
    .fundAddressFromFaucet (.name multigroup1DaoId) (DAO_FUNDING_AMOUNT config),
    .submit createMultigroup2Tx,
    .fundAddressFromFaucet (.name multigroup2DaoId) (DAO_FUNDING_AMOUNT config),
    .fundAddressFromFaucet (.key treasury.getPubKey) (DAO_SEED_FUNDING_AMOUNT config),
    .submit (createTreasuryDaoTx config),
    .fundAddressFromFaucet (.name treasuryDaoId) (.string "1000000000000000000000"),
    .submit updateAliceDaoTx,
    .submit createProject1Tx,
    .submit updateProject1Tx,
    .submit createProject1Content1Tx,
    .submit createReview1Project1Content1Tx,
    .submit upvote1Review1Project1Content1Tx,
    .submit createProject2Tx,
    .getBatchWeight proposal1BatchWeight proposal1Batch,
    .submit createProposal1Tx,
    .submit decideOnProposal1ByAliceBobDaoTx,
    .submit decideOnProposal1ByBobDaveDaoTx,
    .submit decideOnProposal1ByCharlieTx,
    .submit decideOnProposal1ByMultigroup1DaoTx,
    .submit createStablecoin1Tx,
    .submit issueStablecoin1Tx,
    .submit createFt1Tx,
    .submit issueFt1Tx,
    .submit transferFt1Tx,
    .submit createNft2Tx,
    .submit issueNft2ToAliceDaoTx,
    .submit issueNft2ToBobDaoTx,
    .submit createNft3Tx,
    .submit issueNft3ToAliceDaoTx,
    .submit transferNft2Tx,
    .submit createInvestmentOpportunityTx,
    .submit investToInvestmentOpportunity1ByBobTx,
    .submit investToInvestmentOpportunity1ByEveTx,
    .submit createContractAgreement1Tx,
    .submit acceptContractAgreement1ByAliceTx,
    .submit acceptContractAgreement1ByCharlieTx ]

end CasimirStory

/-! ## `src/casimir-nowar-nft-flow/story.js` -/

namespace NftFlow

open DaoId ProposalId BatchWeightVar

def alice : SeedAccount := ⟨.named "alice", .alice⟩
def bob : SeedAccount := ⟨.named "bob", .bob⟩
def creator : SeedAccount := ⟨.named "creator", .creator⟩
def buyer : SeedAccount := ⟨.named "buyer", .buyer⟩

def DAO_SEED_FUNDING_AMOUNT (config : Config) : JsValue := config.FAUCET_ACCOUNT.fundingAmount
def DAO_FUNDING_AMOUNT (config : Config) : JsValue := config.FAUCET_ACCOUNT.fundingAmount

def createAliceDaoTx (config : Config) : Tx :=
  Tx.single (.CreateDaoCmd aliceDaoId (singleKeyOwner alice.getPubKey)
    (Preset.getDaoCreator config alice)) (Preset.getDaoCreatorPrivKey config alice)

def createBobDaoTx (config : Config) : Tx :=
  Tx.single (.CreateDaoCmd bobDaoId (singleKeyOwner bob.getPubKey)
    (Preset.getDaoCreator config bob)) (Preset.getDaoCreatorPrivKey config bob)

def createModeratorDaoTx : Tx :=
  Tx.single (.CreateDaoCmd moderatorDaoId
    ⟨[⟨.name aliceDaoId, some 1⟩, ⟨.name bobDaoId, some 1⟩], 1⟩ aliceDaoId) alice.getPrivKey

def createCreatorDaoTx (config : Config) : Tx :=
  Tx.single (.CreateDaoCmd creatorDaoId
    ⟨[⟨.key creator.getPubKey, some 1⟩, ⟨.name moderatorDaoId, some 1⟩], 1⟩
    (Preset.getDaoCreator config creator)) (Preset.getDaoCreatorPrivKey config creator)

def createBuyerDaoTx (config : Config) : Tx :=
  Tx.single (.CreateDaoCmd buyerDaoId
    ⟨[⟨.key buyer.getPubKey, some 1⟩, ⟨.name moderatorDaoId, some 1⟩], 1⟩
    (Preset.getDaoCreator config buyer)) (Preset.getDaoCreatorPrivKey config buyer)

def createProject1Tx : Tx := Tx.single (.CreateProjectCmd creatorDaoId) creator.getPrivKey

def transferFt1 : Cmd := .TransferFungibleTokenCmd buyerDaoId (.name moderatorDaoId)
def createProjectContentCmd : Cmd := .CreateProjectContentCmd creatorDaoId [creatorDaoId]
def createNft1Cmd : Cmd := .CreateNonFungibleTokenCmd creatorDaoId
def issueNft1ToBuyerDaoCmd : Cmd := .IssueNonFungibleTokenCmd creatorDaoId buyerDaoId

def proposal1Batch : List Cmd :=
  [transferFt1, createProjectContentCmd, createNft1Cmd, issueNft1ToBuyerDaoCmd]

def createProposal1Tx : Tx :=
  ⟨[.CreateProposalCmd proposal1Id buyerDaoId proposal1Batch none], [buyer.getPrivKey]⟩

/-- Built before the acceptance of Buyer DAO, signed (with the key of Alice) and submitted
after it. -/
def decideOnProposal1ByCreatorDaoTx : Tx :=
  Tx.single (.AcceptProposalCmd proposal1Id creatorDaoId proposal1BatchWeight) alice.getPrivKey

def decideOnProposal1ByBuyerDaoTx : Tx :=
  Tx.single (.AcceptProposalCmd proposal1Id buyerDaoId proposal1BatchWeight) buyer.getPrivKey

/-- The steps of `run()` of casimir-nowar-nft-flow/story.js, in order of execution. -/
def run (config : Config) : List Step :=
  [ .fundAddressFromFaucet (.key alice.getPubKey) (DAO_SEED_FUNDING_AMOUNT config),
    .submit (createAliceDaoTx config),
    .fundAddressFromFaucet (.name aliceDaoId) (DAO_FUNDING_AMOUNT config),
    .fundAddressFromFaucet (.key bob.getPubKey) (DAO_SEED_FUNDING_AMOUNT config),
    .submit (createBobDaoTx config),
    .fundAddressFromFaucet (.name bobDaoId) (DAO_FUNDING_AMOUNT config),
    .submit createModeratorDaoTx,
    .fundAddressFromFaucet (.name moderatorDaoId) (DAO_FUNDING_AMOUNT config),
    .fundAddressFromFaucet (.key creator.getPubKey) (DAO_SEED_FUNDING_AMOUNT config),
    .submit (createCreatorDaoTx config),
    .fundAddressFromFaucet (.name creatorDaoId) (DAO_FUNDING_AMOUNT config),
    .fundAddressFromFaucet (.key buyer.getPubKey) (DAO_SEED_FUNDING_AMOUNT config),
    .submit (createBuyerDaoTx config),
    .fundAddressFromFaucet (.name buyerDaoId) (DAO_FUNDING_AMOUNT config),
    .submit createProject1Tx,
    .getBatchWeight proposal1BatchWeight proposal1Batch,
    .submit createProposal1Tx,
    .submit decideOnProposal1ByBuyerDaoTx,
    .submit decideOnProposal1ByCreatorDaoTx ]

end NftFlow

/-! ## `src/casimir-nowar-nft-flow-lazy/story.js` -/

namespace NftFlowLazy

open DaoId ProposalId BatchWeightVar

def alice : SeedAccount := ⟨.named "alice", .alice⟩
def bob : SeedAccount := ⟨.named "bob", .bob⟩
def creator : SeedAccount := ⟨.named "creator", .creator⟩
def buyer : SeedAccount := ⟨.named "buyer", .buyer⟩

def DAO_SEED_FUNDING_AMOUNT (config : Config) : JsValue := config.FAUCET_ACCOUNT.fundingAmount
def DAO_FUNDING_AMOUNT (config : Config) : JsValue := config.FAUCET_ACCOUNT.fundingAmount

def createAliceDaoTx (config : Config) : Tx :=
  Tx.single (.CreateDaoCmd aliceDaoId (singleKeyOwner alice.getPubKey)
    (Preset.getDaoCreator config alice)) (Preset.getDaoCreatorPrivKey config alice)

def createBobDaoTx (config : Config) : Tx :=
  Tx.single (.CreateDaoCmd bobDaoId (singleKeyOwner bob.getPubKey)
    (Preset.getDaoCreator config bob)) (Preset.getDaoCreatorPrivKey config bob)

def createModeratorDaoTx : Tx :=
  Tx.single (.CreateDaoCmd moderatorDaoId
    ⟨[⟨.name aliceDaoId, some 1⟩, ⟨.name bobDaoId, some 1⟩], 1⟩ aliceDaoId) alice.getPrivKey

def createCreatorDaoTx (config : Config) : Tx :=
  Tx.single (.CreateDaoCmd creatorDaoId
    ⟨[⟨.key creator.getPubKey, some 1⟩, ⟨.name moderatorDaoId, some 1⟩], 1⟩
    (Preset.getDaoCreator config creator)) (Preset.getDaoCreatorPrivKey config creator)

def createBuyerDaoTx (config : Config) : Tx :=
  Tx.single (.CreateDaoCmd buyerDaoId
    ⟨[⟨.key buyer.getPubKey, some 1⟩, ⟨.name moderatorDaoId, some 1⟩], 1⟩
    (Preset.getDaoCreator config buyer)) (Preset.getDaoCreatorPrivKey config buyer)

def createNftClass1Tx : Tx := Tx.single (.CreateNonFungibleTokenCmd creatorDaoId) creator.getPrivKey

def updateNftClass1OwnerTx : Tx :=
  Tx.single (.UpdateNonFungibleTokenOwnerCmd creatorDaoId moderatorDaoId) creator.getPrivKey

def updateNftClass1TeamTx : Tx :=
  Tx.single (.UpdateNonFungibleTokenTeamCmd moderatorDaoId) alice.getPrivKey

def createNftInstance1Tx : Tx :=
  Tx.single (.IssueNonFungibleTokenCmd moderatorDaoId buyerDaoId) alice.getPrivKey

def transferFt1 : Cmd := .TransferFungibleTokenCmd buyerDaoId (.name moderatorDaoId)
def issueNft1ToBuyerDaoCmd : Cmd := .IssueNonFungibleTokenCmd moderatorDaoId buyerDaoId

def proposal1Batch : List Cmd := [transferFt1, issueNft1ToBuyerDaoCmd]

def createProposal1Tx : Tx :=
  ⟨[.CreateProposalCmd proposal1Id buyerDaoId proposal1Batch none], [buyer.getPrivKey]⟩

def decideOnProposal1ByModeratorDaoTx : Tx :=
  Tx.single (.AcceptProposalCmd proposal1Id moderatorDaoId proposal1BatchWeight) alice.getPrivKey

def decideOnProposal1ByBuyerDaoTx : Tx :=
  Tx.single (.AcceptProposalCmd proposal1Id buyerDaoId proposal1BatchWeight) buyer.getPrivKey

/-- The steps of `run()` of casimir-nowar-nft-flow-lazy/story.js, in script order. -/
def run (config : Config) : List Step :=
  [ .fundAddressFromFaucet (.key alice.getPubKey) (DAO_SEED_FUNDING_AMOUNT config),
    .submit (createAliceDaoTx config),
    .fundAddressFromFaucet (.name aliceDaoId) (DAO_FUNDING_AMOUNT config),
    .fundAddressFromFaucet (.key bob.getPubKey) (DAO_SEED_FUNDING_AMOUNT config),
    .submit (createBobDaoTx config),
    .fundAddressFromFaucet (.name bobDaoId) (DAO_FUNDING_AMOUNT config),
    .submit createModeratorDaoTx,
    .fundAddressFromFaucet (.name moderatorDaoId) (DAO_FUNDING_AMOUNT config),
    .fundAddressFromFaucet (.key creator.getPubKey) (DAO_SEED_FUNDING_AMOUNT config),
    .submit (createCreatorDaoTx config),
    .fundAddressFromFaucet (.name creatorDaoId) (DAO_FUNDING_AMOUNT config),
    .fundAddressFromFaucet (.key buyer.getPubKey) (DAO_SEED_FUNDING_AMOUNT config),
    .submit (createBuyerDaoTx config),
    .fundAddressFromFaucet (.name buyerDaoId) (DAO_FUNDING_AMOUNT config),
    .submit createNftClass1Tx,
    .submit updateNftClass1OwnerTx,
    .submit updateNftClass1TeamTx,
    .submit createNftInstance1Tx,
    .getBatchWeight proposal1BatchWeight proposal1Batch,
    .submit createProposal1Tx,
    .submit decideOnProposal1ByModeratorDaoTx,
    .submit decideOnProposal1ByBuyerDaoTx ]

end NftFlowLazy

/-! ## `src/casimir-nowar-nft-flow-lazy-2-proposals/story.js` -/

namespace NftFlowLazy2Proposals

open DaoId ProposalId BatchWeightVar

def alice : SeedAccount := ⟨.named "alice", .alice⟩
def bob : SeedAccount := ⟨.named "bob", .bob⟩
def creator : SeedAccount := ⟨.named "creator", .creator⟩
def buyer : SeedAccount := ⟨.named "buyer", .buyer⟩
def hotWallet : SeedAccount := ⟨.named "hotWallet", .hotWallet⟩

def DAO_SEED_FUNDING_AMOUNT (config : Config) : JsValue := config.FAUCET_ACCOUNT.fundingAmount
def DAO_FUNDING_AMOUNT (config : Config) : JsValue := config.FAUCET_ACCOUNT.fundingAmount

def createAliceDaoTx (config : Config) : Tx :=
  Tx.single (.CreateDaoCmd aliceDaoId (singleKeyOwner alice.getPubKey)
    (Preset.getDaoCreator config alice)) (Preset.getDaoCreatorPrivKey config alice)

def createBobDaoTx (config : Config) : Tx :=
  Tx.single (.CreateDaoCmd bobDaoId (singleKeyOwner bob.getPubKey)
    (Preset.getDaoCreator config bob)) (Preset.getDaoCreatorPrivKey config bob)

def createModeratorDaoTx : Tx :=
  Tx.single (.CreateDaoCmd moderatorDaoId
    ⟨[⟨.name aliceDaoId, some 1⟩, ⟨.name bobDaoId, some 1⟩], 1⟩ aliceDaoId) alice.getPrivKey

def createCreatorDaoTx (config : Config) : Tx :=
  Tx.single (.CreateDaoCmd creatorDaoId
    ⟨[⟨.key creator.getPubKey, some 1⟩, ⟨.name moderatorDaoId, some 1⟩], 1⟩
    (Preset.getDaoCreator config creator)) (Preset.getDaoCreatorPrivKey config creator)

def createBuyerDaoTx (config : Config) : Tx :=
  Tx.single (.CreateDaoCmd buyerDaoId
    ⟨[⟨.key buyer.getPubKey, some 1⟩, ⟨.name moderatorDaoId, some 1⟩], 1⟩
    (Preset.getDaoCreator config buyer)) (Preset.getDaoCreatorPrivKey config buyer)

def createHotWalletDaoTx (config : Config) : Tx :=
  Tx.single (.CreateDaoCmd hotWalletDaoId
    ⟨[⟨.key hotWallet.getPubKey, some 1⟩, ⟨.name moderatorDaoId, some 1⟩], 1⟩
    (Preset.getDaoCreator config hotWallet)) (Preset.getDaoCreatorPrivKey config hotWallet)

def createNftClass1Tx : Tx := Tx.single (.CreateNonFungibleTokenCmd creatorDaoId) creator.getPrivKey

/-- The batch of Proposal-1 (`proposal1Batch` of the first builder callback). -/
def proposal1Batch : List Cmd :=
  [ .TransferFungibleTokenCmd hotWalletDaoId (.name creatorDaoId),
    .IssueNonFungibleTokenCmd creatorDaoId hotWalletDaoId ]

def createProposal1Tx : Tx :=
  ⟨[ .CreateProposalCmd proposal1Id creatorDaoId proposal1Batch none,
     .cmd (.AcceptProposalCmd proposal1Id creatorDaoId proposal1BatchWeight) ],
   [creator.getPrivKey]⟩

def acceptProposal1Cmd : Cmd := .AcceptProposalCmd proposal1Id hotWalletDaoId proposal1BatchWeight

/-- The batch of Proposal-2 (the script names this second list `proposal1Batch` again, local
to the second builder callback). -/
def proposal2Batch : List Cmd :=
  [ .TransferFungibleTokenCmd buyerDaoId (.name hotWalletDaoId),
    acceptProposal1Cmd,
    .TransferNonFungibleTokenCmd hotWalletDaoId buyerDaoId ]

def createProposal2Tx : Tx :=
  ⟨[ .CreateProposalCmd proposal2Id buyerDaoId proposal2Batch none,
     .cmd (.AcceptProposalCmd proposal2Id buyerDaoId proposal2BatchWeight) ],
   [buyer.getPrivKey]⟩

def decideOnProposal2ByHotWalletDaoTx : Tx :=
  Tx.single (.AcceptProposalCmd proposal2Id hotWalletDaoId proposal2BatchWeight)
    hotWallet.getPrivKey

/-- The steps of `run()` of casimir-nowar-nft-flow-lazy-2-proposals/story.js, in script
order. -/
def run (config : Config) : List Step :=
  [ .fundAddressFromFaucet (.key alice.getPubKey) (DAO_SEED_FUNDING_AMOUNT config),
    .submit (createAliceDaoTx config),
    .fundAddressFromFaucet (.name aliceDaoId) (DAO_FUNDING_AMOUNT config),
    .fundAddressFromFaucet (.key bob.getPubKey) (DAO_SEED_FUNDING_AMOUNT config),
    .submit (createBobDaoTx config),
    .fundAddressFromFaucet (.name bobDaoId) (DAO_FUNDING_AMOUNT config),
    .submit createModeratorDaoTx,
    .fundAddressFromFaucet (.name moderatorDaoId) (DAO_FUNDING_AMOUNT config),
    .fundAddressFromFaucet (.key creator.getPubKey) (DAO_SEED_FUNDING_AMOUNT config),
    .submit (createCreatorDaoTx config),
    .fundAddressFromFaucet (.name creatorDaoId) (DAO_FUNDING_AMOUNT config),
    .fundAddressFromFaucet (.key buyer.getPubKey) (DAO_SEED_FUNDING_AMOUNT config),
    .submit (createBuyerDaoTx config),
    .fundAddressFromFaucet (.name buyerDaoId) (DAO_FUNDING_AMOUNT config),
    .fundAddressFromFaucet (.key hotWallet.getPubKey) (DAO_SEED_FUNDING_AMOUNT config),
    .submit (createHotWalletDaoTx config),
    .fundAddressFromFaucet (.name hotWalletDaoId) (DAO_FUNDING_AMOUNT config),
    .submit createNftClass1Tx,
    .getBatchWeight proposal1BatchWeight proposal1Batch,
    .submit createProposal1Tx,
    .getBatchWeight proposal2BatchWeight proposal2Batch,
    .submit createProposal2Tx,
    .submit decideOnProposal2ByHotWalletDaoTx ]

end NftFlowLazy2Proposals

/-! ## `src/casimir-nowar-nft-portal-collection/story.js` -/

namespace NftPortalCollection

open DaoId ProposalId BatchWeightVar

def creator : SeedAccount := ⟨.named "creator", .creator⟩
def buyer : SeedAccount := ⟨.named "buyer", .buyer⟩
def hotWallet : SeedAccount := ⟨.named "hotWallet", .hotWallet⟩

def DAO_SEED_FUNDING_AMOUNT (config : Config) : JsValue := config.FAUCET_ACCOUNT.fundingAmount
def DAO_FUNDING_AMOUNT (config : Config) : JsValue := config.FAUCET_ACCOUNT.fundingAmount

def createCreatorDaoTx (config : Config) : Tx :=
  Tx.single (.CreateDaoCmd creatorDaoId (singleKeyOwner creator.getPubKey)
    (Preset.getDaoCreator config creator)) (Preset.getDaoCreatorPrivKey config creator)

def createBuyerDaoTx (config : Config) : Tx :=
  Tx.single (.CreateDaoCmd buyerDaoId (singleKeyOwner buyer.getPubKey)
    (Preset.getDaoCreator config buyer)) (Preset.getDaoCreatorPrivKey config buyer)

def createHotWalletDaoTx (config : Config) : Tx :=
  Tx.single (.CreateDaoCmd hotWalletDaoId (singleKeyOwner hotWallet.getPubKey)
    (Preset.getDaoCreator config hotWallet)) (Preset.getDaoCreatorPrivKey config hotWallet)

def createNftClass1Tx : Tx :=
  Tx.single (.CreateNonFungibleTokenCmd hotWalletDaoId) hotWallet.getPrivKey

def transferFt : Cmd := .TransferFungibleTokenCmd buyerDaoId (.name creatorDaoId)
def issueNft : Cmd := .IssueNonFungibleTokenCmd hotWalletDaoId buyerDaoId

def proposal1Batch : List Cmd := [transferFt, issueNft]

/-- The `CreateProposalCmd` of this script also receives the `batchWeight` just computed. -/
def createProposal1Tx : Tx :=
  ⟨[ .CreateProposalCmd proposal1Id buyerDaoId proposal1Batch (some proposal1BatchWeight),
     .cmd (.AcceptProposalCmd proposal1Id buyerDaoId proposal1BatchWeight) ],
   [buyer.getPrivKey]⟩

def decideOnProposal1ByHotWalletDaoTx : Tx :=
  Tx.single (.AcceptProposalCmd proposal1Id hotWalletDaoId proposal1BatchWeight)
    hotWallet.getPrivKey

/-- The steps of `run()` of casimir-nowar-nft-portal-collection/story.js, in script order. -/
def run (config : Config) : List Step :=
  [ .fundAddressFromFaucet (.key creator.getPubKey) (DAO_SEED_FUNDING_AMOUNT config),
    .submit (createCreatorDaoTx config),
    .fundAddressFromFaucet (.name creatorDaoId) (DAO_FUNDING_AMOUNT config),
    .fundAddressFromFaucet (.key buyer.getPubKey) (DAO_SEED_FUNDING_AMOUNT config),
    .submit (createBuyerDaoTx config),
    .fundAddressFromFaucet (.name buyerDaoId) (DAO_FUNDING_AMOUNT config),
    .fundAddressFromFaucet (.key hotWallet.getPubKey) (DAO_SEED_FUNDING_AMOUNT config),
    .submit (createHotWalletDaoTx config),
    .fundAddressFromFaucet (.name hotWalletDaoId) (DAO_FUNDING_AMOUNT config),
    .submit createNftClass1Tx,
    .getBatchWeight proposal1BatchWeight proposal1Batch,
    .submit createProposal1Tx,
    .submit decideOnProposal1ByHotWalletDaoTx ]

end NftPortalCollection

/-! ## `src/casimir/preset.js`: the set-up that every Casimir script runs first -/

namespace Preset

/-- The `owner` that `createFaucet` builds: it starts as `{ auths: [], weight: 1 }` and
receives one entry, `{ key: seedPubKey }` under SUBSTRATE and `{ name: faucetDaoId }`
otherwise; neither entry carries a weight. -/
def faucetOwner (config : Config) : Owner :=
  let faucetDaoId := config.FAUCET_ACCOUNT.username
  let owner : Owner := ⟨[], 1⟩
  if Protocol.SUBSTRATE = config.PROTOCOL then
    let seedPubKey := Key.configured config.DEIP_APPCHAIN_FAUCET_SUBSTRATE_SEED_ACCOUNT_JSON
    ⟨owner.auths ++ [⟨.key seedPubKey, none⟩], owner.weight⟩
  else
    ⟨owner.auths ++ [⟨.name (.named faucetDaoId), none⟩], owner.weight⟩

def createFaucetDaoTx (config : Config) : Tx :=
  Tx.single (.CreateDaoCmd (.named config.FAUCET_ACCOUNT.username) (faucetOwner config)
    (.named "faucet")) (.configured config.FAUCET_ACCOUNT.wif)

/-- The transaction of `createCoreTokenAssetMarker`. -/
def createCoreTokenAssetTx (config : Config) : Tx :=
  Tx.single (.CreateFungibleTokenCmd (.named config.FAUCET_ACCOUNT.username))
    (.configured config.FAUCET_ACCOUNT.wif)

/-- The transaction that `createFaucetStablecoins` builds for one stablecoin. -/
def createAndIssueAssetTx (config : Config) : Tx :=
  ⟨[ .cmd (.CreateFungibleTokenCmd (.named config.FAUCET_ACCOUNT.username)),
     .cmd (.IssueFungibleTokenCmd (.named config.FAUCET_ACCOUNT.username)
       (.named config.FAUCET_ACCOUNT.username)) ],
   [.configured config.FAUCET_ACCOUNT.wif]⟩

def tenantSeed (config : Config) : SeedAccount :=
  ⟨.named config.TENANT_DATA.id, .configured config.TENANT_DATA.privKey⟩

def createTenantDaoTx (config : Config) : Tx :=
  Tx.single (.CreateDaoCmd (.named config.TENANT_DATA.id)
    (singleKeyOwner (tenantSeed config).getPubKey) (getDaoCreator config (tenantSeed config)))
    (getDaoCreatorPrivKey config (tenantSeed config))

def createTenantPortalTx (config : Config) : Tx :=
  Tx.single (.CreatePortalCmd (.named config.TENANT_DATA.id))
    (getDaoCreatorPrivKey config (tenantSeed config))

def tenantMember (member : TenantMember) : SeedAccount :=
  ⟨.named member.daoId, .fromPassword member.daoId member.password⟩

def createTenantMemberDaoTx (config : Config) (member : TenantMember) : Tx :=
  Tx.single (.CreateDaoCmd (.named member.daoId)
    (singleKeyOwner (tenantMember member).getPubKey)
    (getDaoCreator config (tenantMember member)))
    (getDaoCreatorPrivKey config (tenantMember member))

def addTenantMemberDaoToTenantDaoTx (config : Config) (member : TenantMember) : Tx :=
  Tx.single (.AddDaoMemberCmd (.named config.TENANT_DATA.id) (.named member.daoId) true)
    (tenantSeed config).getPrivKey

def hotWallet : SeedAccount := ⟨.hotWalletDaoId, .hotWallet⟩

def createHotWalletDaoTx (config : Config) : Tx :=
  Tx.single (.CreateDaoCmd .hotWalletDaoId (singleKeyOwner hotWallet.getPubKey)
    (getDaoCreator config hotWallet)) (getDaoCreatorPrivKey config hotWallet)

/-- What the read-model answers while `setup()` runs: which accounts and assets exist already,
and the `daoId`s listed in the authority of the tenant DAO. -/
structure ChainView where
  existingFaucetDao : Bool
  existingCoreAsset : Bool
  existingStablecoin : String → Bool
  existingTenantDao : Bool
  tenantDaoAuthDaoIds : List String
  existingTenantMemberDao : String → Bool

/-- The steps of `createFaucetStablecoins`. -/
def createFaucetStablecoins (config : Config) (chain : ChainView) : List Step :=
  config.DEIP_APPCHAIN_FAUCET_STABLECOINS.flatMap fun stablecoin =>
    if chain.existingStablecoin stablecoin.id then []
    else [.submit (createAndIssueAssetTx config)]

/-- The steps of `createCoreTokenAssetMarker`. -/
def createCoreTokenAssetMarker (config : Config) (chain : ChainView) : List Step :=
  if chain.existingCoreAsset then [] else [.submit (createCoreTokenAssetTx config)]

/-- The steps of `createFaucet`. -/
def createFaucet (config : Config) (chain : ChainView) : List Step :=
  if chain.existingFaucetDao then []
  else
    [.submit (createFaucetDaoTx config)]
    ++ (if Protocol.SUBSTRATE = config.PROTOCOL then
          [.balancesTransfer (.named config.FAUCET_ACCOUNT.username)
            config.DEIP_APPCHAIN_FAUCET_BALANCE
            (.configured config.DEIP_APPCHAIN_FAUCET_SUBSTRATE_SEED_ACCOUNT_JSON)]
        else [])
    ++ createCoreTokenAssetMarker config chain
    ++ createFaucetStablecoins config chain

/-- The steps of `createTenantDaoWithPortal`. -/
def createTenantDaoWithPortal (config : Config) (chain : ChainView) : List Step :=
  (if !chain.existingTenantDao then
      [ .fundAddressFromFaucet (.key (tenantSeed config).getPubKey)
          config.FAUCET_ACCOUNT.fundingAmount,
        .submit (createTenantDaoTx config),
        .fundAddressFromFaucet (.name (.named config.TENANT_DATA.id))
          config.FAUCET_ACCOUNT.fundingAmount,
        .submit (createTenantPortalTx config),
        .fundAddressFromFaucet (.key (.configured config.TENANT_PORTAL.pubKey))
          config.FAUCET_ACCOUNT.fundingAmount ]
    else [])
  ++ config.TENANT_DATA.members.flatMap fun member =>
      (if !chain.existingTenantMemberDao member.daoId then
          [ .fundAddressFromFaucet (.key (tenantMember member).getPubKey)
              config.FAUCET_ACCOUNT.fundingAmount,
            .submit (createTenantMemberDaoTx config member),
            .fundAddressFromFaucet (.name (.named member.daoId))
              config.FAUCET_ACCOUNT.fundingAmount ]
        else [])
      ++ (if !chain.tenantDaoAuthDaoIds.contains member.daoId then
            [.submit (addTenantMemberDaoToTenantDaoTx config member)]
          else [])

/-- The steps of `createHotWalletDao`. -/
def createHotWalletDao (config : Config) : List Step :=
  [ .fundAddressFromFaucet (.key hotWallet.getPubKey) config.FAUCET_ACCOUNT.fundingAmount,
    .submit (createHotWalletDaoTx config),
    .fundAddressFromFaucet (.name .hotWalletDaoId) config.FAUCET_ACCOUNT.fundingAmount ]

/-- The steps of `setup()`. -/
def setup (config : Config) (chain : ChainView) : List Step :=
  createFaucet config chain ++ createTenantDaoWithPortal config chain ++ createHotWalletDao config

end Preset

/-! ## `src/substrate-rpc/story.js` -/

/-- A Substrate address: the address of a key pair (`alice.address`) or the address derived
from a DAO id (`daoIdToSubstrateAddress`). -/
inductive Address where
  | account (k : Key)
  | dao (d : DaoId)
  deriving DecidableEq, Repr

/-- The address `getSubstrateMultiAddress(addresses, threshold)`, kept as its arguments. -/
structure MultiAddress where
  addresses : List Address
  threshold : Nat
  deriving DecidableEq, Repr

/-- The authority argument of `deipDao.create`. -/
structure SubstrateAuthority where
  signatories : List Address
  threshold : Nat
  deriving DecidableEq, Repr

/-- Script variables that hold the `weight` of a `paymentInfo` answer. -/
inductive WeightVar where
  | weight | weight2 | weight3 | weight5 | weight7 | weight9
  deriving DecidableEq, Repr

/-- Script variables that hold a timepoint read from `api.query.multisig.multisigs`
(`when` of the entry, or `null` when the entry is absent). -/
inductive TimepointVar where
  | timepoint | timepoint2 | timepoint5 | timepoint6 | timepoint7 | timepoint9
  deriving DecidableEq, Repr

/-- The pallet calls the script builds that wrap no other call. -/
inductive PalletCall where
  | deipDao_create (id : DaoId) (authority : SubstrateAuthority)
  | deipDao_updateDao
  | deip_createProject (externalId : String) (teamId : DaoId)
  | deip_updateProject (projectId : String)
  | deipProposal_decide (id : ProposalId) (decision : String)
  | balances_transfer (dst : Address)
  | assets_deipCreateAsset (assetId : String) (admin : DaoId)
  | assets_deipSetMetadata (assetId : String)
  | assets_deipSetTeam (assetId : String) (issuer admin freezer : DaoId)
  | assets_deipIssueAsset (assetId : String) (beneficiary : DaoId)
  | assets_deipTransfer (assetId : String) (dst : DaoId)
  | deip_createInvestmentOpportunity (externalId : String) (creator : DaoId)
  | deip_invest (investmentOpportunityId : String)
  | deip_createContractAgreement (id : String) (creator : DaoId) (parties : List DaoId)
  | deip_acceptContractAgreement (id : String) (party : DaoId)
  deriving DecidableEq, Repr

/-- An item `{ call, account }` of the batch passed to `deipProposal.propose`. -/
structure BatchItem where
  call : PalletCall
  account : DaoId
  deriving DecidableEq, Repr

/-- The calls of the script. `multisig_approveAsMulti` carries the call whose hash it
approves. -/
inductive Call where
  | pallet (c : PalletCall)
  | deipProposal_propose (batch : List BatchItem) (externalId : ProposalId)
  | deipDao_onBehalf (dao : DaoId) (call : Call)
  | multisig_asMultiThreshold1 (otherSignatories : List Address) (call : Call)
  | multisig_approveAsMulti (threshold : Nat) (otherSignatories : List Address)
      (maybeTimepoint : Option TimepointVar) (callHash : Call) (maxWeight : WeightVar)
  | multisig_asMulti (threshold : Nat) (otherSignatories : List Address)
      (maybeTimepoint : Option TimepointVar) (call : Call) (storeCall : Bool)
      (maxWeight : WeightVar)
  deriving DecidableEq, Repr

/-- The argument of `paymentInfo`: a multi-address or a plain address. -/
inductive PayAddress where
  | multi (m : MultiAddress)
  | plain (a : Address)
  deriving DecidableEq, Repr

/-- An extrinsic `api.tx.utility.batchAll([...])` and the key pair that signs it. -/
structure Extrinsic where
  calls : List Call
  signer : Key
  deriving DecidableEq, Repr

/-- One step of the Substrate script. -/
inductive SubstrateStep where
  | fundAddressFromFaucet (addrees : Address)
  | submit (tx : Extrinsic)
  | paymentInfo (result : WeightVar) (call : Call) (address : PayAddress)
  | queryMultisigs (result : TimepointVar) (multiAddress : MultiAddress) (callHash : Call)
  deriving DecidableEq, Repr

namespace SubstrateRpcStory

open DaoId ProposalId WeightVar TimepointVar

def alice : Key := .alice
def bob : Key := .bob
def charlie : Key := .charlie
def dave : Key := .dave
def eve : Key := .eve
def treasury : Key := .treasury

def aliceDaoAddress : Address := .dao aliceDaoId
def bobDaoAddress : Address := .dao bobDaoId
def charlieDaoAddress : Address := .dao charlieDaoId
def daveDaoAddress : Address := .dao daveDaoId
def eveDaoAddress : Address := .dao eveDaoId
def aliceBobDaoAddress : Address := .dao aliceBobDaoId
def eveCharlieDaoAddress : Address := .dao eveCharlieDaoId
def bobDaveDaoAddress : Address := .dao bobDaveDaoId
def multigroup1DaoAddress : Address := .dao multigroup1DaoId
def multigroup2DaoAddress : Address := .dao multigroup2DaoId
def treasuryDaoAddress : Address := .dao treasuryDaoId

/-- The key pair `getFaucetSeedAccount()` that signs the faucet transfers. -/
def faucetSeedAccount : Key := .configured "DEIP_APPCHAIN_FAUCET_SUBSTRATE_SEED_ACCOUNT_JSON"

def createAliceDaoOp : Call := .pallet (.deipDao_create aliceDaoId ⟨[.account alice], 0⟩)
def createAliceDaoTx : Extrinsic := ⟨[createAliceDaoOp], alice⟩

def createBobDaoOp : Call := .pallet (.deipDao_create bobDaoId ⟨[.account bob], 0⟩)
def createBobDaoTx : Extrinsic := ⟨[createBobDaoOp], bob⟩

def createCharlieDaoOp : Call := .pallet (.deipDao_create charlieDaoId ⟨[.account charlie], 0⟩)
def createCharlieDaoTx : Extrinsic := ⟨[createCharlieDaoOp], charlie⟩

def createDaveDaoOp : Call := .pallet (.deipDao_create daveDaoId ⟨[.account dave], 0⟩)
def createDaveDaoTx : Extrinsic := ⟨[createDaveDaoOp], dave⟩

def createEveDaoOp : Call := .pallet (.deipDao_create eveDaoId ⟨[.account eve], 0⟩)
def createEveDaoTx : Extrinsic := ⟨[createEveDaoOp], eve⟩

def createAliceBobDaoOp : Call :=
  .pallet (.deipDao_create aliceBobDaoId ⟨[aliceDaoAddress, bobDaoAddress], 1⟩)

def createAliceBobDaoTx : Extrinsic :=
  ⟨[.deipDao_onBehalf aliceDaoId
      (.multisig_asMultiThreshold1 [bobDaoAddress] createAliceBobDaoOp)], alice⟩

def createEveCharlieDaoOp : Call :=
  .pallet (.deipDao_create eveCharlieDaoId ⟨[eveDaoAddress, charlieDaoAddress], 1⟩)

def createEveCharlieDaoTx : Extrinsic :=
  ⟨[.deipDao_onBehalf eveDaoId
      (.multisig_asMultiThreshold1 [charlieDaoAddress] createEveCharlieDaoOp)], eve⟩

def bobDaveMultiAddress : MultiAddress := ⟨[bobDaoAddress, daveDaoAddress], 2⟩

def createBobDaveDaoOp : Call :=
  .pallet (.deipDao_create bobDaveDaoId ⟨[bobDaoAddress, daveDaoAddress], 2⟩)

def createBobDaveDaoByBobTx : Extrinsic :=
  ⟨[.deipDao_onBehalf bobDaoId
      (.multisig_approveAsMulti 2 [daveDaoAddress] none createBobDaveDaoOp weight)], bob⟩

def createBobDaveDaoByDaveTx : Extrinsic :=
  ⟨[.deipDao_onBehalf daveDaoId
      (.multisig_asMulti 2 [bobDaoAddress] (some timepoint) createBobDaveDaoOp true weight)],
    dave⟩

def createMultigroup1Op : Call :=
  .pallet (.deipDao_create multigroup1DaoId ⟨[eveCharlieDaoAddress, bobDaveDaoAddress], 1⟩)

def createMultigroup1DaoByEveCharlieDaoOp : Call :=
  .deipDao_onBehalf eveCharlieDaoId
    (.multisig_asMultiThreshold1 [bobDaveDaoAddress] createMultigroup1Op)

def createMultigroup1DaoByEveCharlieDaoByEveDaoOp : Call :=
  .deipDao_onBehalf eveDaoId
    (.multisig_asMultiThreshold1 [charlieDaoAddress] createMultigroup1DaoByEveCharlieDaoOp)

def createMultigroup1DaoByEveCharlieDaoByEveDaoTx : Extrinsic :=
  ⟨[createMultigroup1DaoByEveCharlieDaoByEveDaoOp], eve⟩

def multigroup2MultiAddress : MultiAddress := ⟨[eveCharlieDaoAddress, bobDaveDaoAddress], 2⟩

def createMultigroup2Op : Call :=
  .pallet (.deipDao_create multigroup2DaoId ⟨[eveCharlieDaoAddress, bobDaveDaoAddress], 2⟩)

def createMultigroup2DaoByEveCharlieDaoOp : Call :=
  .deipDao_onBehalf eveCharlieDaoId
    (.multisig_approveAsMulti 2 [bobDaveDaoAddress] none createMultigroup2Op weight2)

def createMultigroup2DaoByEveCharlieDaoByEveDaoOp : Call :=
  .deipDao_onBehalf eveDaoId
    (.multisig_asMultiThreshold1 [charlieDaoAddress] createMultigroup2DaoByEveCharlieDaoOp)

def createMultigroup2DaoByEveCharlieDaoByEveDaoTx : Extrinsic :=
  ⟨[createMultigroup2DaoByEveCharlieDaoByEveDaoOp], eve⟩

def createMultigroup2DaoByBobDaveDaoOp : Call :=
  .deipDao_onBehalf bobDaveDaoId
    (.multisig_asMulti 2 [eveCharlieDaoAddress] (some timepoint2) createMultigroup2Op true
      weight2)

def createMultigroup2DaoByBobDaveDaoByBobDaoOp : Call :=
  .deipDao_onBehalf bobDaoId
    (.multisig_approveAsMulti 2 [daveDaoAddress] none createMultigroup2DaoByBobDaveDaoOp
      weight3)

def createMultigroup2DaoByBobDaveDaoByBobDaoTx : Extrinsic :=
  ⟨[createMultigroup2DaoByBobDaveDaoByBobDaoOp], bob⟩

def createMultigroup2DaoByBobDaveDaoByDaveDaoOp : Call :=
  .deipDao_onBehalf daveDaoId
    (.multisig_asMulti 2 [bobDaoAddress] (some timepoint5) createMultigroup2DaoByBobDaveDaoOp
      true weight3)

def createMultigroup2DaoByBobDaveDaoByDaveDaoTx : Extrinsic :=
  ⟨[createMultigroup2DaoByBobDaveDaoByDaveDaoOp], dave⟩

def createTreasuryDaoOp : Call :=
  .pallet (.deipDao_create treasuryDaoId ⟨[.account treasury], 0⟩)

def createTreasuryDaoTx : Extrinsic := ⟨[createTreasuryDaoOp], treasury⟩

def updateAliceDaoOp : Call := .deipDao_onBehalf aliceDaoId (.pallet .deipDao_updateDao)
def updateAliceDaoTx : Extrinsic := ⟨[updateAliceDaoOp], alice⟩

def createProject1ByAliceDaoOp : Call :=
  .deipDao_onBehalf aliceDaoId (.pallet (.deip_createProject "project1Id" aliceDaoId))

def createProject1ByAliceDaoTx : Extrinsic := ⟨[createProject1ByAliceDaoOp], alice⟩

def updateProject1ByAliceDaoOp : Call :=
  .deipDao_onBehalf aliceDaoId (.pallet (.deip_updateProject "project1Id"))

def updateProject1ByAliceDaoTx : Extrinsic := ⟨[updateProject1ByAliceDaoOp], alice⟩

def createProject2ByMultigroup2Op : Call :=
  .deipDao_onBehalf multigroup2DaoId
    (.pallet (.deip_createProject "project2Id" multigroup2DaoId))

def createProject2ByMultigroup2ByEveCharlieDaoOp : Call :=
  .deipDao_onBehalf eveCharlieDaoId
    (.multisig_approveAsMulti 2 [bobDaveDaoAddress] none createProject2ByMultigroup2Op weight5)

def createProject2ByMultigroup2ByEveCharlieDaoByEveDaoOp : Call :=
  .deipDao_onBehalf eveDaoId
    (.multisig_asMultiThreshold1 [charlieDaoAddress]
      createProject2ByMultigroup2ByEveCharlieDaoOp)

def createProject2ByMultigroup2ByEveCharlieDaoByEveDaoTx : Extrinsic :=
  ⟨[createProject2ByMultigroup2ByEveCharlieDaoByEveDaoOp], eve⟩

def createProject2ByMultigroup2ByBobDaveDaoOp : Call :=
  .deipDao_onBehalf bobDaveDaoId
    (.multisig_asMulti 2 [eveCharlieDaoAddress] (some timepoint6)
      createProject2ByMultigroup2Op true weight5)

def createProject2ByMultigroup2ByBobDaveDaoByBobDaoOp : Call :=
  .deipDao_onBehalf bobDaoId
    (.multisig_approveAsMulti 2 [daveDaoAddress] none
      createProject2ByMultigroup2ByBobDaveDaoOp weight7)

def createProject2ByMultigroup2ByBobDaveDaoByBobDaoTx : Extrinsic :=
  ⟨[createProject2ByMultigroup2ByBobDaveDaoByBobDaoOp], bob⟩

def createProject2ByMultigroup2ByBobDaveDaoByDaveDaoOp : Call :=
  .deipDao_onBehalf daveDaoId
    (.multisig_asMulti 2 [bobDaoAddress] (some timepoint7)
      createProject2ByMultigroup2ByBobDaveDaoOp true weight7)

def createProject2ByMultigroup2ByBobDaveDaoByDaveDaoTx : Extrinsic :=
  ⟨[createProject2ByMultigroup2ByBobDaveDaoByDaveDaoOp], dave⟩

/-- The batch of Proposal-1: the four `{ call, account }` items. -/
def proposal1Batch : List BatchItem :=
  [ ⟨.deip_createProject "project3Id" aliceBobDaoId, aliceBobDaoId⟩,
    ⟨.deip_createProject "project4Id" bobDaveDaoId, bobDaveDaoId⟩,
    ⟨.balances_transfer bobDaveDaoAddress, charlieDaoId⟩,
    ⟨.balances_transfer aliceBobDaoAddress, multigroup1DaoId⟩ ]

def createProposal1ByEveCharlieDaoOp : Call :=
  .deipDao_onBehalf eveCharlieDaoId (.deipProposal_propose proposal1Batch proposal1Id)

def createProposal1ByEveCharlieDaoByEveDaoOp : Call :=
  .deipDao_onBehalf eveDaoId
    (.multisig_asMultiThreshold1 [charlieDaoAddress] createProposal1ByEveCharlieDaoOp)

def createProposal1ByEveCharlieDaoByEveDaoTx : Extrinsic :=
  ⟨[createProposal1ByEveCharlieDaoByEveDaoOp], eve⟩

def decideOnProposal1ByAliceBobDaoOp : Call :=
  .deipDao_onBehalf aliceBobDaoId (.pallet (.deipProposal_decide proposal1Id "Approve"))

def decideOnProposal1ByAliceBobDaoByAliceDaoOp : Call :=
  .deipDao_onBehalf aliceDaoId
    (.multisig_asMultiThreshold1 [bobDaoAddress] decideOnProposal1ByAliceBobDaoOp)

def decideOnProposal1ByAliceBobDaoByAliceDaoTx : Extrinsic :=
  ⟨[decideOnProposal1ByAliceBobDaoByAliceDaoOp], alice⟩

def decideOnProposal1ByBobDaveDaoOp : Call :=
  .deipDao_onBehalf bobDaveDaoId (.pallet (.deipProposal_decide proposal1Id "Approve"))

def decideOnProposal1ByBobDaveDaoByBobDaoOp : Call :=
  .deipDao_onBehalf bobDaoId
    (.multisig_approveAsMulti 2 [daveDaoAddress] none decideOnProposal1ByBobDaveDaoOp weight9)

def decideOnProposal1ByBobDaveDaoByBobDaoTx : Extrinsic :=
  ⟨[decideOnProposal1ByBobDaveDaoByBobDaoOp], bob⟩

def decideOnProposal1ByBobDaveDaoByDaveDaoOp : Call :=
  .deipDao_onBehalf daveDaoId
    (.multisig_asMulti 2 [bobDaoAddress] (some timepoint9) decideOnProposal1ByBobDaveDaoOp
      true weight9)

def decideOnProposal1ByBobDaveDaoByDaveDaoTx : Extrinsic :=
  ⟨[decideOnProposal1ByBobDaveDaoByDaveDaoOp], dave⟩

def decideOnProposal1ByCharlieDaoOp : Call :=
  .deipDao_onBehalf charlieDaoId (.pallet (.deipProposal_decide proposal1Id "Approve"))

def decideOnProposal1ByCharlieDaoTx : Extrinsic := ⟨[decideOnProposal1ByCharlieDaoOp], charlie⟩

def decideOnProposal1ByMultigroup1DaoOp : Call :=
  .deipDao_onBehalf multigroup1DaoId (.pallet (.deipProposal_decide proposal1Id "Approve"))

def decideOnProposal1ByMultigroup1DaoByEveCharlieDaoOp : Call :=
  .deipDao_onBehalf eveCharlieDaoId
    (.multisig_asMultiThreshold1 [bobDaveDaoAddress] decideOnProposal1ByMultigroup1DaoOp)

def decideOnProposal1ByMultigroup1DaoByEveCharlieDaoByEveDaoOp : Call :=
  .deipDao_onBehalf eveDaoId
    (.multisig_asMultiThreshold1 [charlieDaoAddress]
      decideOnProposal1ByMultigroup1DaoByEveCharlieDaoOp)

def decideOnProposal1ByMultigroup1DaoByEveCharlieDaoByEveDaoTx : Extrinsic :=
  ⟨[decideOnProposal1ByMultigroup1DaoByEveCharlieDaoByEveDaoOp], eve⟩

def createStablecoin1ByTreasuryDaoOp : Call :=
  .deipDao_onBehalf treasuryDaoId
    (.pallet (.assets_deipCreateAsset "stablecoin1Id" treasuryDaoId))

def setStablecoin1MetaByTreasuryDaoOp : Call :=
  .deipDao_onBehalf treasuryDaoId (.pallet (.assets_deipSetMetadata "stablecoin1Id"))

def setStablecoin1TeamByTreasuryDaoOp : Call :=
  .deipDao_onBehalf treasuryDaoId
    (.pallet (.assets_deipSetTeam "stablecoin1Id" treasuryDaoId treasuryDaoId treasuryDaoId))

/-- The extrinsic that creates Stablecoin-1 (the script calls it
`createStablecoin1ByAliceDaoTx`); it is signed by `treasury`. -/
def createStablecoin1ByAliceDaoTx : Extrinsic :=
  ⟨[ createStablecoin1ByTreasuryDaoOp, setStablecoin1MetaByTreasuryDaoOp,
     setStablecoin1TeamByTreasuryDaoOp ], treasury⟩

def issueStablecoin1ToBobDaoByTreasuryDaoTx : Extrinsic :=
  ⟨[.deipDao_onBehalf treasuryDaoId
      (.pallet (.assets_deipIssueAsset "stablecoin1Id" bobDaoId))], treasury⟩

def issueStablecoin1ToEveDaoByTreasuryDaoTx : Extrinsic :=
  ⟨[.deipDao_onBehalf treasuryDaoId
      (.pallet (.assets_deipIssueAsset "stablecoin1Id" eveDaoId))], treasury⟩

def issueStablecoin1ToCharlieDaoByTreasuryDaoTx : Extrinsic :=
  ⟨[.deipDao_onBehalf treasuryDaoId
      (.pallet (.assets_deipIssueAsset "stablecoin1Id" charlieDaoId))], treasury⟩

def createNft1ByAliceDaoTx : Extrinsic :=
  ⟨[ .deipDao_onBehalf aliceDaoId (.pallet (.assets_deipCreateAsset "nft1Id" aliceDaoId)),
     .deipDao_onBehalf aliceDaoId (.pallet (.assets_deipSetMetadata "nft1Id")),
     .deipDao_onBehalf aliceDaoId
       (.pallet (.assets_deipSetTeam "nft1Id" aliceDaoId aliceDaoId aliceDaoId)) ], alice⟩

def issueNft1ToAliceDaoByAliceDaoTx : Extrinsic :=
  ⟨[.deipDao_onBehalf aliceDaoId (.pallet (.assets_deipIssueAsset "nft1Id" aliceDaoId))],
    alice⟩

def transferNft1ToCharlieDaoByAliceDaoTx : Extrinsic :=
  ⟨[.deipDao_onBehalf aliceDaoId (.pallet (.assets_deipTransfer "nft1Id" charlieDaoId))],
    alice⟩

def createInvestmentOpportunityByAliceDaoTx : Extrinsic :=
  ⟨[.deipDao_onBehalf aliceDaoId
      (.pallet (.deip_createInvestmentOpportunity "invstOpp1Id" aliceDaoId))], alice⟩

def investToInvestmentOpportunity1ByBobDaoTx : Extrinsic :=
  ⟨[.deipDao_onBehalf bobDaoId (.pallet (.deip_invest "invstOpp1Id"))], bob⟩

def investToInvestmentOpportunity1ByEveDaoTx : Extrinsic :=
  ⟨[.deipDao_onBehalf eveDaoId (.pallet (.deip_invest "invstOpp1Id"))], eve⟩

def createLicenseAgreement1ByAliceDaoTx : Extrinsic :=
  ⟨[.deipDao_onBehalf aliceDaoId
      (.pallet (.deip_createContractAgreement "licenseAgreement1Id" aliceDaoId
        [charlieDaoId, aliceDaoId]))], alice⟩

def acceptLicenseAgreement1ByAliceDaoTx : Extrinsic :=
  ⟨[.deipDao_onBehalf aliceDaoId
      (.pallet (.deip_acceptContractAgreement "licenseAgreement1Id" aliceDaoId))], alice⟩

def acceptLicenseAgreement1ByCharlieDaoTx : Extrinsic :=
  ⟨[.deipDao_onBehalf charlieDaoId
      (.pallet (.deip_acceptContractAgreement "licenseAgreement1Id" charlieDaoId))], charlie⟩

/-- The steps of `run(api)` of substrate-rpc/story.js, in script order. -/
def run : List SubstrateStep :=
  [ .fundAddressFromFaucet (.account alice),
    .submit createAliceDaoTx,
    .fundAddressFromFaucet aliceDaoAddress,
    .fundAddressFromFaucet (.account bob),
    .submit createBobDaoTx,
    .fundAddressFromFaucet bobDaoAddress,
    .fundAddressFromFaucet (.account charlie),
    .submit createCharlieDaoTx,
    .fundAddressFromFaucet charlieDaoAddress,
    .fundAddressFromFaucet (.account dave),
    .submit createDaveDaoTx,
    .fundAddressFromFaucet daveDaoAddress,
    .fundAddressFromFaucet (.account eve),
    .submit createEveDaoTx,
    .fundAddressFromFaucet eveDaoAddress,
    .submit createAliceBobDaoTx,
    .fundAddressFromFaucet aliceBobDaoAddress,
    .submit createEveCharlieDaoTx,
    .fundAddressFromFaucet eveCharlieDaoAddress,
    .paymentInfo weight createBobDaveDaoOp (.multi bobDaveMultiAddress),
    .submit createBobDaveDaoByBobTx,
    .queryMultisigs timepoint bobDaveMultiAddress createBobDaveDaoOp,
    .submit createBobDaveDaoByDaveTx,
    .fundAddressFromFaucet bobDaveDaoAddress,
    .submit createMultigroup1DaoByEveCharlieDaoByEveDaoTx,
    .fundAddressFromFaucet multigroup1DaoAddress,
    .paymentInfo weight2 createMultigroup2Op (.multi multigroup2MultiAddress),
    .submit createMultigroup2DaoByEveCharlieDaoByEveDaoTx,
    .queryMultisigs timepoint2 multigroup2MultiAddress createMultigroup2Op,
    .paymentInfo weight3 createMultigroup2DaoByBobDaveDaoOp (.plain bobDaveDaoAddress),
    .submit createMultigroup2DaoByBobDaveDaoByBobDaoTx,
    .queryMultisigs timepoint5 bobDaveMultiAddress createMultigroup2DaoByBobDaveDaoOp,
    .submit createMultigroup2DaoByBobDaveDaoByDaveDaoTx,
    .fundAddressFromFaucet multigroup2DaoAddress,
    .fundAddressFromFaucet (.account treasury),
    .submit createTreasuryDaoTx,
    .fundAddressFromFaucet treasuryDaoAddress,
    .submit updateAliceDaoTx,
    .submit createProject1ByAliceDaoTx,
    .submit updateProject1ByAliceDaoTx,
    .paymentInfo weight5 createProject2ByMultigroup2Op (.multi multigroup2MultiAddress),
    .submit createProject2ByMultigroup2ByEveCharlieDaoByEveDaoTx,
    .queryMultisigs timepoint6 multigroup2MultiAddress createProject2ByMultigroup2Op,
    .paymentInfo weight7 createProject2ByMultigroup2ByBobDaveDaoOp (.plain bobDaveDaoAddress),
    .submit createProject2ByMultigroup2ByBobDaveDaoByBobDaoTx,
    .queryMultisigs timepoint7 bobDaveMultiAddress createProject2ByMultigroup2ByBobDaveDaoOp,
    .submit createProject2ByMultigroup2ByBobDaveDaoByDaveDaoTx,
    .submit createProposal1ByEveCharlieDaoByEveDaoTx,
    .submit decideOnProposal1ByAliceBobDaoByAliceDaoTx,
    .paymentInfo weight9 decideOnProposal1ByBobDaveDaoOp (.multi bobDaveMultiAddress),
    .submit decideOnProposal1ByBobDaveDaoByBobDaoTx,
    .queryMultisigs timepoint9 bobDaveMultiAddress decideOnProposal1ByBobDaveDaoOp,
    .submit decideOnProposal1ByBobDaveDaoByDaveDaoTx,
    .submit decideOnProposal1ByCharlieDaoTx,
    .submit decideOnProposal1ByMultigroup1DaoByEveCharlieDaoByEveDaoTx,
    .submit createStablecoin1ByAliceDaoTx,
    .submit issueStablecoin1ToBobDaoByTreasuryDaoTx,
    .submit issueStablecoin1ToEveDaoByTreasuryDaoTx,
    .submit issueStablecoin1ToCharlieDaoByTreasuryDaoTx,
    .submit createNft1ByAliceDaoTx,
    .submit issueNft1ToAliceDaoByAliceDaoTx,
    .submit transferNft1ToCharlieDaoByAliceDaoTx,
    .submit createInvestmentOpportunityByAliceDaoTx,
    .submit investToInvestmentOpportunity1ByBobDaoTx,
    .submit investToInvestmentOpportunity1ByEveDaoTx,
    .submit createLicenseAgreement1ByAliceDaoTx,
    .submit acceptLicenseAgreement1ByAliceDaoTx,
    .submit acceptLicenseAgreement1ByCharlieDaoTx ]

end SubstrateRpcStory

/-! ## Reading the scripts -/

/-- The plain commands of a transaction command: the command itself, or the proposed commands
of a `CreateProposalCmd`. -/
def TxCmd.plainCmds : TxCmd → List Cmd
  | .cmd c => [c]
  | .CreateProposalCmd _ _ proposedCmds _ => proposedCmds

/-- Every plain command a transaction holds, at top level or inside a proposal. -/
def Tx.plainCmds (tx : Tx) : List Cmd := tx.cmds.flatMap TxCmd.plainCmds

/-- The accounts for which a list of commands holds an `AcceptProposalCmd` of a proposal. -/
def acceptAccountsIn (cmds : List Cmd) (proposal : ProposalId) : List DaoId :=
  cmds.filterMap fun c => match c with
    | .AcceptProposalCmd entityId account _ => if entityId = proposal then some account else none
    | _ => none

/-- The accounts for which a script issues an `AcceptProposalCmd` of a proposal, in a
transaction of its own or nested in another proposal. -/
def acceptAccounts (txs : List Tx) (proposal : ProposalId) : List DaoId :=
  acceptAccountsIn (txs.flatMap Tx.plainCmds) proposal

/-- The acting accounts of the proposed commands of a proposal. -/
def actingAccounts (proposedCmds : List Cmd) : List DaoId := proposedCmds.map Cmd.actor

/-- A proposal as created by a script: id, creator, proposed commands. -/
structure Proposal where
  entityId : ProposalId
  creator : DaoId
  proposedCmds : List Cmd
  deriving DecidableEq, Repr

/-- The proposals that the commands of a transaction create. -/
def Tx.proposals (tx : Tx) : List Proposal :=
  tx.cmds.filterMap fun c => match c with
    | .CreateProposalCmd entityId creator proposedCmds _ => some ⟨entityId, creator, proposedCmds⟩
    | .cmd _ => none

/-- The proposals a script creates. -/
def proposalsOf (txs : List Tx) : List Proposal := txs.flatMap Tx.proposals

/-- Two lists hold the same accounts. -/
def SameAccounts (xs ys : List DaoId) : Prop := ∀ d, d ∈ xs ↔ d ∈ ys

instance (xs ys : List DaoId) : Decidable (SameAccounts xs ys) :=
  decidable_of_iff ((∀ d ∈ xs, d ∈ ys) ∧ (∀ d ∈ ys, d ∈ xs))
    ⟨fun h d => ⟨h.1 d, h.2 d⟩, fun h => ⟨fun d => (h d).1, fun d => (h d).2⟩⟩

/-- Every proposal of a Casimir script is accepted for exactly the acting accounts of its
proposed commands. -/
def AcceptedByActors (txs : List Tx) : Prop :=
  ∀ p ∈ proposalsOf txs, SameAccounts (acceptAccounts txs p.entityId) (actingAccounts p.proposedCmds)

instance (txs : List Tx) : Decidable (AcceptedByActors txs) := by
  unfold AcceptedByActors; infer_instance

/-- The `AcceptProposalCmd`s of a list of commands: proposal id and weight variable. -/
def acceptWeightsIn (cmds : List Cmd) : List (ProposalId × BatchWeightVar) :=
  cmds.filterMap fun c => match c with
    | .AcceptProposalCmd entityId _ batchWeight => some (entityId, batchWeight)
    | _ => none

/-- The batch weight of every `AcceptProposalCmd` of a script is bound to its proposal: each
weight variable receives the result of one `getBatchWeight` call, each proposal id is created
once, and the variable carried by an accept is the one that received the weight of exactly
the list passed as `proposedCmds` of the proposal it accepts. -/
def WeightsBound (steps : List Step) : Prop :=
  ((batchWeightCalls steps).map Prod.fst).Nodup ∧
  ((proposalsOf (submittedTxs steps)).map Proposal.entityId).Nodup ∧
  ∀ a ∈ acceptWeightsIn ((submittedTxs steps).flatMap Tx.plainCmds),
    ∃ p ∈ proposalsOf (submittedTxs steps),
      p.entityId = a.1 ∧ (a.2, p.proposedCmds) ∈ batchWeightCalls steps

instance (steps : List Step) : Decidable (WeightsBound steps) := by
  unfold WeightsBound; infer_instance

/-- The transaction that creates a proposal also accepts it for its creator, with the weight
of the proposed commands. -/
def CreatorAcceptsOnCreate (steps : List Step) : Prop :=
  ∀ tx ∈ submittedTxs steps, ∀ p ∈ tx.proposals,
    ∃ v, TxCmd.cmd (.AcceptProposalCmd p.entityId p.creator v) ∈ tx.cmds ∧
      (v, p.proposedCmds) ∈ batchWeightCalls steps

instance (steps : List Step) : Decidable (CreatorAcceptsOnCreate steps) := by
  unfold CreatorAcceptsOnCreate; infer_instance

/-- The transactions that create a proposal hold the `CreateProposalCmd` alone. -/
def ProposalCreatedAlone (steps : List Step) : Prop :=
  ∀ tx ∈ submittedTxs steps, tx.proposals ≠ [] → tx.cmds.length = 1

instance (steps : List Step) : Decidable (ProposalCreatedAlone steps) := by
  unfold ProposalCreatedAlone; infer_instance

/-- The authorities a transaction passes to a DAO creation or an authority alteration. -/
def Tx.daoAuthorities (tx : Tx) : List Owner :=
  tx.cmds.filterMap fun c => match c with
    | .cmd (.CreateDaoCmd _ owner _) => some owner
    | .cmd (.AlterDaoAuthorityCmd _ owner) => some owner
    | _ => none

/-- The authorities a script passes to DAO creations and authority alterations. -/
def daoAuthorities (steps : List Step) : List Owner :=
  (submittedTxs steps).flatMap Tx.daoAuthorities

/-- The signer edges a command introduces: `(signer DAO, DAO whose authority it enters)`. -/
def Cmd.signerEdges : Cmd → List (DaoId × DaoId)
  | .CreateDaoCmd entityId owner _ => owner.daoSigners.map fun d => (d, entityId)
  | .AlterDaoAuthorityCmd entityId owner => owner.daoSigners.map fun d => (d, entityId)
  | .AddDaoMemberCmd teamId member _ => [(member, teamId)]
  | _ => []

/-- The signer edges a transaction introduces. -/
def Tx.signerEdges (tx : Tx) : List (DaoId × DaoId) :=
  tx.cmds.flatMap fun c => match c with
    | .cmd c => c.signerEdges
    | .CreateProposalCmd _ _ _ _ => []

/-- The DAOs a transaction creates. -/
def Tx.createdDaos (tx : Tx) : List DaoId :=
  tx.cmds.filterMap fun c => match c with
    | .cmd (.CreateDaoCmd entityId _ _) => some entityId
    | _ => none

/-- What a script does to the signer relation, step by step: the signer edges each
transaction introduces and the DAOs it creates. -/
abbrev CreationTrace := List (List (DaoId × DaoId) × List DaoId)

/-- The creation trace of a Casimir script. -/
def creationTrace (txs : List Tx) : CreationTrace :=
  txs.map fun tx => (tx.signerEdges, tx.createdDaos)

/-- Given the DAOs created so far: every DAO that enters an authority as a signer was
created by an earlier step and differs from the DAO whose authority it enters. -/
def SignersCreatedEarlier : List DaoId → CreationTrace → Prop
  | _, [] => True
  | created, step :: steps =>
    (∀ e ∈ step.1, e.1 ∈ created ∧ e.1 ≠ e.2) ∧
      SignersCreatedEarlier (created ++ step.2) steps

instance SignersCreatedEarlier.decidable :
    ∀ (created : List DaoId) (steps : CreationTrace),
      Decidable (SignersCreatedEarlier created steps)
  | _, [] => isTrue trivial
  | created, step :: steps =>
    have := SignersCreatedEarlier.decidable (created ++ step.2) steps
    by unfold SignersCreatedEarlier; infer_instance

/-- All signer edges of a script. -/
def signerEdgesOf (txs : List Tx) : List (DaoId × DaoId) := txs.flatMap Tx.signerEdges

/-- The signer relation among the DAOs of a script: `d` is a signer of `d'`. -/
def SignerOf (edges : List (DaoId × DaoId)) (d d' : DaoId) : Prop := (d, d') ∈ edges

/-- The signer relation has no cycle: no DAO is (transitively) a signer of itself. -/
def Acyclic (edges : List (DaoId × DaoId)) : Prop :=
  ∀ d, ¬ Relation.TransGen (SignerOf edges) d d

/-- No proper initial part of the signatures of a transaction signed more than once
satisfies the account its commands act for; the whole list does. -/
def NoProperInitialPartSatisfies (txs : List Tx) : Prop :=
  ∀ p ∈ withAuthorities [] txs, 1 < p.2.signers.length → ∀ c ∈ p.2.cmds,
    (∀ k < p.2.signers.length,
      isSatisfied p.1 c.actor (p.2.approvedSetAfter k) = .ok false) ∧
    isSatisfied p.1 c.actor (p.2.approvedSetAfter p.2.signers.length) = .ok true

instance (txs : List Tx) : Decidable (NoProperInitialPartSatisfies txs) := by
  unfold NoProperInitialPartSatisfies; infer_instance

/-- Every command of every transaction is satisfied by the keys that signed the
transaction. -/
def AllSatisfied (txs : List Tx) : Prop :=
  ∀ p ∈ withAuthorities [] txs, ∀ c ∈ p.2.cmds,
    isSatisfied p.1 c.actor p.2.approvedSet = .ok true

instance (txs : List Tx) : Decidable (AllSatisfied txs) := by
  unfold AllSatisfied; infer_instance

/-! ## Reading the Substrate script -/

/-- The calls a step submits, each with the key pair that signs it. A faucet transfer is a
`balances.transfer` signed by the faucet seed account. -/
def SubstrateStep.submittedCalls : SubstrateStep → List (Call × Key)
  | .fundAddressFromFaucet addrees =>
    [(.pallet (.balances_transfer addrees), SubstrateRpcStory.faucetSeedAccount)]
  | .submit tx => tx.calls.map fun c => (c, tx.signer)
  | .paymentInfo _ _ _ => []
  | .queryMultisigs _ _ _ => []

/-- Every call a script submits, with its signer. -/
def submittedCalls (steps : List SubstrateStep) : List (Call × Key) :=
  steps.flatMap SubstrateStep.submittedCalls

/-- The DAOs of the nested `deipDao.onBehalf` wrappers of a call, from the outermost inwards.
The wrappers are followed through the calls that a multisig call carries in full; of the
call approved by `approveAsMulti` the transaction carries the hash only. -/
def Call.onBehalfChain : Call → List DaoId
  | .pallet _ => []
  | .deipProposal_propose _ _ => []
  | .deipDao_onBehalf dao call => dao :: call.onBehalfChain
  | .multisig_asMultiThreshold1 _ call => call.onBehalfChain
  | .multisig_approveAsMulti _ _ _ _ _ => []
  | .multisig_asMulti _ _ _ call _ _ => call.onBehalfChain

/-- The wrappers of a call read also through the call that `approveAsMulti` names by its
hash. -/
def Call.onBehalfChainThroughHash : Call → List DaoId
  | .pallet _ => []
  | .deipProposal_propose _ _ => []
  | .deipDao_onBehalf dao call => dao :: call.onBehalfChainThroughHash
  | .multisig_asMultiThreshold1 _ call => call.onBehalfChainThroughHash
  | .multisig_approveAsMulti _ _ _ callHash _ => callHash.onBehalfChainThroughHash
  | .multisig_asMulti _ _ _ call _ _ => call.onBehalfChainThroughHash

/-- The call at the core of the wrappers that a call carries in full. -/
def Call.core : Call → Call
  | .deipDao_onBehalf _ call => call.core
  | .multisig_asMultiThreshold1 _ call => call.core
  | .multisig_asMulti _ _ _ call _ _ => call.core
  | c => c

/-- The DAO creations among the calls of a script: the DAO id and the authority passed to
`deipDao.create`, in order of first submission in full. -/
def createdAuthorities (steps : List SubstrateStep) : List (DaoId × SubstrateAuthority) :=
  (submittedCalls steps).filterMap fun p => match p.1.core with
    | .pallet (.deipDao_create id authority) => some (id, authority)
    | _ => none

/-- The signatories a script gave to a DAO, if it created the DAO. -/
def signatoriesOf (created : List (DaoId × SubstrateAuthority)) (d : DaoId) :
    Option (List Address) :=
  (created.lookup d).map SubstrateAuthority.signatories

/-- The invariant of the data model for a Substrate authority, every signatory having
weight 1. -/
def SubstrateAuthority.thresholdInvariant (a : SubstrateAuthority) : Prop :=
  1 ≤ a.threshold ∧ a.threshold ≤ a.signatories.length

instance (a : SubstrateAuthority) : Decidable a.thresholdInvariant := by
  unfold SubstrateAuthority.thresholdInvariant; infer_instance

/-- Each DAO of the list, starting with `d`, is a signatory of the next one. -/
def SignatoryChain (created : List (DaoId × SubstrateAuthority)) : DaoId → List DaoId → Prop
  | _, [] => True
  | d, d' :: ds =>
    Address.dao d ∈ (signatoriesOf created d').getD [] ∧ SignatoryChain created d' ds

instance SignatoryChain.decidable (created : List (DaoId × SubstrateAuthority)) :
    (d : DaoId) → (ds : List DaoId) → Decidable (SignatoryChain created d ds)
  | _, [] => isTrue trivial
  | d, d' :: ds =>
    have := SignatoryChain.decidable created d' ds
    inferInstanceAs (Decidable (Address.dao d ∈ (signatoriesOf created d').getD [] ∧
      SignatoryChain created d' ds))

/-- A chain of DAOs is bottom-up for a signer: the only signatory of the first DAO is the
account of the signer, and each DAO is a signatory of the next one. -/
def BottomUp (created : List (DaoId × SubstrateAuthority)) (signer : Key) :
    List DaoId → Prop
  | [] => True
  | d :: ds => signatoriesOf created d = some [.account signer] ∧ SignatoryChain created d ds

instance BottomUp.decidable (created : List (DaoId × SubstrateAuthority)) (signer : Key) :
    (ds : List DaoId) → Decidable (BottomUp created signer ds)
  | [] => isTrue trivial
  | d :: ds =>
    inferInstanceAs (Decidable (signatoriesOf created d = some [.account signer] ∧
      SignatoryChain created d ds))

/-- The decisions of a script: for every `deipProposal.decide` at the core of a submitted
call, the proposal, the decision and the DAO of the innermost `onBehalf` wrapper. -/
def decisionsOf (steps : List SubstrateStep) : List (ProposalId × String × Option DaoId) :=
  (submittedCalls steps).filterMap fun p => match p.1.core with
    | .pallet (.deipProposal_decide id decision) => some (id, decision, p.1.onBehalfChain.getLast?)
    | _ => none

/-- The accounts for which a script issues `deipProposal.decide(proposal, 'Approve')`. -/
def approveAccounts (steps : List SubstrateStep) (proposal : ProposalId) : List DaoId :=
  (decisionsOf steps).filterMap fun d =>
    if d.1 = proposal ∧ d.2.1 = "Approve" then d.2.2 else none

/-- The proposals of a script: id and batch of every `deipProposal.propose` at the core of a
submitted call. -/
def proposedBatches (steps : List SubstrateStep) : List (ProposalId × List BatchItem) :=
  (submittedCalls steps).filterMap fun p => match p.1.core with
    | .deipProposal_propose batch externalId => some (externalId, batch)
    | _ => none

/-- The signer edges of the Substrate script: a DAO address among the signatories of a
created DAO. -/
def substrateSignerEdges (created : List (DaoId × SubstrateAuthority)) : List (DaoId × DaoId) :=
  created.flatMap fun p => p.2.signatories.filterMap fun a => match a with
    | .dao d => some (d, p.1)
    | .account _ => none

/-- The creation trace of the Substrate script: each created DAO with the DAO addresses among
its signatories. -/
def substrateCreationTrace (created : List (DaoId × SubstrateAuthority)) : CreationTrace :=
  created.map fun p => (substrateSignerEdges [p], [p.1])

/-! ## `sendTxAndWaitAsync` of `src/casimir/preset.js` -/

namespace Preset

/-- A signed raw transaction, as handed to `rpc.sendTxAsync`. -/
abbrev RawTx := String

/-- The `tx` of `finalizedTx.getPayload()`, as far as `sendTxAndWaitAsync` uses it:
`verifyByPortalAsync` takes the portal key pair and answers the verified transaction or
rejects. -/
structure TxPayload where
  isOnBehalfPortal : Bool
  getSignedRawTx : RawTx
  verifyByPortalAsync : String → String → Except String RawTx

/-- The chain service, as far as `sendTxAndWaitAsync` uses it: the outcome of
`rpc.sendTxAsync` for a raw transaction. -/
structure ChainService where
  sendTxAsync : RawTx → Except String Unit

/-- The calls that `sendTxAndWaitAsync` makes, in order. -/
inductive Effect where
  | verifyByPortalAsync (verificationPubKey verificationPrivKey : String)
  | sendTxAsync (verifiedTx : RawTx)
  | waitAsync (timeout : Nat)
  deriving DecidableEq, Repr

/-- The promise `verifiedTxPromise` of `sendTxAndWaitAsync`. -/
def verifiedTxPromise (config : Config) (tx : TxPayload) : Except String RawTx :=
  let verificationPubKey := config.TENANT_PORTAL.pubKey
  let verificationPrivKey := config.TENANT_PORTAL.privKey
  if tx.isOnBehalfPortal then
    tx.verifyByPortalAsync verificationPubKey verificationPrivKey
  else
    pure tx.getSignedRawTx

/-- The function `sendTxAndWaitAsync(finalizedTx, timeout)`: the calls made and the outcome. `timeout` is
`none` when the caller gives none, and then defaults to
`config.CHAIN_BLOCK_INTERVAL_MILLIS`. -/
def sendTxAndWaitAsync (config : Config) (getChainService : Except String ChainService)
    (tx : TxPayload) (timeout : Option Nat) : List Effect × Except String Unit :=
  let timeout := timeout.getD config.CHAIN_BLOCK_INTERVAL_MILLIS
  match getChainService with
  | .error err => ([], .error err)
  | .ok chainService =>
    let verifying : List Effect :=
      if tx.isOnBehalfPortal then
        [.verifyByPortalAsync config.TENANT_PORTAL.pubKey config.TENANT_PORTAL.privKey]
      else []
    match verifiedTxPromise config tx with
    | .error err => (verifying, .error err)
    | .ok verifiedTx =>
      match chainService.sendTxAsync verifiedTx with
      | .error err => (verifying ++ [.sendTxAsync verifiedTx], .error err)
      | .ok () =>
        (verifying ++ [.sendTxAsync verifiedTx, .waitAsync timeout], .ok ())

/-- The transactions a run hands to `rpc.sendTxAsync`. -/
def submissions (effects : List Effect) : List RawTx :=
  effects.filterMap fun e => match e with
    | .sendTxAsync verifiedTx => some verifiedTx
    | _ => none

/-- The waits of a run. -/
def waits (effects : List Effect) : List Nat :=
  effects.filterMap fun e => match e with
    | .waitAsync timeout => some timeout
    | _ => none

end Preset

/-! ## `src/config.js` -/

namespace ConfigJs

/-- What `parseJsonEnvVar` and `parseIntEnvVar` throw: their own `Error`, or the
`SyntaxError` of `JSON.parse`. -/
inductive Thrown where
  | Error (message : String)
  | SyntaxError (message : String)
  deriving DecidableEq, Repr

/-- The test `!x` on `process.env[name]`: an unset variable and the empty string are falsy. -/
def falsy (v : Option String) : Bool :=
  match v with
  | none => true
  | some s => s == ""

/-- The function `parseJsonEnvVar(jsonEnvVarName, defaultValue)`. `env` is `process.env`, `jsonParse` is
`JSON.parse`, which answers a value or throws; `defaultValue` is `none` for `undefined`. -/
def parseJsonEnvVar {α : Type} (env : String → Option String)
    (jsonParse : String → Except String α) (jsonEnvVarName : String)
    (defaultValue : Option α) : Except Thrown (Option α) :=
  let jsonEnvVar := env jsonEnvVarName
  if falsy jsonEnvVar && defaultValue.isNone then
    .error (.Error (jsonEnvVarName ++
      " json environment variable is not defined. Specify it in the config or provide a default value"))
  else
    match jsonEnvVar with
    | some s => if s == "" then .ok defaultValue else
        match jsonParse s with
        | .ok v => .ok (some v)
        | .error e => .error (.SyntaxError e)
    | none => .ok defaultValue

/-- The function `parseIntEnvVar(intEnvVarName, defaultValue)`. `parseInt` answers a number (or `NaN`)
for every string. -/
def parseIntEnvVar {α : Type} (env : String → Option String) (parseInt : String → α)
    (intEnvVarName : String) (defaultValue : Option α) : Except Thrown (Option α) :=
  let intEnvVar := env intEnvVarName
  if falsy intEnvVar && defaultValue.isNone then
    .error (.Error (intEnvVarName ++
      " int environment variable is not defined. Specify it in the config or provide a default value"))
  else
    match intEnvVar with
    | some s => if s == "" then .ok defaultValue else .ok (some (parseInt s))
    | none => .ok defaultValue

end ConfigJs

/-! ## Further readings of the scripts -/

/-- The DAOs a script creates, in order of creation. -/
def createdDaosOf (txs : List Tx) : List DaoId := txs.flatMap Tx.createdDaos

/-- Every signer edge leads from a DAO created earlier to a DAO created later. -/
def EdgesFollowCreation (created : List DaoId) (edges : List (DaoId × DaoId)) : Prop :=
  ∀ e ∈ edges, created.indexOf e.1 < created.indexOf e.2

instance (created : List DaoId) (edges : List (DaoId × DaoId)) :
    Decidable (EdgesFollowCreation created edges) := by
  unfold EdgesFollowCreation; infer_instance

/-- The authorities in force after all transactions of a script. -/
def authoritiesAfter (txs : List Tx) : Registry := txs.foldl applyTx []

/-- The transactions of a script that are signed and submitted more than once. -/
def signedMoreThanOnce (txs : List Tx) : List Tx := txs.filter fun tx => 1 < tx.signers.length

/-- The extrinsics a Substrate script submits. -/
def submittedExtrinsics (steps : List SubstrateStep) : List Extrinsic :=
  steps.filterMap fun s => match s with
    | .submit tx => some tx
    | _ => none

/-- Single-signatory DAOs of the Substrate script are created with threshold 0; the DAOs
with several signatories satisfy the invariant of the data model. -/
def SubstrateAuthority.asScripted (a : SubstrateAuthority) : Prop :=
  (a.signatories.length = 1 ∧ a.threshold = 0) ∨
    (2 ≤ a.signatories.length ∧ a.thresholdInvariant)

instance (a : SubstrateAuthority) : Decidable a.asScripted := by
  unfold SubstrateAuthority.asScripted; infer_instance

/-! ## `src/utils.js` and `src/log.js` -/

/-- The function `toHexFormat(id)` of utils.js: `id.indexOf("0x") === 0 ? id : "0x" + id`. -/
def toHexFormat (id : String) : String :=
  if "0x".toList <+: id.toList then id else "0x" ++ id

/-- The text of `${v}` in a template literal. -/
def JsValue.interpolate : JsValue → String
  | .undefined => "undefined"
  | .null => "null"
  | .bool true => "true"
  | .bool false => "false"
  | .number n => toString n
  | .nan => "NaN"
  | .string s => s
  | .object => "[object Object]"

/-- The function `JSON.stringify`: it answers `undefined` for `undefined` and a text for every
other value; `text` gives the JSON text of the values that have one. -/
def jsonStringify (text : JsValue → String) : JsValue → JsValue
  | .undefined => .undefined
  | v => .string (text v)

/-- The test `x != null`: false for `null` and `undefined` only. -/
def JsValue.looselyNotNull : JsValue → Bool
  | .undefined => false
  | .null => false
  | _ => true

/-- A line written by one of the loggers of log.js. -/
inductive LogLine where
  | logInfo (msg : String)
  | logSuccess (msg : String)
  | logWarn (msg : String)
  | logError (msg : String)
  deriving DecidableEq, Repr

/-- The function `logJsonResult(msg, result, ignoreNull)` of log.js; `ignoreNull` is `none`
when the caller gives none, and then defaults to `false`. -/
def logJsonResult (text : JsValue → String) (msg : String) (result : JsValue)
    (ignoreNull : Option JsValue) : List LogLine :=
  let ignoreNull := ignoreNull.getD (.bool false)
  if result.looselyNotNull || ignoreNull.truthy then
    [.logSuccess (msg ++ ": \n" ++ (jsonStringify text result).interpolate ++ "\n")]
  else
    [.logWarn "WARNING: Provided result for logging is undefined"]

/-! ## `src/substrate-rpc/rpc.js` -/

namespace SubstrateRpc

/-- The members `code`, `message` and `data` that the handlers of `rpcToChainNodeAsync` read
from the `error` of an answer and from a rejection reason; a member that is absent reads
`undefined`. -/
structure ErrorMembers where
  code : JsValue
  message : JsValue
  data : JsValue
  deriving DecidableEq, Repr

/-- The object `new Error(message)`: it has the message and neither `code` nor `data`. -/
def newError (message : String) : ErrorMembers := ⟨.undefined, .string message, .undefined⟩

/-- The answer of the node as `response.json()` gives it: `error` is `none` when the answer
has no `error` member (or a falsy one). -/
structure Answer where
  error : Option ErrorMembers
  result : JsValue
  deriving DecidableEq, Repr

/-- The body of the POST request. -/
structure Request where
  id : Nat
  jsonrpc : String
  method : String
  params : List JsValue
  deriving DecidableEq, Repr

/-- The message both handlers build:
`${error.code} ${error.message}: ${JSON.stringify(error.data)}`. -/
def errorMessage (text : JsValue → String) (error : ErrorMembers) : String :=
  error.code.interpolate ++ " " ++ error.message.interpolate ++ ": " ++
    (jsonStringify text error.data).interpolate

/-- The handler `.then(({ error, result }) => ...)`. -/
def onAnswer (text : JsValue → String) (answer : Answer) : Except ErrorMembers JsValue :=
  match answer.error with
  | some error => .error (newError (errorMessage text error))
  | none => .ok answer.result

/-- The handler `.catch(error => ...)`, which ends the chain: it receives every rejection of
the links before it, that of `onAnswer` included. -/
def onRejection (text : JsValue → String) (error : ErrorMembers) :
    Except ErrorMembers JsValue :=
  .error (newError (errorMessage text error))

/-- The function `rpcToChainNodeAsync(method, params)`. `fetch` is the node at
`config.DEIP_FULL_NODE_URL`: for a request it answers, or the fetch (or `response.json()`)
rejects; `params` is `none` when the caller gives none, and then defaults to `[]`. The
result is what `console.error` is given and the outcome of the promise. -/
def rpcToChainNodeAsync (text : JsValue → String)
    (fetch : Request → Except ErrorMembers Answer) (method : String)
    (params : Option (List JsValue)) : List ErrorMembers × Except ErrorMembers JsValue :=
  let params := params.getD []
  match fetch ⟨1, "2.0", method, params⟩ >>= onAnswer text with
  | .ok result => ([], .ok result)
  | .error error => ([error], onRejection text error)

/-- A call `rpcToChainNodeAsync(method, params)` as a getter makes it. -/
structure RpcCall where
  method : String
  params : List JsValue
  deriving DecidableEq, Repr

/-- The request a call issues. -/
def RpcCall.request (c : RpcCall) : Request := ⟨1, "2.0", c.method, c.params⟩

def getAccountAsync (id : String) : RpcCall :=
  ⟨"deipDao_get", [.null, .string (toHexFormat id)]⟩

def getProjectAsync (id : String) : RpcCall :=
  ⟨"deip_getProject", [.null, .string (toHexFormat id)]⟩

def getProposalAsync (id : String) : RpcCall :=
  ⟨"deipProposal_get", [.null, .string (toHexFormat id)]⟩

def getFungibleTokenAsync (id : String) : RpcCall :=
  ⟨"assets_getAsset", [.null, .string (toHexFormat id)]⟩

def getFungibleTokenBalanceByOwnerAsync (address : JsValue) (assetId : String) : RpcCall :=
  ⟨"assets_getAssetBalanceByOwner", [.null, address, .string (toHexFormat assetId)]⟩

def getInvestmentOpportunityAsync (id : String) : RpcCall :=
  ⟨"deip_getInvestmentOpportunity", [.null, .string (toHexFormat id)]⟩

def getContractAgreementAsync (id : String) : RpcCall :=
  ⟨"deip_getContractAgreement", [.null, .string (toHexFormat id)]⟩

def sendTxAsync (rawTx : String) : RpcCall := ⟨"author_submitExtrinsic", [.string rawTx]⟩

/-- The getters that take one id, each with its method name. -/
def idGetters : List (String × (String → RpcCall)) :=
  [ ("deipDao_get", getAccountAsync), ("deip_getProject", getProjectAsync),
    ("deipProposal_get", getProposalAsync), ("assets_getAsset", getFungibleTokenAsync),
    ("deip_getInvestmentOpportunity", getInvestmentOpportunityAsync),
    ("deip_getContractAgreement", getContractAgreementAsync) ]

/-- The outcome of a getter at a node. -/
def RpcCall.run (text : JsValue → String) (fetch : Request → Except ErrorMembers Answer)
    (c : RpcCall) : List ErrorMembers × Except ErrorMembers JsValue :=
  rpcToChainNodeAsync text fetch c.method (some c.params)

end SubstrateRpc

/-! ## `src/casimir-database-setup` -/

namespace DatabaseSetup

/-- The object `config.TENANT_PORTAL_READ_MODELS_STORAGE`. -/
structure ReadModelsStorage where
  uri : String
  dumpFilePath : String
  toDbName : String
  fromDbName : String
  deriving DecidableEq, Repr

/-- The member `portal` of `config.TENANT_DUMP_CONFIG`; `id` is its `_id`. -/
structure DumpPortal where
  id : String
  name : String
  deriving DecidableEq, Repr

/-- The member `userDao` of `config.TENANT_DUMP_CONFIG`; `id` is its `_id`. -/
structure DumpUserDao where
  id : String
  deriving DecidableEq, Repr

/-- The object `config.TENANT_DUMP_CONFIG`. -/
structure DumpConfig where
  portal : DumpPortal
  userDao : DumpUserDao
  deriving DecidableEq, Repr

/-- The member `portal` of `config.TENANT_GENERATE_PORTAL_CONFIG`. -/
structure GeneratePortal where
  name : String
  shortName : String
  description : String
  serverUrl : String
  email : String
  deriving DecidableEq, Repr

/-- The fields of `config` that the database set-up reads. -/
structure DbConfig where
  TENANT_PORTAL_READ_MODELS_STORAGE : Option ReadModelsStorage
  TENANT_DUMP_CONFIG : DumpConfig
  TENANT_GENERATE_PORTAL_CONFIG : GeneratePortal
  deriving DecidableEq, Repr

/-- The configuration of config.js: `TENANT_DUMP_CONFIG` and `TENANT_GENERATE_PORTAL_CONFIG`
are constants there, `TENANT_PORTAL_READ_MODELS_STORAGE` is read from the environment and
defaults to `null`. -/
def configJs (storage : Option ReadModelsStorage) : DbConfig :=
  ⟨storage,
    ⟨⟨"0000000000000000000000000000000000000001", "Nowar-testnet"⟩,
      ⟨"4c583bd4ff9a48d801ea71f2cad6fea123122cf7"⟩⟩,
    ⟨"Nowar-testnet", "Nowar testnet", "Nowar description", "https://nowar.deip.world",
      "nowartestnet@deip.world"⟩⟩

/-- The member `tenant` of what `setup()` answers, as far as `run` reads it: the `daoId` of
`tenantDao` and `tenantDaoMembers`. -/
structure OnChainData where
  tenantDaoId : String
  tenantDaoMembers : List TenantMember
  deriving DecidableEq, Repr

/-- The member `error` of what `spawnSync` returns. -/
structure SpawnError where
  code : Option String
  message : String
  deriving DecidableEq, Repr

/-- The object `spawnSync` returns: `status` is `null` when the process did not exit by
itself, `stdout` and `stderr` are `null` when the process could not be spawned. -/
structure SpawnResult where
  status : Option Int
  error : Option SpawnError
  stdout : Option String
  stderr : Option String
  deriving DecidableEq, Repr

/-- What the call of `spawnSync` does: it returns, or it throws. -/
inductive Spawned where
  | returned (restore : SpawnResult)
  | threw (exception : String)
  deriving DecidableEq, Repr

/-- What the `try` block of `getMongorestorePromise` can throw. -/
inductive Exception where
  | ofSpawnSync (exception : String)
  | toStringOfNull
  deriving DecidableEq, Repr

/-- The reasons `getMongorestorePromise` rejects with. -/
inductive Rejection where
  | COMMAND_NOT_FOUND (message : String)
  | COMMAND_ERROR (message : Option SpawnError) (status : Option Int) (stdout stderr : String)
  | COMMAND_EXCEPTION (message : Exception)
  deriving DecidableEq, Repr

/-- The value `getMongorestorePromise` resolves with. -/
structure Restored where
  message : String
  dumpFilePath : String
  status : Int
  stdout : String
  stderr : String
  deriving DecidableEq, Repr

/-- The documents `run` reads, named by the variables that receive them. -/
inductive DocVar where
  | portal | userDao | team
  deriving DecidableEq, Repr

/-- A query `{ _id: ... }`. -/
structure Query where
  id : String
  deriving DecidableEq, Repr

/-- The values `run` writes into the members of a patched document. -/
inductive PatchValue where
  | text (s : String)
  | texts (l : List String)
  | pubKey (k : Key)
  | address (k : Key)
  | newDate
  | settingsWithRolesOfTeam (doc : DocVar) (teamId : String)
  | attributesRenamed (doc : DocVar) (oldName newName : String)
  | roles (l : List (String × String))
  deriving DecidableEq, Repr

/-- A patched document `{ ...doc, member: value, ... }`. -/
structure Patched where
  spread : DocVar
  members : List (String × PatchValue)
  deriving DecidableEq, Repr

/-- What the database set-up does, in order. -/
inductive Event where
  | getChainService
  | dropDatabase
  | log (line : LogLine)
  | console (method : String) (args : List String)
  | consoleError (label : String) (err : Rejection)
  | spawnSync (restoreCmd : String) (restoreCmdOptions : List String)
  | generateChainSeedAccount (username password : String)
  | findOne (result : DocVar) (collection : String) (query : Query)
  | deleteOne (collection : String) (query : Query)
  | insertOne (collection : String) (data : Patched)
  | logJsonResult (msg : String) (data : Patched)
  deriving DecidableEq, Repr

/-- What makes `run` reject. -/
inductive Failure where
  | getChainService (err : String)
  | typeError (what : String)
  | restore (err : Rejection)
  deriving DecidableEq, Repr

/-- The function `getMongorestorePromise(params)` of database/mongodb.js. `spawnSync` is what
the call of `spawnSync` does for the command and its options. -/
def getMongorestorePromise (spawnSync : String → List String → Spawned)
    (params : ReadModelsStorage) : List Event × Except Rejection Restored :=
  let restoreCmd := "mongorestore"
  let restoreCmdOptions :=
    [ "--uri=\x27" ++ params.uri ++ "\x27",
      "--nsFrom=\x27" ++ params.fromDbName ++ ".*\x27",
      "--nsTo=\x27" ++ params.toDbName ++ ".*\x27",
      "--gzip",
      "--archive=\x27" ++ params.dumpFilePath ++ "\x27" ]
  let before : List Event :=
    [ .console "log" ["restore cmd", restoreCmd ++ " " ++ " ".intercalate restoreCmdOptions],
      .spawnSync restoreCmd restoreCmdOptions ]
  match spawnSync restoreCmd restoreCmdOptions with
  | .threw exception => (before, .error (.COMMAND_EXCEPTION (.ofSpawnSync exception)))
  | .returned restore =>
    if restore.status = some 0 then
      match restore.stdout, restore.stderr with
      | some stdout, some stderr =>
        (before, .ok ⟨"file: " ++ params.dumpFilePath ++ " restored", params.dumpFilePath, 0,
          stdout, stderr⟩)
      | _, _ => (before, .error (.COMMAND_EXCEPTION .toStringOfNull))
    else if (restore.error.bind SpawnError.code) = some "ENOENT" then
      (before, .error (.COMMAND_NOT_FOUND ("Binary " ++ restoreCmd ++ " not found")))
    else
      match restore.stdout, restore.stderr with
      | some stdout, some stderr =>
        (before, .error (.COMMAND_ERROR restore.error restore.status stdout stderr))
      | _, _ => (before, .error (.COMMAND_EXCEPTION .toStringOfNull))

/-- The handler `.then((success) => ...)` of `restoreFromDump`. -/
def onRestored (success : Restored) : List Event :=
  [.console "info" ["success", success.message]] ++
    (if success.stderr ≠ "" then [.console "info" ["stderr:\n", success.stderr]] else [])

/-- The function `restoreFromDump()` of database/mongodb.js: the promise of
`getMongorestorePromise` goes through `.then(...)` and `.catch((err) => console.error("error",
err))`, and the promise so obtained is awaited. -/
def restoreFromDump (spawnSync : String → List String → Spawned) (config : DbConfig) :
    List Event × Except Rejection Unit :=
  match config.TENANT_PORTAL_READ_MODELS_STORAGE with
  | some params =>
    let started := getMongorestorePromise spawnSync params
    let mongorestorePromise : List Event × Except Rejection Unit :=
      match started.2 with
      | .ok success => (onRestored success, .ok ())
      | .error err => ([.consoleError "error" err], .ok ())
    match mongorestorePromise.2 with
    | .ok () =>
      ([.log (.logInfo "Creating Read Models storage ...")] ++ started.1 ++
          mongorestorePromise.1 ++ [.log (.logInfo "Read Models storage created")], .ok ())
    | .error err =>
      ([.log (.logInfo "Creating Read Models storage ...")] ++ started.1 ++
          mongorestorePromise.1, .error err)
  | none => ([.log (.logInfo "Read Models storage is not specified")], .ok ())

/-- The document `portalPatched` of `run`. -/
def portalPatched (config : DbConfig) (onChainData : OnChainData) : Patched :=
  let portalGeneratorConfig := config.TENANT_GENERATE_PORTAL_CONFIG
  ⟨.portal,
    [ ("_id", .text onChainData.tenantDaoId),
      ("email", .text portalGeneratorConfig.email),
      ("name", .text portalGeneratorConfig.name),
      ("shortName", .text portalGeneratorConfig.shortName),
      ("description", .text portalGeneratorConfig.description),
      ("serverUrl", .text portalGeneratorConfig.serverUrl),
      ("email", .text portalGeneratorConfig.email),
      ("settings", .settingsWithRolesOfTeam .portal onChainData.tenantDaoId),
      ("createdAt", .newDate),
      ("updatedAt", .newDate) ]⟩

/-- The document `userDaoPatched` of `run`. -/
def userDaoPatched (config : DbConfig) (onChainData : OnChainData)
    (tenantMember : TenantMember) : Patched :=
  let oldPortal := config.TENANT_DUMP_CONFIG.portal
  let portalGeneratorConfig := config.TENANT_GENERATE_PORTAL_CONFIG
  ⟨.userDao,
    [ ("_id", .text tenantMember.daoId),
      ("signUpPubKey", .pubKey (Preset.tenantMember tenantMember).getPubKey),
      ("teams", .texts [onChainData.tenantDaoId]),
      ("email", .text portalGeneratorConfig.email),
      ("attributes", .attributesRenamed .userDao oldPortal.name portalGeneratorConfig.name),
      ("roles", .roles [("admin", onChainData.tenantDaoId)]),
      ("portalId", .text onChainData.tenantDaoId),
      ("address", .address (Preset.tenantMember tenantMember).keyPair),
      ("createdAt", .newDate),
      ("updatedAt", .newDate) ]⟩

/-- The document `teamPatched` of `run`. -/
def teamPatched (config : DbConfig) (onChainData : OnChainData)
    (tenantMember : TenantMember) : Patched :=
  let portalGeneratorConfig := config.TENANT_GENERATE_PORTAL_CONFIG
  ⟨.team,
    [ ("_id", .text onChainData.tenantDaoId),
      ("creator", .text tenantMember.daoId),
      ("name", .text portalGeneratorConfig.name),
      ("members", .texts [tenantMember.daoId]),
      ("portalId", .text onChainData.tenantDaoId),
      ("address", .address (Preset.tenantMember tenantMember).keyPair) ]⟩

/-- The part of `run` that patches the three collections, every driver call resolving and
every `findOne` finding its document. -/
def patchCollections (config : DbConfig) (onChainData : OnChainData) :
    List Event × Except Failure Unit :=
  let PORTALS_COLLECTION := "portals"
  let oldPortal := config.TENANT_DUMP_CONFIG.portal
  let oldUserDao := config.TENANT_DUMP_CONFIG.userDao
  let portals : List Event :=
    [ .log (.logInfo "Trying to patch portals collection"),
      .findOne .portal PORTALS_COLLECTION ⟨oldPortal.id⟩,
      .deleteOne PORTALS_COLLECTION ⟨oldPortal.id⟩,
      .insertOne PORTALS_COLLECTION (portalPatched config onChainData),
      .logJsonResult "Portal collection patched successfully" (portalPatched config onChainData),
      .log (.logInfo "Trying to patch portal user-dao") ]
  let USER_DAO_COLLECTION := "users-daos"
  match onChainData.tenantDaoMembers with
  | [] => (portals, .error (.typeError "tenantDaoMembers[0] is undefined"))
  | tenantMember :: _ =>
    let TEAM_DAO_COLLECTION := "teams-daos"
    (portals ++
      [ .generateChainSeedAccount tenantMember.daoId tenantMember.password,
        .findOne .userDao USER_DAO_COLLECTION ⟨oldUserDao.id⟩,
        .deleteOne USER_DAO_COLLECTION ⟨oldUserDao.id⟩,
        .insertOne USER_DAO_COLLECTION (userDaoPatched config onChainData tenantMember),
        .logJsonResult "User-dao collection patched successfully"
          (userDaoPatched config onChainData tenantMember),
        .log (.logInfo "Trying to patch portal team-dao"),
        .findOne .team TEAM_DAO_COLLECTION ⟨oldPortal.id⟩,
        .deleteOne TEAM_DAO_COLLECTION ⟨oldUserDao.id⟩,
        .insertOne TEAM_DAO_COLLECTION (teamPatched config onChainData tenantMember),
        .logJsonResult "Team-dao collection patched successfully"
          (teamPatched config onChainData tenantMember) ], .ok ())

/-- The function `run(onChainData)` of casimir-database-setup/story.js. `getChainService` is
the outcome of `getChainService()`. The driver reads `uri` and `toDbName` from
`config.TENANT_PORTAL_READ_MODELS_STORAGE` at every call, which throws when the storage is
`null`. -/
def run (getChainService : Except String Unit) (spawnSync : String → List String → Spawned)
    (config : DbConfig) (onChainData : OnChainData) : List Event × Except Failure Unit :=
  match getChainService with
  | .error err => ([.getChainService], .error (.getChainService err))
  | .ok () =>
    match config.TENANT_PORTAL_READ_MODELS_STORAGE with
    | none =>
      ([.getChainService],
        .error (.typeError "TENANT_PORTAL_READ_MODELS_STORAGE is null"))
    | some _ =>
      let restored := restoreFromDump spawnSync config
      let before : List Event :=
        [.getChainService, .dropDatabase, .log (.logInfo "Trying to restore database data")] ++
          restored.1
      match restored.2 with
      | .error err => (before, .error (.restore err))
      | .ok () =>
        let patched := patchCollections config onChainData
        (before ++ [.log (.logInfo "Database data restored successfully")] ++ patched.1,
          patched.2)

/-- The driver calls of a run on one collection, in order. -/
def driverCalls (events : List Event) (collection : String) : List Event :=
  events.filter fun e => match e with
    | .findOne _ c _ => c == collection
    | .deleteOne c _ => c == collection
    | .insertOne c _ => c == collection
    | _ => false

/-- The driver calls on a collection are a `findOne`, a `deleteOne` with the query of the
`findOne`, and one `insertOne` of a document built from the document read. -/
def patchesWhatItRead (events : List Event) (collection : String) : Bool :=
  match driverCalls events collection with
  | [.findOne doc _ query, .deleteOne _ query', .insertOne _ data] =>
    query' == query && data.spread == doc
  | _ => false

/-- The lines of a run written by the loggers of log.js and by `console.error`. -/
def loggedLines (events : List Event) : List Event :=
  events.filter fun e => match e with
    | .log _ => true
    | .consoleError _ _ => true
    | _ => false

/-- The queries of the `findOne` and `deleteOne` calls on a collection. -/
def queriesOn (events : List Event) (collection : String) : List Query × List Query :=
  ((driverCalls events collection).filterMap fun e => match e with
      | .findOne _ _ query => some query
      | _ => none,
   (driverCalls events collection).filterMap fun e => match e with
      | .deleteOne _ query => some query
      | _ => none)

end DatabaseSetup

/-! ## Reading the multisig calls of the Substrate script -/

/-- A multisig call met in a submitted extrinsic: the index of the step that submits the
extrinsic, the key pair that signs it, the DAO of the `deipDao.onBehalf` wrapper directly
around the multisig call, and the call. -/
structure MultisigUse where
  step : Nat
  signer : Key
  onBehalf : Option DaoId
  call : Call
  deriving DecidableEq, Repr

/-- The multisig calls a call carries in full, from the outermost inwards, each with the DAO
of the `deipDao.onBehalf` wrapper directly around it (`wrapper` for the call itself). Of the
call approved by `approveAsMulti` the extrinsic carries the hash only. -/
def Call.multisigCalls : Option DaoId → Call → List (Option DaoId × Call)
  | _, .pallet _ => []
  | _, .deipProposal_propose _ _ => []
  | _, .deipDao_onBehalf dao call => Call.multisigCalls (some dao) call
  | wrapper, .multisig_asMultiThreshold1 otherSignatories call =>
    (wrapper, .multisig_asMultiThreshold1 otherSignatories call) ::
      Call.multisigCalls none call
  | wrapper, .multisig_approveAsMulti threshold otherSignatories maybeTimepoint callHash
      maxWeight =>
    [(wrapper,
      .multisig_approveAsMulti threshold otherSignatories maybeTimepoint callHash maxWeight)]
  | wrapper, .multisig_asMulti threshold otherSignatories maybeTimepoint call storeCall
      maxWeight =>
    (wrapper,
      .multisig_asMulti threshold otherSignatories maybeTimepoint call storeCall maxWeight) ::
      Call.multisigCalls none call

/-- Pairs every step of a script with its index. -/
def indexed {α : Type} : Nat → List α → List (Nat × α)
  | _, [] => []
  | n, a :: as => (n, a) :: indexed (n + 1) as

/-- Every multisig call of the extrinsics a script submits, in script order. -/
def multisigUses (steps : List SubstrateStep) : List MultisigUse :=
  (indexed 0 steps).flatMap fun p => match p.2 with
    | .submit tx => tx.calls.flatMap fun c =>
        (Call.multisigCalls none c).map fun m => ⟨p.1, tx.signer, m.1, m.2⟩
    | _ => []

/-- The reads of multisig storage of a script: step index, the variable that receives the
timepoint, and the key read (multi-address and call hash). -/
def timepointReads (steps : List SubstrateStep) :
    List (Nat × TimepointVar × MultiAddress × Call) :=
  (indexed 0 steps).filterMap fun p => match p.2 with
    | .queryMultisigs result multiAddress callHash => some (p.1, result, multiAddress, callHash)
    | _ => none

/-- The group a call is made for: the DAO of its `deipDao.onBehalf` wrapper, or the DAO
that `deipDao.create` creates. -/
def Call.group : Call → Option DaoId
  | .deipDao_onBehalf dao _ => some dao
  | .pallet (.deipDao_create id _) => some id
  | _ => none

/-- The call a multisig call approves, carried in full or named by its hash. -/
def Call.approved : Call → Option Call
  | .multisig_asMultiThreshold1 _ call => some call
  | .multisig_approveAsMulti _ _ _ callHash _ => some callHash
  | .multisig_asMulti _ _ _ call _ _ => some call
  | _ => none

/-- The other signatories passed to a multisig call. -/
def Call.otherSignatories : Call → List Address
  | .multisig_asMultiThreshold1 otherSignatories _ => otherSignatories
  | .multisig_approveAsMulti _ otherSignatories _ _ _ => otherSignatories
  | .multisig_asMulti _ otherSignatories _ _ _ _ => otherSignatories
  | _ => []

/-- The threshold of a multisig call: 1 for `asMultiThreshold1`, the argument otherwise. -/
def Call.thresholdUsed : Call → Option Nat
  | .multisig_asMultiThreshold1 _ _ => some 1
  | .multisig_approveAsMulti threshold _ _ _ _ => some threshold
  | .multisig_asMulti threshold _ _ _ _ _ => some threshold
  | _ => none

/-- The authority a script creates the group of a call with. -/
def groupAuthority (created : List (DaoId × SubstrateAuthority)) (call : Call) :
    Option SubstrateAuthority :=
  call.group.bind created.lookup

/-- A multisig call is made on behalf of a DAO `X` for a group the script creates; the
address of `X` is not among the other signatories; the other signatories together with the
address of `X` are the signatories of the group, no more and no fewer; the threshold used
is the threshold of the group. -/
def MultisigUse.completesGroup (created : List (DaoId × SubstrateAuthority))
    (u : MultisigUse) : Bool :=
  match u.onBehalf, u.call.approved.bind (groupAuthority created) with
  | some x, some authority =>
    let all := Address.dao x :: u.call.otherSignatories
    decide (Address.dao x ∉ u.call.otherSignatories) &&
      decide (∀ s ∈ all, s ∈ authority.signatories) &&
      decide (∀ s ∈ authority.signatories, s ∈ all) &&
      decide (all.length = authority.signatories.length) &&
      decide (u.call.thresholdUsed = some authority.threshold)
  | _, _ => false

/-- An `approveAsMulti` has threshold 2 and a null timepoint, and is followed by an
`asMulti` of another signer with threshold 2, the call of the hash in full and the same max
weight, whose timepoint is the variable read, between the two submissions, from multisig
storage under the multi-address of the signatories of the group with threshold 2 and the
hash of the call. -/
def MultisigUse.firstOfTwoSteps (steps : List SubstrateStep)
    (created : List (DaoId × SubstrateAuthority)) (u : MultisigUse) : Bool :=
  match u.call with
  | .multisig_approveAsMulti threshold _ maybeTimepoint callHash maxWeight =>
    decide (threshold = 2) && decide (maybeTimepoint = none) &&
      (multisigUses steps).any fun v => match v.call with
        | .multisig_asMulti threshold' _ (some read) call _ maxWeight' =>
          decide (threshold' = 2) && decide (call = callHash) &&
            decide (maxWeight' = maxWeight) && decide (u.step < v.step) &&
            decide (u.signer ≠ v.signer) && decide (v.onBehalf ≠ u.onBehalf) &&
            (timepointReads steps).any fun q =>
              decide (u.step < q.1) && decide (q.1 < v.step) && decide (q.2.1 = read) &&
                decide (some q.2.2.1
                  = (groupAuthority created callHash).map fun a => ⟨a.signatories, 2⟩) &&
                decide (q.2.2.2 = callHash)
        | _ => false
  | _ => true

/-- An `asMulti` has threshold 2 and follows an `approveAsMulti` of the hash of its call
with the same max weight. -/
def MultisigUse.finalOfTwoSteps (steps : List SubstrateStep) (v : MultisigUse) : Bool :=
  match v.call with
  | .multisig_asMulti threshold _ _ call _ maxWeight =>
    decide (threshold = 2) &&
      (multisigUses steps).any fun u => match u.call with
        | .multisig_approveAsMulti _ _ _ callHash maxWeight' =>
          decide (callHash = call) && decide (maxWeight' = maxWeight) &&
            decide (u.step < v.step)
        | _ => false
  | _ => true

/-- The `approveAsMulti` calls among the multisig calls of a script. -/
def approvalsByHash (uses : List MultisigUse) : List MultisigUse :=
  uses.filter fun u => match u.call with
    | .multisig_approveAsMulti _ _ _ _ _ => true
    | _ => false

/-- The `asMulti` calls among the multisig calls of a script. -/
def finalApprovals (uses : List MultisigUse) : List MultisigUse :=
  uses.filter fun u => match u.call with
    | .multisig_asMulti _ _ _ _ _ _ => true
    | _ => false

/-! ## The multisig DAOs of the two stories -/

/-- The DAO creations of a Casimir script: the id and the `owner` of every `CreateDaoCmd`. -/
def createdOwners (txs : List Tx) : List (DaoId × Owner) :=
  txs.flatMap fun tx => tx.cmds.filterMap fun c => match c with
    | .cmd (.CreateDaoCmd entityId owner _) => some (entityId, owner)
    | _ => none

/-- The Substrate address that stands for a Casimir signer. -/
def Signer.address : Signer → Address
  | .key k => .account k
  | .name d => .dao d

/-- The thresholds named in the doc comments above the creation steps of the multisig DAOs
(`Create Alice-Bob multisig DAO actor with a threshold equal to 1 signature`, and so on);
the comments read the same in casimir/story.js and in substrate-rpc/story.js. -/
def docCommentThresholds : List (DaoId × Nat) :=
  [ (.aliceBobDaoId, 1), (.eveCharlieDaoId, 1), (.bobDaveDaoId, 2), (.multigroup1DaoId, 1),
    (.multigroup2DaoId, 2) ]

/-- A DAO is created in the Casimir script and in the Substrate script with the same
signers, in the Casimir script all of them DAOs of weight 1, and with the given threshold. -/
def sameAuthority (owners : List (DaoId × Owner))
    (authorities : List (DaoId × SubstrateAuthority)) (p : DaoId × Nat) : Bool :=
  match owners.lookup p.1, authorities.lookup p.1 with
  | some owner, some authority =>
    decide (owner.auths.map (fun a => a.signer.address) = authority.signatories) &&
      decide (owner.daoSigners.length = owner.auths.length) &&
      decide (∀ a ∈ owner.auths, a.weight = some 1) &&
      decide (owner.weight = p.2) && decide (authority.threshold = p.2)
  | _, _ => false

/-! ## `src/casimir/preset.js`: the read-model queries and the log lines of the set-up -/

namespace Preset

/-- What the set-up functions do, in order: the steps that reach the chain, the read-model
queries (with the name of the constant that receives the answer) and the log lines. -/
inductive LoggedStep where
  | step (s : Step)
  | logInfo (msg : String)
  | getAccountAsync (result : String) (id : DaoId)
  | getPortalAsync (result : String) (id : DaoId)
  | getFungibleTokenAsync (result : String) (assetId : String)
  | logJsonResult (msg : String) (result : String)
  deriving DecidableEq, Repr

namespace Logged

/-- The function `createCoreTokenAssetMarker()` with its queries and log lines. -/
def createCoreTokenAssetMarker (config : Config) (chain : ChainView) : List LoggedStep :=
  let faucetDaoId := config.FAUCET_ACCOUNT.username
  let assetId := config.CORE_ASSET.id
  let symbol := config.CORE_ASSET.symbol
  [.getFungibleTokenAsync "existingAsset" assetId] ++
    if chain.existingCoreAsset then []
    else
      [ .logInfo ("Creating " ++ symbol ++ " token asset marker ..."),
        .step (.submit (createCoreTokenAssetTx config)),
        .getFungibleTokenAsync "asset" assetId,
        .logJsonResult (symbol ++ " asset marker created by " ++ faucetDaoId ++ " DAO") "asset" ]

/-- The function `createFaucetStablecoins()` with its queries and log lines. -/
def createFaucetStablecoins (config : Config) (chain : ChainView) : List LoggedStep :=
  let faucetDaoId := config.FAUCET_ACCOUNT.username
  config.DEIP_APPCHAIN_FAUCET_STABLECOINS.flatMap fun stablecoin =>
    [.getFungibleTokenAsync "existingAsset" stablecoin.id] ++
      if chain.existingStablecoin stablecoin.id then []
      else
        [ .logInfo ("Creating and issuing " ++ stablecoin.symbol ++ " asset to " ++
            faucetDaoId ++ " DAO ..."),
          .step (.submit (createAndIssueAssetTx config)),
          .getFungibleTokenAsync "asset" stablecoin.id,
          .logJsonResult (stablecoin.symbol ++ " asset created and issued to " ++
            faucetDaoId ++ " DAO") "asset" ]

/-- The function `createFaucet()` with its queries and log lines. -/
def createFaucet (config : Config) (chain : ChainView) : List LoggedStep :=
  let faucetDaoId := DaoId.named config.FAUCET_ACCOUNT.username
  [.getAccountAsync "existingFaucetDao" faucetDaoId] ++
    if chain.existingFaucetDao then []
    else
      [ .logInfo "Creating Faucet DAO ...",
        .step (.submit (createFaucetDaoTx config)),
        .getAccountAsync "faucetDao" faucetDaoId,
        .logJsonResult "Faucet DAO created" "faucetDao" ]
      ++ (if Protocol.SUBSTRATE = config.PROTOCOL then
            [.step (.balancesTransfer (.named config.FAUCET_ACCOUNT.username)
              config.DEIP_APPCHAIN_FAUCET_BALANCE
              (.configured config.DEIP_APPCHAIN_FAUCET_SUBSTRATE_SEED_ACCOUNT_JSON))]
          else [])
      ++ createCoreTokenAssetMarker config chain
      ++ createFaucetStablecoins config chain

/-- The block of `createTenantDaoWithPortal()` that runs when the tenant DAO does not exist
yet. -/
def createTenantDaoAndPortal (config : Config) : List LoggedStep :=
  let tenantDaoId := DaoId.named config.TENANT_DATA.id
  [ .logInfo "Creating Tenant DAO ...",
    .step (.fundAddressFromFaucet (.key (tenantSeed config).getPubKey)
      config.FAUCET_ACCOUNT.fundingAmount),
    .step (.submit (createTenantDaoTx config)),
    .step (.fundAddressFromFaucet (.name tenantDaoId) config.FAUCET_ACCOUNT.fundingAmount),
    .getAccountAsync "createdTenantDao" tenantDaoId,
    .logJsonResult "Tenant DAO created" "createdTenantDao",
    .logInfo "Creating Tenant Portal ...",
    .step (.submit (createTenantPortalTx config)),
    .getPortalAsync "portal" tenantDaoId,
    .logJsonResult "Tenant Portal created" "portal",
    .logInfo "Funding Tenant Portal ...",
    .step (.fundAddressFromFaucet (.key (.configured config.TENANT_PORTAL.pubKey))
      config.FAUCET_ACCOUNT.fundingAmount),
    .logInfo "End funding Tenant Portal" ]

/-- The block of `createTenantDaoWithPortal()` that runs for a member whose DAO does not
exist yet. -/
def createTenantMemberDao (config : Config) (member : TenantMember) : List LoggedStep :=
  let tenantDaoId := DaoId.named config.TENANT_DATA.id
  let tenantMemberDaoId := DaoId.named member.daoId
  [ .logInfo "Creating Tenant Member DAO ...",
    .step (.fundAddressFromFaucet (.key (tenantMember member).getPubKey)
      config.FAUCET_ACCOUNT.fundingAmount),
    .step (.submit (createTenantMemberDaoTx config member)),
    .step (.fundAddressFromFaucet (.name tenantMemberDaoId)
      config.FAUCET_ACCOUNT.fundingAmount),
    .getAccountAsync "createdTenantMemberDao" tenantDaoId,
    .logJsonResult "Tenant Member DAO" "createdTenantMemberDao" ]

/-- The function `createTenantDaoWithPortal()` with its queries and log lines. -/
def createTenantDaoWithPortal (config : Config) (chain : ChainView) : List LoggedStep :=
  let tenantDaoId := DaoId.named config.TENANT_DATA.id
  [.getAccountAsync "existingTenantDao" tenantDaoId]
  ++ (if !chain.existingTenantDao then createTenantDaoAndPortal config else [])
  ++ [.getAccountAsync "tenantDao" tenantDaoId]
  ++ (config.TENANT_DATA.members.flatMap fun member =>
      [.getAccountAsync "existingTenantMemberDao" (.named member.daoId)]
      ++ (if !chain.existingTenantMemberDao member.daoId then
            createTenantMemberDao config member
          else [])
      ++ (if !chain.tenantDaoAuthDaoIds.contains member.daoId then
            [ .logInfo ("Adding Tenant Member DAO " ++ member.daoId ++ " to Tenant DAO " ++
                config.TENANT_DATA.id ++ " ..."),
              .step (.submit (addTenantMemberDaoToTenantDaoTx config member)) ]
          else []))
  ++ [ .getAccountAsync "updatedTenantDao" tenantDaoId,
       .logJsonResult "Tenant DAO finalized" "updatedTenantDao" ]

/-- The function `createHotWalletDao()` with its queries and log lines. -/
def createHotWalletDao (config : Config) : List LoggedStep :=
  [ .logInfo "Creating HotWallet DAO ...",
    .step (.fundAddressFromFaucet (.key hotWallet.getPubKey)
      config.FAUCET_ACCOUNT.fundingAmount),
    .step (.submit (createHotWalletDaoTx config)),
    .step (.fundAddressFromFaucet (.name .hotWalletDaoId) config.FAUCET_ACCOUNT.fundingAmount),
    .getAccountAsync "hotWalletDao" .hotWalletDaoId,
    .logJsonResult "HotWallet DAO created" "hotWalletDao" ]

/-- The function `setup()` with its queries and log lines. -/
def setup (config : Config) (chain : ChainView) : List LoggedStep :=
  [.logInfo "Setting up Faucet ..."] ++ createFaucet config chain ++
    [.logInfo "Faucet is set", .logInfo "Setting up Tenant Portal ..."] ++
    createTenantDaoWithPortal config chain ++
    [.logInfo "Tenant Portal is set", .logInfo "Setting up Tenant Hot wallet ..."] ++
    createHotWalletDao config ++ [.logInfo "Tenant Hot wallet is set"]

end Logged

/-- The steps of a logged run that reach the chain. -/
def chainSteps (logged : List LoggedStep) : List Step :=
  logged.filterMap fun l => match l with
    | .step s => some s
    | _ => none

/-- The id by which the account passed to the next `logJsonResult` was fetched: `fetched`
holds the constants that received an account so far, newest first. -/
def loggedAccount : List (String × DaoId) → List LoggedStep → Option DaoId
  | _, [] => none
  | fetched, .getAccountAsync result id :: rest => loggedAccount ((result, id) :: fetched) rest
  | fetched, .logJsonResult _ result :: _ => fetched.lookup result
  | fetched, _ :: rest => loggedAccount fetched rest

/-- For every DAO a logged run creates: the id of the DAO, and the id by which the account
logged after the creation was fetched. -/
def creationLogs : List LoggedStep → List (DaoId × Option DaoId)
  | [] => []
  | .step (.submit tx) :: rest =>
    (tx.createdDaos.map fun d => (d, loggedAccount [] rest)) ++ creationLogs rest
  | _ :: rest => creationLogs rest

end Preset

/-! ## Who signs for a DAO -/

/-- The transactions of a Casimir script that hold a command acting for a DAO, each with the
authorities it is judged against. -/
def actingFor (txs : List Tx) (d : DaoId) : List (Registry × Tx) :=
  (withAuthorities [] txs).filter fun p => p.2.cmds.any fun c => decide (c.actor = d)

/-- The submitted calls of a Substrate script that act for a DAO: the DAO is among the
`deipDao.onBehalf` wrappers of the call, or the call creates the DAO. -/
def callsActingFor (steps : List SubstrateStep) (d : DaoId) : List (Call × Key) :=
  (submittedCalls steps).filter fun p =>
    decide (d ∈ p.1.onBehalfChain) || decide (p.1.core.group = some d)

/-! ## `src/utils.js`: the default domain -/

/-- The function `getDefaultDomain()` of utils.js. -/
def getDefaultDomain : String := "0x6225314ed224d2b25a22f01a34af16d3354d556c"

/-- The method `s.substring(start)`: the string without its first `start` characters. -/
def substring (s : String) (start : Nat) : String := ⟨s.toList.drop start⟩

/-! ## `src/casimir/preset.js`: the commands in full and what the functions return -/

namespace Preset

/-- The fields of the `TransferFungibleTokenCmd` that `fundAddressFromFaucet` builds; `src`
and `dst` are its fields `from` and `to`. -/
structure TransferFungibleToken where
  src : DaoId
  dst : Signer
  tokenId : String
  symbol : String
  precision : Nat
  amount : JsValue
  deriving DecidableEq, Repr

/-- The transaction `fundDaoTx` of `fundAddressFromFaucet` and the key it is signed with. -/
structure FundDaoTx where
  cmds : List TransferFungibleToken
  signer : Key
  deriving DecidableEq, Repr

/-- The transaction as the stories see it. -/
def FundDaoTx.toTx (tx : FundDaoTx) : Tx :=
  ⟨tx.cmds.map fun c => .cmd (.TransferFungibleTokenCmd c.src c.dst), [tx.signer]⟩

/-- The function `fundAddressFromFaucet(daoIdOrPubKey, amount)`: the transactions it signs
and hands to `sendTxAndWaitAsync`. -/
def fundAddressFromFaucet (config : Config) (daoIdOrPubKey : Signer) (amount : JsValue) :
    List FundDaoTx :=
  if !amount.truthy then []
  else
    let FAUCET_ACCOUNT := config.FAUCET_ACCOUNT
    let CORE_ASSET := config.CORE_ASSET
    let faucetDaoId := FAUCET_ACCOUNT.username
    let faucetSeed := FAUCET_ACCOUNT.wif
    let transferAssetCmd : TransferFungibleToken :=
      ⟨.named faucetDaoId, daoIdOrPubKey, CORE_ASSET.id, CORE_ASSET.symbol,
        CORE_ASSET.precision, amount⟩
    [⟨[transferAssetCmd], .configured faucetSeed⟩]

/-- The fields of a `CreateFungibleTokenCmd`. -/
structure CreateFungibleToken where
  entityId : String
  issuer : DaoId
  name : String
  symbol : String
  precision : Nat
  description : String
  minBalance : Nat
  maxSupply : Nat
  deriving DecidableEq, Repr

/-- The fields of an `IssueFungibleTokenCmd`. -/
structure IssueFungibleToken where
  issuer : DaoId
  tokenId : String
  amount : Nat
  recipient : DaoId
  deriving DecidableEq, Repr

/-- The commands of the asset transactions of preset.js, with all their fields. -/
inductive AssetCmd where
  | CreateFungibleTokenCmd (fields : CreateFungibleToken)
  | IssueFungibleTokenCmd (fields : IssueFungibleToken)
  deriving DecidableEq, Repr

/-- An asset transaction and the key it is signed with. -/
structure AssetTx where
  cmds : List AssetCmd
  signer : Key
  deriving DecidableEq, Repr

/-- The command as the stories see it. -/
def AssetCmd.toCmd : AssetCmd → Cmd
  | .CreateFungibleTokenCmd fields => .CreateFungibleTokenCmd fields.issuer
  | .IssueFungibleTokenCmd fields => .IssueFungibleTokenCmd fields.issuer fields.recipient

/-- The transaction as the stories see it. -/
def AssetTx.toTx (tx : AssetTx) : Tx := ⟨tx.cmds.map fun c => .cmd c.toCmd, [tx.signer]⟩

/-- An element of the list that `createFaucetStablecoins` returns: for an entry of the
configuration, the asset found before any transaction (`existingAsset`), or the asset
fetched after the transaction that creates it (`asset`). -/
inductive ReturnedAsset where
  | existingAsset (stablecoin : Asset)
  | asset (stablecoin : Asset)
  deriving DecidableEq, Repr

/-- The entry of the configuration a returned asset stands for. -/
def ReturnedAsset.stablecoin : ReturnedAsset → Asset
  | .existingAsset stablecoin => stablecoin
  | .asset stablecoin => stablecoin

namespace Full

/-- The transaction `createAndIssueAssetTx` that `createFaucetStablecoins` builds for an
entry of the configuration, signed with the faucet key. -/
def createAndIssueAssetTx (config : Config) (stablecoin : Asset) : AssetTx :=
  let faucetDaoId := DaoId.named config.FAUCET_ACCOUNT.username
  let faucetSeed := config.FAUCET_ACCOUNT.wif
  let maxSupply := 999999999999999
  let createFungibleTokenCmd : CreateFungibleToken :=
    ⟨stablecoin.id, faucetDaoId, "Asset " ++ stablecoin.symbol, stablecoin.symbol,
      stablecoin.precision, "", 1, maxSupply⟩
  let issueFungibleTokenCmd : IssueFungibleToken :=
    ⟨faucetDaoId, stablecoin.id, maxSupply, faucetDaoId⟩
  ⟨[.CreateFungibleTokenCmd createFungibleTokenCmd,
    .IssueFungibleTokenCmd issueFungibleTokenCmd], .configured faucetSeed⟩

/-- The loop of `createFaucetStablecoins()` from an entry on. `getFungibleTokenAsync` tells
whether the read-model answers an asset for an id, given the transactions submitted so far;
`submitted` and `assets` are the transactions submitted and the list `assets` so far. -/
def createFaucetStablecoinsFrom (config : Config)
    (getFungibleTokenAsync : List AssetTx → String → Bool) :
    List Asset → List AssetTx × List ReturnedAsset → List AssetTx × List ReturnedAsset
  | [], done => done
  | stablecoin :: rest, (submitted, assets) =>
    if getFungibleTokenAsync submitted stablecoin.id then
      createFaucetStablecoinsFrom config getFungibleTokenAsync rest
        (submitted, assets ++ [.existingAsset stablecoin])
    else
      createFaucetStablecoinsFrom config getFungibleTokenAsync rest
        (submitted ++ [createAndIssueAssetTx config stablecoin], assets ++ [.asset stablecoin])

/-- The function `createFaucetStablecoins()`: the transactions it submits and the list it
returns. -/
def createFaucetStablecoins (config : Config)
    (getFungibleTokenAsync : List AssetTx → String → Bool) :
    List AssetTx × List ReturnedAsset :=
  createFaucetStablecoinsFrom config getFungibleTokenAsync
    config.DEIP_APPCHAIN_FAUCET_STABLECOINS ([], [])

/-- What `createFaucet()` returns: the constant `existingFaucetDao` when the faucet DAO
exists already, and nothing (`undefined`) at the end of the function. -/
def createFaucetReturns (chain : ChainView) : Option String :=
  if chain.existingFaucetDao then some "existingFaucetDao" else none

end Full

/-- The transactions of a returned list that had to be created. -/
def createdAssets (assets : List ReturnedAsset) : List Asset :=
  assets.filterMap fun a => match a with
    | .asset stablecoin => some stablecoin
    | .existingAsset _ => none

end Preset

/-! ## Example configurations -/

/-- A configuration with `PROTOCOL` set to SUBSTRATE. -/
def exampleSubstrateConfig : Config :=
  ⟨.SUBSTRATE, 6000, ⟨"faucet", "faucet-wif", .string "0"⟩, "faucet-seed-json",
    ⟨"core", "DEIP", 8⟩, [], "0", ⟨"tenant", "tenant-priv", [⟨"member-1", "pwd-1"⟩]⟩,
    ⟨"portal-pub", "portal-priv"⟩⟩

/-- A configuration with `PROTOCOL` set to GRAPHENE. -/
def exampleGrapheneConfig : Config :=
  ⟨.GRAPHENE, 3000, ⟨"faucet", "faucet-wif", .string "0"⟩, "faucet-seed-json",
    ⟨"core", "DEIP", 8⟩, [], "0", ⟨"tenant", "tenant-priv", [⟨"member-1", "pwd-1"⟩]⟩,
    ⟨"portal-pub", "portal-priv"⟩⟩

/-- A chain service that accepts every transaction. -/
def acceptingChainService : Preset.ChainService := ⟨fun _ => .ok ()⟩

/-- A transaction on behalf of the portal, which the portal verifies. -/
def portalTx : Preset.TxPayload := ⟨true, "signed", fun pubKey _ => .ok ("verified by " ++ pubKey)⟩

/-- An environment in which only `PROTOCOL` is set. -/
def exampleEnv : String → Option String := fun name => if name = "PROTOCOL" then some "2" else none

/-- A chain on which everything the set-up looks for exists already, the tenant member
not being listed in the authority of the tenant DAO. -/
def chainWithMember : Preset.ChainView :=
  ⟨true, true, fun _ => true, true, [], fun _ => true⟩

/-- A chain on which nothing of the set-up exists yet. -/
def freshChain : Preset.ChainView :=
  ⟨false, false, fun _ => false, false, [], fun _ => false⟩

/-- The JSON text of the values used in the examples. -/
def exampleJsonText : JsValue → String
  | .null => "null"
  | .number n => toString n
  | .string s => "\"" ++ s ++ "\""
  | _ => "\x7b\x7d"

/-- The error object of the JSON-RPC answer for an unknown method. -/
def methodNotFound : SubstrateRpc.ErrorMembers :=
  ⟨.number (-32601), .string "Method not found", .null⟩

/-- A read-models storage. -/
def exampleStorage : DatabaseSetup.ReadModelsStorage :=
  ⟨"mongodb://localhost:27017", "dump.gz", "portal-db", "dump-db"⟩

/-- The tenant that `setup()` reports for the example configurations. -/
def exampleOnChainData : DatabaseSetup.OnChainData := ⟨"tenant", [⟨"member-1", "pwd-1"⟩]⟩

/-- A `mongorestore` that exits with status 1. -/
def failingSpawnSync : String → List String → DatabaseSetup.Spawned :=
  fun _ _ => .returned ⟨some 1, none, some "", some "Failed: connection refused"⟩

/-- A machine without the `mongorestore` binary. -/
def missingSpawnSync : String → List String → DatabaseSetup.Spawned :=
  fun _ _ => .returned ⟨none, some ⟨some "ENOENT", "spawn mongorestore ENOENT"⟩, none, none⟩

/-- A `spawnSync` that throws. -/
def throwingSpawnSync : String → List String → DatabaseSetup.Spawned :=
  fun _ _ => .threw "spawnSync failed"

/-- The default `fundingAmount` of `FAUCET_ACCOUNT` in config.js: the string `0`. -/
def defaultFundingAmount : JsValue := .string "0"

/-- Three stablecoin entries, the first and the last with the same id. -/
def exampleStablecoins : List Asset := [⟨"usd", "USD", 2⟩, ⟨"eur", "EUR", 2⟩, ⟨"usd", "USD", 2⟩]

/-- A SUBSTRATE configuration with the three stablecoin entries. -/
def exampleStablecoinConfig : Config :=
  ⟨.SUBSTRATE, 6000, ⟨"faucet", "faucet-wif", .string "0"⟩, "faucet-seed-json",
    ⟨"core", "DEIP", 8⟩, exampleStablecoins, "0",
    ⟨"tenant", "tenant-priv", [⟨"member-1", "pwd-1"⟩]⟩, ⟨"portal-pub", "portal-priv"⟩⟩

/-- A read-model that knows the asset `eur` from the start and every asset created by a
transaction submitted so far. -/
def exampleAssetReadModel : List Preset.AssetTx → String → Bool := fun submitted id =>
  id == "eur" || submitted.any fun tx => tx.cmds.any fun c => match c with
    | .CreateFungibleTokenCmd fields => fields.entityId == id
    | _ => false

/-- A chain on which the faucet DAO exists and nothing else: neither the core asset nor a
stablecoin. -/
def faucetOnlyChain : Preset.ChainView :=
  ⟨true, false, fun _ => false, false, [], fun _ => false⟩

/-! ## Theorems -/

/-- The spec's `isSatisfied` is `resolveWeight(principal, approvedSet) >= threshold`. -/
theorem isSatisfied_eq_resolveWeight_ge_threshold (reg : Registry) (d : DaoId)
    (approvedSet : List Signer) :
    isSatisfied reg d approvedSet = (do
      let w ← resolveWeight reg d approvedSet
      let t ← threshold reg d
      pure (decide (t ≤ w))) := by
  induction reg with
  | nil => rfl
  | cons p rest ih =>
    obtain ⟨d', o⟩ := p
    by_cases h : d' = d
    · simp only [isSatisfied, resolveWeight, threshold, h, if_true]
      cases weightWith (fun g => isSatisfied rest g approvedSet) o approvedSet <;> rfl
    · simp only [isSatisfied, resolveWeight, threshold, h, if_false]
      exact ih

/-- Under SUBSTRATE the transactions of casimir/story.js do not depend on the rest of the
configuration. -/
theorem CasimirStory.submittedTxs_run_substrate (config : Config)
    (h : config.PROTOCOL = Protocol.SUBSTRATE) :
    submittedTxs (CasimirStory.run config) =
      submittedTxs (CasimirStory.run exampleSubstrateConfig) := by
  obtain ⟨protocol, _, _, _, _, _, _, _, _⟩ := config
  subst h
  rfl

/-- The script casimir/story.js builds and submits 43 transactions. -/
theorem CasimirStory.submittedTxs_length (config : Config) :
    (submittedTxs (CasimirStory.run config)).length = 43 := rfl

/-- The script substrate-rpc/story.js submits 39 extrinsics of its own and, with the faucet
transfers, 60 calls. -/
theorem SubstrateRpcStory.submitted_counts :
    (submittedExtrinsics SubstrateRpcStory.run).length = 39 ∧
      (submittedCalls SubstrateRpcStory.run).length = 60 := by
  decide!

/-- C1: with `config.PROTOCOL` set to SUBSTRATE, for every transaction that `run()` of
casimir/story.js builds and submits, the individuals whose keys signed it satisfy the DAO
each of its commands acts for (the new DAO of a `CreateDaoCmd`), under the recursive
`isSatisfied` of the specification; a transaction is judged against the authorities in force
before it together with the DAOs it creates, so the altered authority of Eve DAO counts for
the transactions after the alteration. -/
theorem casimir_story_signers_satisfy_acting_dao (config : Config)
    (h : config.PROTOCOL = Protocol.SUBSTRATE) :
    AllSatisfied (submittedTxs (CasimirStory.run config)) := by
  rw [CasimirStory.submittedTxs_run_substrate config h]
  decide!

/-- C1 at a configuration with `PROTOCOL` set to SUBSTRATE. -/
theorem casimir_story_signers_satisfy_acting_dao_witness :
    exampleSubstrateConfig.PROTOCOL = Protocol.SUBSTRATE ∧
      AllSatisfied (submittedTxs (CasimirStory.run exampleSubstrateConfig)) :=
  ⟨rfl, casimir_story_signers_satisfy_acting_dao exampleSubstrateConfig rfl⟩


/-- C2: in every story script, each proposal is accepted (`AcceptProposalCmd` in the Casimir
scripts, `deipProposal.decide(..., 'Approve')` in substrate-rpc) for exactly the acting
accounts of its proposed commands; every script creates the proposals listed, and for
Proposal-1 of casimir/story.js the accepting accounts are Alice-Bob DAO, Bob-Dave DAO,
Charlie DAO and Multigroup-1 DAO. -/
theorem proposals_accepted_for_their_acting_accounts (config : Config) :
    (AcceptedByActors (submittedTxs (CasimirStory.run config)) ∧
      (proposalsOf (submittedTxs (CasimirStory.run config))).map Proposal.entityId
        = [.proposal1Id]) ∧
    (AcceptedByActors (submittedTxs (NftFlow.run config)) ∧
      (proposalsOf (submittedTxs (NftFlow.run config))).map Proposal.entityId
        = [.proposal1Id]) ∧
    (AcceptedByActors (submittedTxs (NftFlowLazy.run config)) ∧
      (proposalsOf (submittedTxs (NftFlowLazy.run config))).map Proposal.entityId
        = [.proposal1Id]) ∧
    (AcceptedByActors (submittedTxs (NftFlowLazy2Proposals.run config)) ∧
      (proposalsOf (submittedTxs (NftFlowLazy2Proposals.run config))).map Proposal.entityId
        = [.proposal1Id, .proposal2Id]) ∧
    (AcceptedByActors (submittedTxs (NftPortalCollection.run config)) ∧
      (proposalsOf (submittedTxs (NftPortalCollection.run config))).map Proposal.entityId
        = [.proposal1Id]) ∧
    ((∀ p ∈ proposedBatches SubstrateRpcStory.run,
        SameAccounts (approveAccounts SubstrateRpcStory.run p.1) (p.2.map BatchItem.account)) ∧
      (proposedBatches SubstrateRpcStory.run).map Prod.fst = [.proposal1Id]) ∧
    acceptAccounts (submittedTxs (CasimirStory.run config)) .proposal1Id
      = [.aliceBobDaoId, .bobDaveDaoId, .charlieDaoId, .multigroup1DaoId] ∧
    actingAccounts CasimirStory.proposal1Batch
      = [.aliceBobDaoId, .bobDaveDaoId, .charlieDaoId, .multigroup1DaoId] := by
  refine ⟨⟨of_decide_eq_true rfl, rfl⟩, ⟨of_decide_eq_true rfl, rfl⟩,
    ⟨of_decide_eq_true rfl, rfl⟩, ⟨of_decide_eq_true rfl, rfl⟩, ⟨of_decide_eq_true rfl, rfl⟩,
    ⟨by decide!, rfl⟩, rfl, rfl⟩

/-- C3: in every Casimir story script the weight variable carried by each
`AcceptProposalCmd` is the one that received the result of `getBatchWeight` for exactly the
list passed as `proposedCmds` of the `CreateProposalCmd` with the same `entityId`; in the
lazy-2-proposals script the accept of Proposal-1 nested in Proposal-2 carries the weight of
the batch of Proposal-1, and the two accepts of Proposal-2 carry the weight of the batch of
Proposal-2. -/
theorem accept_carries_batch_weight_of_its_proposal (config : Config) :
    WeightsBound (CasimirStory.run config) ∧
    WeightsBound (NftFlow.run config) ∧
    WeightsBound (NftFlowLazy.run config) ∧
    WeightsBound (NftFlowLazy2Proposals.run config) ∧
    WeightsBound (NftPortalCollection.run config) ∧
    batchWeightCalls (NftFlowLazy2Proposals.run config)
      = [ (.proposal1BatchWeight, NftFlowLazy2Proposals.proposal1Batch),
          (.proposal2BatchWeight, NftFlowLazy2Proposals.proposal2Batch) ] ∧
    proposalsOf (submittedTxs (NftFlowLazy2Proposals.run config))
      = [ ⟨.proposal1Id, .creatorDaoId, NftFlowLazy2Proposals.proposal1Batch⟩,
          ⟨.proposal2Id, .buyerDaoId, NftFlowLazy2Proposals.proposal2Batch⟩ ] ∧
    acceptWeightsIn NftFlowLazy2Proposals.proposal2Batch
      = [(.proposal1Id, .proposal1BatchWeight)] ∧
    acceptWeightsIn ((submittedTxs (NftFlowLazy2Proposals.run config)).flatMap Tx.plainCmds)
      = [ (.proposal1Id, .proposal1BatchWeight), (.proposal1Id, .proposal1BatchWeight),
          (.proposal2Id, .proposal2BatchWeight), (.proposal2Id, .proposal2BatchWeight) ] := by
  refine ⟨of_decide_eq_true rfl, of_decide_eq_true rfl, of_decide_eq_true rfl,
    of_decide_eq_true rfl, of_decide_eq_true rfl, rfl, rfl, rfl, rfl⟩


/-- The authority of a DAO held by one key satisfies the invariant of the data model. -/
theorem singleKeyOwner_thresholdInvariant (k : Key) : (singleKeyOwner k).thresholdInvariant := by
  simp [singleKeyOwner, Owner.thresholdInvariant, Owner.sumWeights, Auth.weightValue]

/-- The authorities that `createTenantDaoWithPortal` and `createHotWalletDao` pass to
`CreateDaoCmd` are authorities of one key. -/
theorem Preset.tenant_and_hotWallet_authorities (config : Config) (chain : Preset.ChainView) :
    ∀ o ∈ daoAuthorities
        (Preset.createTenantDaoWithPortal config chain ++ Preset.createHotWalletDao config),
      ∃ k, o = singleKeyOwner k := by
  intro o ho
  simp only [daoAuthorities, submittedTxs, Preset.createTenantDaoWithPortal,
    Preset.createHotWalletDao, List.filterMap_append, List.flatMap_append, List.mem_append,
    List.mem_flatMap, List.mem_filterMap] at ho
  rcases ho with (⟨tx, ⟨st, hst, hsome⟩, htx⟩ | ⟨tx, ⟨st, ⟨m, _, hst⟩, hsome⟩, htx⟩) |
      ⟨tx, ⟨st, hst, hsome⟩, htx⟩
  · split at hst
    · simp only [List.mem_cons, List.mem_singleton, List.not_mem_nil, or_false] at hst
      rcases hst with rfl | rfl | rfl | rfl | rfl <;> simp at hsome
      · subst hsome
        simp [Tx.daoAuthorities, Preset.createTenantDaoTx, Tx.single] at htx
        exact ⟨_, htx⟩
      · subst hsome
        simp [Tx.daoAuthorities, Preset.createTenantPortalTx, Tx.single] at htx
    · simp at hst
  · rcases hst with hst | hst
    · split at hst
      · simp only [List.mem_cons, List.mem_singleton, List.not_mem_nil, or_false] at hst
        rcases hst with rfl | rfl | rfl <;> simp at hsome
        subst hsome
        simp [Tx.daoAuthorities, Preset.createTenantMemberDaoTx, Tx.single] at htx
        exact ⟨_, htx⟩
      · simp at hst
    · split at hst
      · simp only [List.mem_singleton] at hst
        subst hst
        simp at hsome
        subst hsome
        simp [Tx.daoAuthorities, Preset.addTenantMemberDaoToTenantDaoTx, Tx.single] at htx
      · simp at hst
  · simp only [List.mem_cons, List.mem_singleton, List.not_mem_nil, or_false] at hst
    rcases hst with rfl | rfl | rfl <;> simp at hsome
    subst hsome
    simp [Tx.daoAuthorities, Preset.createHotWalletDaoTx, Tx.single] at htx
    exact ⟨_, htx⟩

/-- A relation whose edges all increase a rank has no cycle. -/
theorem acyclic_of_rank (edges : List (DaoId × DaoId)) (rank : DaoId → Nat)
    (h : ∀ e ∈ edges, rank e.1 < rank e.2) : Acyclic edges := by
  have key : ∀ a b, Relation.TransGen (SignerOf edges) a b → rank a < rank b := by
    intro a b hab
    induction hab with
    | single hab => exact h _ hab
    | tail _ hbc ih => exact lt_trans ih (h _ hbc)
  intro d hd
  exact lt_irrefl _ (key d d hd)

/-- Signer edges that follow the order of creation form no cycle. -/
theorem acyclic_of_edgesFollowCreation (created : List DaoId) (edges : List (DaoId × DaoId))
    (h : EdgesFollowCreation created edges) : Acyclic edges :=
  acyclic_of_rank edges (fun d => created.indexOf d) h

/-- C4 fails as stated: substrate-rpc/story.js creates its single-signatory DAOs (Alice DAO
first) with `threshold: 0`, below the lower bound `threshold >= 1`. -/
theorem substrate_single_signatory_threshold_zero :
    SubstrateRpcStory.createAliceDaoOp
        = .pallet (.deipDao_create .aliceDaoId ⟨[.account .alice], 0⟩) ∧
      (.aliceDaoId, ⟨[.account .alice], 0⟩) ∈ createdAuthorities SubstrateRpcStory.run ∧
      ¬ ∀ a ∈ createdAuthorities SubstrateRpcStory.run, a.2.thresholdInvariant := by
  decide!

/-- C4, amended: every authority that the Casimir story scripts pass to `CreateDaoCmd` and
`AlterDaoAuthorityCmd`, and every authority that preset.js passes for the tenant DAO, the
tenant-member DAOs and the hot-wallet DAO, satisfies `1 <= owner.weight <= sum of the weights
in owner.auths`; in substrate-rpc/story.js the DAOs with several signatories satisfy
`1 <= threshold <= number of signatories`, and the DAOs with one signatory are created with
threshold 0. -/
theorem dao_authorities_threshold_bounds (config : Config) (chain : Preset.ChainView) :
    (∀ o ∈ daoAuthorities (CasimirStory.run config), o.thresholdInvariant) ∧
    (∀ o ∈ daoAuthorities (NftFlow.run config), o.thresholdInvariant) ∧
    (∀ o ∈ daoAuthorities (NftFlowLazy.run config), o.thresholdInvariant) ∧
    (∀ o ∈ daoAuthorities (NftFlowLazy2Proposals.run config), o.thresholdInvariant) ∧
    (∀ o ∈ daoAuthorities (NftPortalCollection.run config), o.thresholdInvariant) ∧
    (∀ o ∈ daoAuthorities
        (Preset.createTenantDaoWithPortal config chain ++ Preset.createHotWalletDao config),
      o.thresholdInvariant) ∧
    (∀ a ∈ createdAuthorities SubstrateRpcStory.run, a.2.asScripted) := by
  refine ⟨of_decide_eq_true rfl, of_decide_eq_true rfl, of_decide_eq_true rfl,
    of_decide_eq_true rfl, of_decide_eq_true rfl, ?_, by decide!⟩
  intro o ho
  obtain ⟨k, rfl⟩ := Preset.tenant_and_hotWallet_authorities config chain o ho
  exact singleKeyOwner_thresholdInvariant k

/-- C5 fails as stated: under a protocol other than SUBSTRATE, on a chain without the faucet
DAO, `createFaucet` of preset.js creates the faucet DAO with the faucet DAO itself as the
only signer of its authority, a signer that no earlier step created and a cycle of the signer
relation. Also, on a chain where a tenant-member DAO exists already, preset.js adds it to the
tenant DAO without having created it. -/
theorem graphene_faucet_signs_for_itself :
    (Preset.faucetOwner exampleGrapheneConfig).daoSigners = [.named "faucet"] ∧
      Preset.createFaucetDaoTx exampleGrapheneConfig
        = Tx.single (.CreateDaoCmd (.named "faucet")
            ⟨[⟨.name (.named "faucet"), none⟩], 1⟩ (.named "faucet")) (.configured "faucet-wif") ∧
      ¬ SignersCreatedEarlier []
          (creationTrace (submittedTxs (Preset.setup exampleGrapheneConfig freshChain))) ∧
      ¬ SignersCreatedEarlier []
          (creationTrace (submittedTxs (Preset.setup exampleSubstrateConfig chainWithMember))) ∧
      ¬ Acyclic (signerEdgesOf (submittedTxs (Preset.setup exampleGrapheneConfig freshChain))) := by
  refine ⟨by decide!, by decide!, by decide!, by decide!, ?_⟩
  intro h
  exact h (.named "faucet") (Relation.TransGen.single
    (show (DaoId.named "faucet", DaoId.named "faucet") ∈ _ by decide!))

/-- The signer edges and created DAOs of the Casimir scripts do not depend on the
configuration. -/
theorem creationTrace_run_eq (config : Config) :
    (creationTrace (submittedTxs (CasimirStory.run config))
        = creationTrace (submittedTxs (CasimirStory.run exampleSubstrateConfig)) ∧
      creationTrace (submittedTxs (NftFlow.run config))
        = creationTrace (submittedTxs (NftFlow.run exampleSubstrateConfig)) ∧
      creationTrace (submittedTxs (NftFlowLazy.run config))
        = creationTrace (submittedTxs (NftFlowLazy.run exampleSubstrateConfig)) ∧
      creationTrace (submittedTxs (NftFlowLazy2Proposals.run config))
        = creationTrace (submittedTxs (NftFlowLazy2Proposals.run exampleSubstrateConfig)) ∧
      creationTrace (submittedTxs (NftPortalCollection.run config))
        = creationTrace (submittedTxs (NftPortalCollection.run exampleSubstrateConfig))) ∧
    (signerEdgesOf (submittedTxs (CasimirStory.run config))
        = signerEdgesOf (submittedTxs (CasimirStory.run exampleSubstrateConfig)) ∧
      signerEdgesOf (submittedTxs (NftFlow.run config))
        = signerEdgesOf (submittedTxs (NftFlow.run exampleSubstrateConfig)) ∧
      signerEdgesOf (submittedTxs (NftFlowLazy.run config))
        = signerEdgesOf (submittedTxs (NftFlowLazy.run exampleSubstrateConfig)) ∧
      signerEdgesOf (submittedTxs (NftFlowLazy2Proposals.run config))
        = signerEdgesOf (submittedTxs (NftFlowLazy2Proposals.run exampleSubstrateConfig)) ∧
      signerEdgesOf (submittedTxs (NftPortalCollection.run config))
        = signerEdgesOf (submittedTxs (NftPortalCollection.run exampleSubstrateConfig))) :=
  ⟨⟨rfl, rfl, rfl, rfl, rfl⟩, ⟨rfl, rfl, rfl, rfl, rfl⟩⟩

/-- C5, amended: in `run()` of every story script, each DAO that enters an authority as a
signer (an `auths` entry with `name`, a DAO address among `signatories`, the member of an
`AddDaoMemberCmd`) was created by an earlier step of the script and differs from the DAO
whose authority it enters, and the signer relation among the DAOs of the script has no
cycle. -/
theorem story_signers_created_earlier (config : Config) :
    (SignersCreatedEarlier [] (creationTrace (submittedTxs (CasimirStory.run config))) ∧
      Acyclic (signerEdgesOf (submittedTxs (CasimirStory.run config)))) ∧
    (SignersCreatedEarlier [] (creationTrace (submittedTxs (NftFlow.run config))) ∧
      Acyclic (signerEdgesOf (submittedTxs (NftFlow.run config)))) ∧
    (SignersCreatedEarlier [] (creationTrace (submittedTxs (NftFlowLazy.run config))) ∧
      Acyclic (signerEdgesOf (submittedTxs (NftFlowLazy.run config)))) ∧
    (SignersCreatedEarlier []
        (creationTrace (submittedTxs (NftFlowLazy2Proposals.run config))) ∧
      Acyclic (signerEdgesOf (submittedTxs (NftFlowLazy2Proposals.run config)))) ∧
    (SignersCreatedEarlier [] (creationTrace (submittedTxs (NftPortalCollection.run config))) ∧
      Acyclic (signerEdgesOf (submittedTxs (NftPortalCollection.run config)))) ∧
    (SignersCreatedEarlier []
        (substrateCreationTrace (createdAuthorities SubstrateRpcStory.run)) ∧
      Acyclic (substrateSignerEdges (createdAuthorities SubstrateRpcStory.run))) := by
  obtain ⟨⟨t1, t2, t3, t4, t5⟩, ⟨e1, e2, e3, e4, e5⟩⟩ := creationTrace_run_eq config
  rw [t1, t2, t3, t4, t5, e1, e2, e3, e4, e5]
  refine ⟨⟨by decide!, ?_⟩, ⟨by decide!, ?_⟩, ⟨by decide!, ?_⟩, ⟨by decide!, ?_⟩,
    ⟨by decide!, ?_⟩, ⟨by decide!, ?_⟩⟩
  · exact acyclic_of_edgesFollowCreation
      (createdDaosOf (submittedTxs (CasimirStory.run exampleSubstrateConfig))) _ (by decide!)
  · exact acyclic_of_edgesFollowCreation
      (createdDaosOf (submittedTxs (NftFlow.run exampleSubstrateConfig))) _ (by decide!)
  · exact acyclic_of_edgesFollowCreation
      (createdDaosOf (submittedTxs (NftFlowLazy.run exampleSubstrateConfig))) _ (by decide!)
  · exact acyclic_of_edgesFollowCreation
      (createdDaosOf (submittedTxs (NftFlowLazy2Proposals.run exampleSubstrateConfig))) _
      (by decide!)
  · exact acyclic_of_edgesFollowCreation
      (createdDaosOf (submittedTxs (NftPortalCollection.run exampleSubstrateConfig))) _
      (by decide!)
  · exact acyclic_of_edgesFollowCreation
      ((createdAuthorities SubstrateRpcStory.run).map Prod.fst) _ (by decide!)

/-- C6: with `config.PROTOCOL` set to SUBSTRATE, for every transaction of casimir/story.js
that is signed more than once (the creation of Bob-Dave DAO and of Multigroup-2, Project-2,
the acceptance of Proposal-1 by Bob-Dave DAO), no proper initial part of the signers in script
order satisfies the acting DAO, and all of them do. Bob-Dave DAO is unsatisfied after Bob
alone and satisfied after Bob and Dave; Multigroup-2 is unsatisfied after Eve, unsatisfied
after Eve and Bob, and satisfied after Eve, Bob and Dave. -/
theorem casimir_story_no_early_satisfaction (config : Config)
    (h : config.PROTOCOL = Protocol.SUBSTRATE) :
    NoProperInitialPartSatisfies (submittedTxs (CasimirStory.run config)) ∧
    signedMoreThanOnce (submittedTxs (CasimirStory.run config))
      = [ CasimirStory.createBobDaveDaoDaoTx, CasimirStory.createMultigroup2Tx,
          CasimirStory.createProject2Tx, CasimirStory.decideOnProposal1ByBobDaveDaoTx ] ∧
    (threshold (authoritiesAfter (submittedTxs (CasimirStory.run config))) .bobDaveDaoId
        = .ok 2 ∧
      isSatisfied (authoritiesAfter (submittedTxs (CasimirStory.run config))) .bobDaveDaoId
        [.key .bob] = .ok false ∧
      isSatisfied (authoritiesAfter (submittedTxs (CasimirStory.run config))) .bobDaveDaoId
        [.key .bob, .key .dave] = .ok true) ∧
    (threshold (authoritiesAfter (submittedTxs (CasimirStory.run config))) .multigroup2DaoId
        = .ok 2 ∧
      isSatisfied (authoritiesAfter (submittedTxs (CasimirStory.run config))) .multigroup2DaoId
        [.key .eve] = .ok false ∧
      isSatisfied (authoritiesAfter (submittedTxs (CasimirStory.run config))) .multigroup2DaoId
        [.key .eve, .key .bob] = .ok false ∧
      isSatisfied (authoritiesAfter (submittedTxs (CasimirStory.run config))) .multigroup2DaoId
        [.key .eve, .key .bob, .key .dave] = .ok true) := by
  rw [CasimirStory.submittedTxs_run_substrate config h]
  decide!

/-- C6 at a configuration with `PROTOCOL` set to SUBSTRATE. -/
theorem casimir_story_no_early_satisfaction_witness :
    exampleSubstrateConfig.PROTOCOL = Protocol.SUBSTRATE ∧
      NoProperInitialPartSatisfies (submittedTxs (CasimirStory.run exampleSubstrateConfig)) :=
  ⟨rfl, (casimir_story_no_early_satisfaction exampleSubstrateConfig rfl).1⟩

/-- C7: for every call that substrate-rpc/story.js submits, the DAOs of its nested
`deipDao.onBehalf` wrappers, read from the outermost inwards, form a bottom-up chain: the only
signatory of the first DAO is the account that signs the transaction and each DAO is a
signatory of the next (also when the wrappers are read through the call that
`approveAsMulti` names by hash). The acceptance of Proposal-1 by Multigroup-1 is one
extrinsic, signed by Eve, whose chain is Eve DAO, Eve-Charlie DAO, Multigroup-1 DAO, and no
other extrinsic acts on behalf of Multigroup-1; the creation of Multigroup-1 is one extrinsic,
signed by Eve, with the chain Eve DAO, Eve-Charlie DAO around `deipDao.create`. -/
theorem substrate_onBehalf_chains_bottom_up :
    (∀ p ∈ submittedCalls SubstrateRpcStory.run,
      BottomUp (createdAuthorities SubstrateRpcStory.run) p.2 p.1.onBehalfChain) ∧
    (∀ p ∈ submittedCalls SubstrateRpcStory.run,
      BottomUp (createdAuthorities SubstrateRpcStory.run) p.2 p.1.onBehalfChainThroughHash) ∧
    (submittedExtrinsics SubstrateRpcStory.run).filter
        (fun tx => tx.calls.any fun c => c.onBehalfChain.contains .multigroup1DaoId)
      = [SubstrateRpcStory.decideOnProposal1ByMultigroup1DaoByEveCharlieDaoByEveDaoTx] ∧
    SubstrateRpcStory.decideOnProposal1ByMultigroup1DaoByEveCharlieDaoByEveDaoTx.signer
      = .eve ∧
    SubstrateRpcStory.decideOnProposal1ByMultigroup1DaoByEveCharlieDaoByEveDaoTx.calls.map
        Call.onBehalfChain
      = [[.eveDaoId, .eveCharlieDaoId, .multigroup1DaoId]] ∧
    (submittedExtrinsics SubstrateRpcStory.run).filter
        (fun tx => tx.calls.any fun c => c.core == SubstrateRpcStory.createMultigroup1Op)
      = [SubstrateRpcStory.createMultigroup1DaoByEveCharlieDaoByEveDaoTx] ∧
    SubstrateRpcStory.createMultigroup1DaoByEveCharlieDaoByEveDaoTx.signer = .eve ∧
    SubstrateRpcStory.createMultigroup1DaoByEveCharlieDaoByEveDaoTx.calls.map
        Call.onBehalfChain
      = [[.eveDaoId, .eveCharlieDaoId]] ∧
    (createdAuthorities SubstrateRpcStory.run).lookup .multigroup1DaoId
      = some ⟨[.dao .eveCharlieDaoId, .dao .bobDaveDaoId], 1⟩ ∧
    (createdAuthorities SubstrateRpcStory.run).lookup .eveCharlieDaoId
      = some ⟨[.dao .eveDaoId, .dao .charlieDaoId], 1⟩ := by
  decide!

/-- C8 fails as stated: in casimir/story.js the transaction that creates Proposal-1 holds
the `CreateProposalCmd` alone, and no `AcceptProposalCmd` of the script is issued for the
creator, Eve-Charlie DAO. -/
theorem casimir_story_proposal_created_without_accept :
    ¬ CreatorAcceptsOnCreate (CasimirStory.run exampleSubstrateConfig) ∧
      CasimirStory.createProposal1Tx.cmds
        = [.CreateProposalCmd .proposal1Id .eveCharlieDaoId CasimirStory.proposal1Batch none] ∧
      DaoId.eveCharlieDaoId ∉
        acceptAccounts (submittedTxs (CasimirStory.run exampleSubstrateConfig)) .proposal1Id := by
  decide!

/-- C8, amended: in the lazy-2-proposals and portal-collection scripts the transaction that
holds a `CreateProposalCmd` also holds an `AcceptProposalCmd` for the same proposal id, whose
account is the creator of the proposal and whose weight is the weight of the proposed
commands. In casimir/story.js, nft-flow and nft-flow-lazy the creating transaction holds the
`CreateProposalCmd` alone: in nft-flow and nft-flow-lazy the creator (Buyer DAO) accepts in a
later transaction, in casimir/story.js the creator (Eve-Charlie DAO) does not act in the
proposal and never accepts. In substrate-rpc/story.js the extrinsic that proposes holds the
one `propose` call. -/
theorem creator_accepts_on_create_where_scripted (config : Config) :
    CreatorAcceptsOnCreate (NftFlowLazy2Proposals.run config) ∧
    CreatorAcceptsOnCreate (NftPortalCollection.run config) ∧
    (ProposalCreatedAlone (CasimirStory.run config) ∧
      DaoId.eveCharlieDaoId ∉
        acceptAccounts (submittedTxs (CasimirStory.run config)) .proposal1Id) ∧
    (ProposalCreatedAlone (NftFlow.run config) ∧
      DaoId.buyerDaoId ∈ acceptAccounts (submittedTxs (NftFlow.run config)) .proposal1Id) ∧
    (ProposalCreatedAlone (NftFlowLazy.run config) ∧
      DaoId.buyerDaoId
        ∈ acceptAccounts (submittedTxs (NftFlowLazy.run config)) .proposal1Id) ∧
    (submittedExtrinsics SubstrateRpcStory.run).filter
        (fun tx => tx.calls.any fun c => match c.core with
          | .deipProposal_propose _ _ => true
          | _ => false)
      = [⟨[SubstrateRpcStory.createProposal1ByEveCharlieDaoByEveDaoOp], .eve⟩] := by
  refine ⟨of_decide_eq_true rfl, of_decide_eq_true rfl,
    ⟨of_decide_eq_true rfl, of_decide_eq_true rfl⟩,
    ⟨of_decide_eq_true rfl, of_decide_eq_true rfl⟩,
    ⟨of_decide_eq_true rfl, of_decide_eq_true rfl⟩, by decide!⟩

/-- C9: when the chain service is available and `verifiedTxPromise` resolves with
`verifiedTx` (the result of `tx.verifyByPortalAsync` with the configured portal key pair when
`tx.isOnBehalfPortal()` is true, `tx.getSignedRawTx()` otherwise), `sendTxAndWaitAsync`
hands exactly that one transaction to `rpc.sendTxAsync`; when the submission succeeds it then
waits once, `timeout` milliseconds (`config.CHAIN_BLOCK_INTERVAL_MILLIS` when no timeout is
given), the wait being its last call and the submission the call before; when the submission
fails the error propagates and there is no wait. -/
theorem sendTxAndWaitAsync_submits_once_then_waits (config : Config)
    (chainService : Preset.ChainService) (tx : Preset.TxPayload) (timeout : Option Nat)
    (verifiedTx : Preset.RawTx)
    (hverified : Preset.verifiedTxPromise config tx = .ok verifiedTx) :
    (tx.isOnBehalfPortal = true →
      tx.verifyByPortalAsync config.TENANT_PORTAL.pubKey config.TENANT_PORTAL.privKey
        = .ok verifiedTx) ∧
    (tx.isOnBehalfPortal = false → verifiedTx = tx.getSignedRawTx) ∧
    Preset.submissions (Preset.sendTxAndWaitAsync config (.ok chainService) tx timeout).1
      = [verifiedTx] ∧
    (chainService.sendTxAsync verifiedTx = .ok () →
      (Preset.sendTxAndWaitAsync config (.ok chainService) tx timeout).2 = .ok () ∧
      Preset.waits (Preset.sendTxAndWaitAsync config (.ok chainService) tx timeout).1
        = [timeout.getD config.CHAIN_BLOCK_INTERVAL_MILLIS] ∧
      ∃ before, (Preset.sendTxAndWaitAsync config (.ok chainService) tx timeout).1
        = before ++ [.sendTxAsync verifiedTx,
            .waitAsync (timeout.getD config.CHAIN_BLOCK_INTERVAL_MILLIS)]) ∧
    (∀ err, chainService.sendTxAsync verifiedTx = .error err →
      (Preset.sendTxAndWaitAsync config (.ok chainService) tx timeout).2 = .error err ∧
      Preset.waits (Preset.sendTxAndWaitAsync config (.ok chainService) tx timeout).1 = []) := by
  refine ⟨?_, ?_, ?_, ?_, ?_⟩
  · intro hp
    simpa [Preset.verifiedTxPromise, hp] using hverified
  · intro hp
    have := hverified
    simp only [Preset.verifiedTxPromise, hp, Bool.false_eq_true, if_false, pure, Except.pure,
      Except.ok.injEq] at this
    exact this.symm
  · simp only [Preset.sendTxAndWaitAsync, hverified]
    cases chainService.sendTxAsync verifiedTx <;> cases tx.isOnBehalfPortal <;>
      simp [Preset.submissions]
  · intro hsend
    simp only [Preset.sendTxAndWaitAsync, hverified, hsend]
    cases tx.isOnBehalfPortal
    · exact ⟨trivial, rfl, [], rfl⟩
    · exact ⟨trivial, rfl, [_], rfl⟩
  · intro err hsend
    simp only [Preset.sendTxAndWaitAsync, hverified, hsend]
    cases tx.isOnBehalfPortal <;> simp [Preset.waits]

/-- C9 at a transaction on behalf of the portal, sent to a chain service that accepts it,
with no timeout given. -/
theorem sendTxAndWaitAsync_submits_once_then_waits_witness :
    Preset.verifiedTxPromise exampleSubstrateConfig portalTx = .ok "verified by portal-pub" ∧
    Preset.sendTxAndWaitAsync exampleSubstrateConfig (.ok acceptingChainService) portalTx none
      = ([.verifyByPortalAsync "portal-pub" "portal-priv", .sendTxAsync "verified by portal-pub",
          .waitAsync 6000], .ok ()) ∧
    Preset.submissions
        (Preset.sendTxAndWaitAsync exampleSubstrateConfig (.ok acceptingChainService) portalTx
          none).1
      = ["verified by portal-pub"] :=
  ⟨rfl, rfl,
    (sendTxAndWaitAsync_submits_once_then_waits exampleSubstrateConfig acceptingChainService
      portalTx none "verified by portal-pub" rfl).2.2.1⟩

/-- When the chain service is not available or the portal rejects the transaction,
`sendTxAndWaitAsync` fails before it submits anything. -/
theorem sendTxAndWaitAsync_fails_before_submission (config : Config)
    (getChainService : Except String Preset.ChainService) (tx : Preset.TxPayload)
    (timeout : Option Nat)
    (h : (∃ err, getChainService = .error err) ∨
      ∃ err, Preset.verifiedTxPromise config tx = .error err) :
    Preset.submissions (Preset.sendTxAndWaitAsync config getChainService tx timeout).1 = [] ∧
    Preset.waits (Preset.sendTxAndWaitAsync config getChainService tx timeout).1 = [] ∧
    ∃ err, (Preset.sendTxAndWaitAsync config getChainService tx timeout).2 = .error err := by
  rcases h with ⟨err, rfl⟩ | ⟨err, herr⟩
  · exact ⟨rfl, rfl, err, rfl⟩
  · cases getChainService with
    | error e => exact ⟨rfl, rfl, e, rfl⟩
    | ok chainService =>
      simp only [Preset.sendTxAndWaitAsync, herr]
      cases tx.isOnBehalfPortal <;> simp [Preset.submissions, Preset.waits]

/-- C10: `parseJsonEnvVar(name, d)` and `parseIntEnvVar(name, d)` throw their
'environment variable is not defined' error exactly when the variable is unset or the empty
string and `d` is `undefined`; when the variable is unset or empty and `d` is provided they
return `d`; when the variable is set and not empty they return `JSON.parse`, respectively
`parseInt`, of its value (a `SyntaxError` of `JSON.parse` propagates) whatever `d` is. -/
theorem parseEnvVar_contract {α : Type} (env : String → Option String)
    (jsonParse : String → Except String α) (parseInt : String → α) (name : String)
    (d : Option α) :
    ((∃ message, ConfigJs.parseJsonEnvVar env jsonParse name d = .error (.Error message)) ↔
      (env name = none ∨ env name = some "") ∧ d = none) ∧
    ((env name = none ∨ env name = some "") → d = none →
      ConfigJs.parseJsonEnvVar env jsonParse name d = .error (.Error (name ++
        " json environment variable is not defined. Specify it in the config or provide a default value"))) ∧
    ((env name = none ∨ env name = some "") → ∀ v, d = some v →
      ConfigJs.parseJsonEnvVar env jsonParse name d = .ok (some v)) ∧
    (∀ s, env name = some s → s ≠ "" →
      ConfigJs.parseJsonEnvVar env jsonParse name d =
        match jsonParse s with
        | .ok v => .ok (some v)
        | .error e => .error (.SyntaxError e)) ∧
    ((∃ message, ConfigJs.parseIntEnvVar env parseInt name d = .error (.Error message)) ↔
      (env name = none ∨ env name = some "") ∧ d = none) ∧
    ((env name = none ∨ env name = some "") → d = none →
      ConfigJs.parseIntEnvVar env parseInt name d = .error (.Error (name ++
        " int environment variable is not defined. Specify it in the config or provide a default value"))) ∧
    ((env name = none ∨ env name = some "") → ∀ v, d = some v →
      ConfigJs.parseIntEnvVar env parseInt name d = .ok (some v)) ∧
    (∀ s, env name = some s → s ≠ "" →
      ConfigJs.parseIntEnvVar env parseInt name d = .ok (some (parseInt s))) := by
  have hfalsy : ∀ v : Option String, ConfigJs.falsy v = true ↔ (v = none ∨ v = some "") := by
    intro v
    cases v with
    | none => simp [ConfigJs.falsy]
    | some s => simp [ConfigJs.falsy]
  refine ⟨?_, ?_, ?_, ?_, ?_, ?_, ?_, ?_⟩
  · constructor
    · rintro ⟨message, hm⟩
      unfold ConfigJs.parseJsonEnvVar at hm
      simp only at hm
      split at hm
      · rename_i hc
        simp only [Bool.and_eq_true, Option.isNone_iff_eq_none] at hc
        exact ⟨(hfalsy _).1 hc.1, hc.2⟩
      · split at hm
        · split at hm
          · cases d <;> simp at hm
          · split at hm <;> simp at hm
        · cases d <;> simp at hm
    · rintro ⟨hv, rfl⟩
      unfold ConfigJs.parseJsonEnvVar
      simp [(hfalsy _).2 hv]
  · rintro hv rfl
    unfold ConfigJs.parseJsonEnvVar
    simp [(hfalsy _).2 hv]
  · rintro hv v rfl
    unfold ConfigJs.parseJsonEnvVar
    rcases hv with hv | hv <;> simp [hv, ConfigJs.falsy]
  · intro s hs hne
    unfold ConfigJs.parseJsonEnvVar
    have hs' : (s == "") = false := by simpa using hne
    simp only [hs, ConfigJs.falsy, hs', Bool.false_and, Bool.false_eq_true, if_false]
  · constructor
    · rintro ⟨message, hm⟩
      unfold ConfigJs.parseIntEnvVar at hm
      simp only at hm
      split at hm
      · rename_i hc
        simp only [Bool.and_eq_true, Option.isNone_iff_eq_none] at hc
        exact ⟨(hfalsy _).1 hc.1, hc.2⟩
      · split at hm
        · split at hm
          · cases d <;> simp at hm
          · simp at hm
        · cases d <;> simp at hm
    · rintro ⟨hv, rfl⟩
      unfold ConfigJs.parseIntEnvVar
      simp [(hfalsy _).2 hv]
  · rintro hv rfl
    unfold ConfigJs.parseIntEnvVar
    simp [(hfalsy _).2 hv]
  · rintro hv v rfl
    unfold ConfigJs.parseIntEnvVar
    rcases hv with hv | hv <;> simp [hv, ConfigJs.falsy]
  · intro s hs hne
    unfold ConfigJs.parseIntEnvVar
    simp [hs, ConfigJs.falsy, hne]

/-- An id that does not begin with `0x` receives the prefix. -/
theorem toHexFormat_of_not_hex (id : String) (h : ¬ "0x".toList <+: id.toList) :
    toHexFormat id = "0x" ++ id := by
  simp only [toHexFormat, if_neg h]

/-- An id that begins with `0x` is left as it is. -/
theorem toHexFormat_of_hex (id : String) (h : "0x".toList <+: id.toList) :
    toHexFormat id = id := by
  simp only [toHexFormat, if_pos h]

/-- An id that carries the prefix already is left as it is. -/
theorem toHexFormat_hex_append (id : String) : toHexFormat ("0x" ++ id) = "0x" ++ id := by
  apply toHexFormat_of_hex
  show "0x".data <+: ("0x" ++ id).data
  rw [String.data_append]
  exact List.prefix_append _ _

/-- C11 (defect of the code): an error object in the answer is wrapped twice. The handler of
the answer throws `new Error` with the message `<code> <message>: <JSON.stringify(data)>`,
but the `.catch` that ends the chain receives that `Error`, which has neither `code` nor
`data`, and throws another one: the promise rejects with
`undefined <code> <message>: <JSON.stringify(data)>: undefined`. For the answer
`{code: -32601, message: "Method not found", data: null}` the message is
`undefined -32601 Method not found: null: undefined` and not `-32601 Method not found: null`.
An answer without error resolves with its `result`. -/
theorem rpcToChainNodeAsync_rejects_error_twice (text : JsValue → String) (method : String)
    (params : Option (List JsValue)) (error : SubstrateRpc.ErrorMembers) (result : JsValue) :
    (SubstrateRpc.rpcToChainNodeAsync text (fun _ => .ok ⟨some error, result⟩) method params).2
        = .error (SubstrateRpc.newError
            ("undefined" ++ " " ++ SubstrateRpc.errorMessage text error ++ ": " ++ "undefined")) ∧
      SubstrateRpc.rpcToChainNodeAsync text (fun _ => .ok ⟨none, result⟩) method params
        = ([], .ok result) ∧
      (SubstrateRpc.rpcToChainNodeAsync exampleJsonText
          (fun _ => .ok ⟨some methodNotFound, .undefined⟩) "deipDao_get" none).2
        = .error (SubstrateRpc.newError "undefined -32601 Method not found: null: undefined") ∧
      SubstrateRpc.errorMessage exampleJsonText methodNotFound
        = "-32601 Method not found: null" := by
  refine ⟨rfl, rfl, by decide!, by decide!⟩

/-- C13: `logJsonResult(msg, result, ignoreNull)` writes exactly one line: the success line
`<msg>: \n<JSON.stringify(result)>\n` when `result` is neither `null` nor `undefined` or
`ignoreNull` is truthy, and otherwise the warning
`WARNING: Provided result for logging is undefined`; a `null` or `undefined` result is
logged as a success only when `ignoreNull` is set. -/
theorem logJsonResult_writes_one_line (text : JsValue → String) (msg : String)
    (result : JsValue) (ignoreNull : Option JsValue) :
    (logJsonResult text msg result ignoreNull).length = 1 ∧
      (logJsonResult text msg result ignoreNull
          = if (result ≠ .null ∧ result ≠ .undefined) ∨ (ignoreNull.getD (.bool false)).truthy
            then [.logSuccess (msg ++ ": \n" ++ (jsonStringify text result).interpolate ++ "\n")]
            else [.logWarn "WARNING: Provided result for logging is undefined"]) ∧
      (result = .null ∨ result = .undefined →
        logJsonResult text msg result none
            = [.logWarn "WARNING: Provided result for logging is undefined"] ∧
          logJsonResult text msg result (some (.bool false))
            = [.logWarn "WARNING: Provided result for logging is undefined"] ∧
          logJsonResult text msg result (some (.bool true))
            = [.logSuccess (msg ++ ": \n" ++ (jsonStringify text result).interpolate ++ "\n")]) := by
  refine ⟨?_, ?_, ?_⟩
  · simp only [logJsonResult]
    split <;> rfl
  · unfold logJsonResult
    cases result <;> simp [JsValue.looselyNotNull]
  · rintro (rfl | rfl) <;> refine ⟨rfl, rfl, rfl⟩

/-- C18: for an id that does not begin with `0x`, each of the six getters that take one id
issues the same call for `id` and for `"0x" + id`, namely its own method with the params
`[null, "0x" + id]`; `getFungibleTokenBalanceByOwnerAsync` passes the address as it is and
normalises the asset id. -/
theorem getters_normalise_id (id : String) (h : ¬ "0x".toList <+: id.toList) :
    (∀ g ∈ SubstrateRpc.idGetters,
      g.2 id = g.2 ("0x" ++ id) ∧
        (g.2 id).request = ⟨1, "2.0", g.1, [.null, .string ("0x" ++ id)]⟩) ∧
      ∀ address : JsValue,
        SubstrateRpc.getFungibleTokenBalanceByOwnerAsync address id
            = SubstrateRpc.getFungibleTokenBalanceByOwnerAsync address ("0x" ++ id) ∧
          (SubstrateRpc.getFungibleTokenBalanceByOwnerAsync address id).request
            = ⟨1, "2.0", "assets_getAssetBalanceByOwner",
                [.null, address, .string ("0x" ++ id)]⟩ := by
  have h1 := toHexFormat_of_not_hex id h
  have h2 := toHexFormat_hex_append id
  refine ⟨?_, ?_⟩
  · intro g hg
    simp only [SubstrateRpc.idGetters, List.mem_cons, List.mem_singleton, List.not_mem_nil,
      or_false] at hg
    rcases hg with rfl | rfl | rfl | rfl | rfl | rfl <;>
      simp [SubstrateRpc.getAccountAsync, SubstrateRpc.getProjectAsync,
        SubstrateRpc.getProposalAsync, SubstrateRpc.getFungibleTokenAsync,
        SubstrateRpc.getInvestmentOpportunityAsync, SubstrateRpc.getContractAgreementAsync,
        SubstrateRpc.RpcCall.request, h1, h2]
  · intro address
    simp [SubstrateRpc.getFungibleTokenBalanceByOwnerAsync, SubstrateRpc.RpcCall.request, h1, h2]

/-- The id `ab12` does not begin with `0x`: `getAccountAsync` issues the same call for `ab12`
and `0xab12`. -/
theorem getters_normalise_id_witness :
    (¬ "0x".toList <+: "ab12".toList) ∧
      SubstrateRpc.getAccountAsync "ab12" = SubstrateRpc.getAccountAsync "0xab12" := by
  have h : ¬ "0x".toList <+: "ab12".toList := by decide
  refine ⟨h, ?_⟩
  exact ((getters_normalise_id "ab12" h).1 ("deipDao_get", SubstrateRpc.getAccountAsync)
    (by simp [SubstrateRpc.idGetters])).1

section

open DatabaseSetup

/-- The promise of `restoreFromDump` resolves, whatever `spawnSync` does. -/
theorem DatabaseSetup.restoreFromDump_resolves (spawnSync : String → List String → Spawned)
    (config : DbConfig) : (restoreFromDump spawnSync config).2 = .ok () := by
  unfold restoreFromDump
  cases config.TENANT_PORTAL_READ_MODELS_STORAGE with
  | none => rfl
  | some params =>
    simp only
    cases (getMongorestorePromise spawnSync params).2 <;> rfl

/-- The restore makes no driver call on a collection. -/
theorem DatabaseSetup.driverCalls_restoreFromDump
    (spawnSync : String → List String → Spawned) (config : DbConfig) (collection : String) :
    driverCalls (restoreFromDump spawnSync config).1 collection = [] := by
  unfold restoreFromDump
  cases config.TENANT_PORTAL_READ_MODELS_STORAGE with
  | none => rfl
  | some params =>
    have hstart : driverCalls (getMongorestorePromise spawnSync params).1 collection = [] := by
      unfold getMongorestorePromise
      simp only
      cases spawnSync _ _ with
      | threw exception => rfl
      | returned restore =>
        simp only
        split
        · split <;> rfl
        · split
          · rfl
          · split <;> rfl
    simp only
    cases hp : (getMongorestorePromise spawnSync params).2 with
    | error err =>
      simp only [driverCalls, List.filter_append] at hstart ⊢
      rw [hstart]
      rfl
    | ok success =>
      simp only [driverCalls, List.filter_append] at hstart ⊢
      rw [hstart]
      simp only [onRestored]
      split <;> rfl

/-- The events of `run` when the chain service is there and the storage is configured. -/
theorem DatabaseSetup.run_events (spawnSync : String → List String → Spawned)
    (storage : ReadModelsStorage) (dump : DumpConfig) (portal : GeneratePortal)
    (onChainData : OnChainData) :
    (run (.ok ()) spawnSync ⟨some storage, dump, portal⟩ onChainData).1
      = [.getChainService, .dropDatabase, .log (.logInfo "Trying to restore database data")] ++
          (restoreFromDump spawnSync ⟨some storage, dump, portal⟩).1 ++
          [.log (.logInfo "Database data restored successfully")] ++
          (patchCollections ⟨some storage, dump, portal⟩ onChainData).1 := by
  simp only [run, restoreFromDump_resolves]

/-- The driver calls of `run` on a collection are those of the patching part. -/
theorem DatabaseSetup.driverCalls_run (spawnSync : String → List String → Spawned)
    (storage : ReadModelsStorage) (dump : DumpConfig) (portal : GeneratePortal)
    (onChainData : OnChainData) (collection : String) :
    driverCalls (run (.ok ()) spawnSync ⟨some storage, dump, portal⟩ onChainData).1 collection
      = driverCalls (patchCollections ⟨some storage, dump, portal⟩ onChainData).1 collection := by
  rw [run_events]
  have h := driverCalls_restoreFromDump spawnSync ⟨some storage, dump, portal⟩ collection
  simp only [driverCalls, List.filter_append] at h ⊢
  rw [h]
  rfl

/-- The collection teams-daos is patched as read exactly when the two ids of the dump
configuration coincide. -/
theorem DatabaseSetup.patchesWhatItRead_teams_daos
    (spawnSync : String → List String → Spawned) (storage : ReadModelsStorage)
    (dump : DumpConfig) (portal : GeneratePortal) (tenantDaoId : String)
    (member : TenantMember) (members : List TenantMember) :
    patchesWhatItRead
        (run (.ok ()) spawnSync ⟨some storage, dump, portal⟩
          ⟨tenantDaoId, member :: members⟩).1 "teams-daos"
      = decide (dump.userDao.id = dump.portal.id) := by
  simp only [patchesWhatItRead, driverCalls_run]
  by_cases h : dump.userDao.id = dump.portal.id <;>
    simp [driverCalls, patchCollections, teamPatched, h]

/-- C12 (defect of the code): `run` reads the document of teams-daos with the query
`{ _id: oldPortal._id }` and deletes with the query `{ _id: oldUserDao._id }`. With the
constants of config.js the two ids differ, so the document removed is not the one read. The
collections portals and users-daos are patched as the claim says: `findOne`, then
`deleteOne` with the same query, then one `insertOne` of a document built from the one
read. -/
theorem database_setup_teams_daos_deletes_by_other_id
    (spawnSync : String → List String → DatabaseSetup.Spawned)
    (storage : DatabaseSetup.ReadModelsStorage) (dump : DatabaseSetup.DumpConfig)
    (portal : DatabaseSetup.GeneratePortal) (tenantDaoId : String) (member : TenantMember)
    (members : List TenantMember) :
    DatabaseSetup.patchesWhatItRead
        (DatabaseSetup.run (.ok ()) spawnSync ⟨some storage, dump, portal⟩
          ⟨tenantDaoId, member :: members⟩).1 "portals" = true ∧
      DatabaseSetup.patchesWhatItRead
        (DatabaseSetup.run (.ok ()) spawnSync ⟨some storage, dump, portal⟩
          ⟨tenantDaoId, member :: members⟩).1 "users-daos" = true ∧
      DatabaseSetup.queriesOn
        (DatabaseSetup.run (.ok ()) spawnSync ⟨some storage, dump, portal⟩
          ⟨tenantDaoId, member :: members⟩).1 "teams-daos"
        = ([⟨dump.portal.id⟩], [⟨dump.userDao.id⟩]) ∧
      DatabaseSetup.patchesWhatItRead
        (DatabaseSetup.run (.ok ()) spawnSync ⟨some storage, dump, portal⟩
          ⟨tenantDaoId, member :: members⟩).1 "teams-daos"
        = decide (dump.userDao.id = dump.portal.id) ∧
      DatabaseSetup.patchesWhatItRead
        (DatabaseSetup.run (.ok ()) spawnSync (DatabaseSetup.configJs (some storage))
          ⟨tenantDaoId, member :: members⟩).1 "teams-daos" = false := by
  refine ⟨?_, ?_, ?_, DatabaseSetup.patchesWhatItRead_teams_daos _ _ _ _ _ _ _, ?_⟩
  · simp only [DatabaseSetup.patchesWhatItRead, DatabaseSetup.driverCalls_run]
    simp [DatabaseSetup.driverCalls, DatabaseSetup.patchCollections, DatabaseSetup.portalPatched]
  · simp only [DatabaseSetup.patchesWhatItRead, DatabaseSetup.driverCalls_run]
    simp [DatabaseSetup.driverCalls, DatabaseSetup.patchCollections,
      DatabaseSetup.userDaoPatched]
  · simp only [DatabaseSetup.queriesOn, DatabaseSetup.driverCalls_run]
    simp [DatabaseSetup.driverCalls, DatabaseSetup.patchCollections]
  · rw [DatabaseSetup.configJs, DatabaseSetup.patchesWhatItRead_teams_daos]
    decide

/-- C14 (defect of the code): `restoreFromDump` ends the promise of `getMongorestorePromise`
with `.catch((err) => console.error("error", err))`, so it resolves whatever `spawnSync`
does, and `run` logs `Database data restored successfully` also when `mongorestore` exits
with status 1, is missing, or `spawnSync` throws; the rejection reaches `console.error`
only. -/
theorem database_setup_logs_restored_after_failed_restore
    (spawnSync : String → List String → DatabaseSetup.Spawned)
    (storage : DatabaseSetup.ReadModelsStorage) (dump : DatabaseSetup.DumpConfig)
    (portal : DatabaseSetup.GeneratePortal) (onChainData : DatabaseSetup.OnChainData) :
    (DatabaseSetup.restoreFromDump spawnSync ⟨some storage, dump, portal⟩).2 = .ok () ∧
      DatabaseSetup.Event.log (.logInfo "Database data restored successfully")
        ∈ (DatabaseSetup.run (.ok ()) spawnSync ⟨some storage, dump, portal⟩ onChainData).1 ∧
      (DatabaseSetup.getMongorestorePromise failingSpawnSync exampleStorage).2
        = .error (.COMMAND_ERROR none (some 1) "" "Failed: connection refused") ∧
      (DatabaseSetup.getMongorestorePromise missingSpawnSync exampleStorage).2
        = .error (.COMMAND_NOT_FOUND "Binary mongorestore not found") ∧
      (DatabaseSetup.getMongorestorePromise throwingSpawnSync exampleStorage).2
        = .error (.COMMAND_EXCEPTION (.ofSpawnSync "spawnSync failed")) ∧
      (DatabaseSetup.loggedLines
          (DatabaseSetup.run (.ok ()) failingSpawnSync
            (DatabaseSetup.configJs (some exampleStorage)) exampleOnChainData).1).take 5
        = [ .log (.logInfo "Trying to restore database data"),
            .log (.logInfo "Creating Read Models storage ..."),
            .consoleError "error"
              (.COMMAND_ERROR none (some 1) "" "Failed: connection refused"),
            .log (.logInfo "Read Models storage created"),
            .log (.logInfo "Database data restored successfully") ] := by
  refine ⟨DatabaseSetup.restoreFromDump_resolves _ _, ?_, by decide!, by decide!, by decide!,
    by decide!⟩
  rw [DatabaseSetup.run_events]
  simp

end

/-- The chain steps of two logged runs in sequence. -/
theorem Preset.chainSteps_append (xs ys : List Preset.LoggedStep) :
    Preset.chainSteps (xs ++ ys) = Preset.chainSteps xs ++ Preset.chainSteps ys := by
  simp [Preset.chainSteps, List.filterMap_append]

/-- The chain steps of a logged loop. -/
theorem Preset.chainSteps_flatMap {α : Type} (l : List α) (f : α → List Preset.LoggedStep) :
    Preset.chainSteps (l.flatMap f) = l.flatMap fun a => Preset.chainSteps (f a) := by
  induction l with
  | nil => rfl
  | cons a l ih => simp only [List.flatMap_cons, Preset.chainSteps_append, ih]

/-- The logged `createCoreTokenAssetMarker` reaches the chain as the plain one. -/
theorem Preset.chainSteps_createCoreTokenAssetMarker (config : Config)
    (chain : Preset.ChainView) :
    Preset.chainSteps (Preset.Logged.createCoreTokenAssetMarker config chain)
      = Preset.createCoreTokenAssetMarker config chain := by
  unfold Preset.Logged.createCoreTokenAssetMarker Preset.createCoreTokenAssetMarker
  cases chain.existingCoreAsset <;> rfl

/-- The logged `createFaucetStablecoins` reaches the chain as the plain one. -/
theorem Preset.chainSteps_createFaucetStablecoins (config : Config)
    (chain : Preset.ChainView) :
    Preset.chainSteps (Preset.Logged.createFaucetStablecoins config chain)
      = Preset.createFaucetStablecoins config chain := by
  unfold Preset.Logged.createFaucetStablecoins Preset.createFaucetStablecoins
  rw [Preset.chainSteps_flatMap]
  congr 1
  funext stablecoin
  cases chain.existingStablecoin stablecoin.id <;> rfl

/-- The logged `createFaucet` reaches the chain as the plain one. -/
theorem Preset.chainSteps_createFaucet (config : Config) (chain : Preset.ChainView) :
    Preset.chainSteps (Preset.Logged.createFaucet config chain)
      = Preset.createFaucet config chain := by
  unfold Preset.Logged.createFaucet Preset.createFaucet
  cases chain.existingFaucetDao
  · simp only [Bool.false_eq_true, if_false, Preset.chainSteps_append,
      Preset.chainSteps_createCoreTokenAssetMarker, Preset.chainSteps_createFaucetStablecoins]
    by_cases h : Protocol.SUBSTRATE = config.PROTOCOL
    · simp only [if_pos h]
      rfl
    · simp only [if_neg h]
      rfl
  · rfl

/-- The logged `createTenantDaoWithPortal` reaches the chain as the plain one. -/
theorem Preset.chainSteps_createTenantDaoWithPortal (config : Config)
    (chain : Preset.ChainView) :
    Preset.chainSteps (Preset.Logged.createTenantDaoWithPortal config chain)
      = Preset.createTenantDaoWithPortal config chain := by
  unfold Preset.Logged.createTenantDaoWithPortal Preset.createTenantDaoWithPortal
  simp only [Preset.chainSteps_append, Preset.chainSteps_flatMap]
  have hmembers : ∀ member : TenantMember,
      Preset.chainSteps ([.getAccountAsync "existingTenantMemberDao" (.named member.daoId)]) ++
        Preset.chainSteps (if (!chain.existingTenantMemberDao member.daoId) = true then
            Preset.Logged.createTenantMemberDao config member else []) ++
        Preset.chainSteps (if (!chain.tenantDaoAuthDaoIds.contains member.daoId) = true then
            [ .logInfo ("Adding Tenant Member DAO " ++ member.daoId ++ " to Tenant DAO " ++
                config.TENANT_DATA.id ++ " ..."),
              .step (.submit (Preset.addTenantMemberDaoToTenantDaoTx config member)) ]
          else [])
      = (if (!chain.existingTenantMemberDao member.daoId) = true then
          [ .fundAddressFromFaucet (.key (Preset.tenantMember member).getPubKey)
              config.FAUCET_ACCOUNT.fundingAmount,
            .submit (Preset.createTenantMemberDaoTx config member),
            .fundAddressFromFaucet (.name (.named member.daoId))
              config.FAUCET_ACCOUNT.fundingAmount ]
        else []) ++
        (if (!chain.tenantDaoAuthDaoIds.contains member.daoId) = true then
            [.submit (Preset.addTenantMemberDaoToTenantDaoTx config member)]
          else []) := by
    intro member
    cases chain.existingTenantMemberDao member.daoId <;>
      cases chain.tenantDaoAuthDaoIds.contains member.daoId <;> rfl
  simp only [hmembers]
  cases chain.existingTenantDao <;> simp [Preset.chainSteps, Preset.Logged.createTenantDaoAndPortal]

/-- The logged `setup` reaches the chain as the plain one. -/
theorem Preset.chainSteps_setup (config : Config) (chain : Preset.ChainView) :
    Preset.chainSteps (Preset.Logged.setup config chain) = Preset.setup config chain := by
  unfold Preset.Logged.setup Preset.setup
  simp only [Preset.chainSteps_append, Preset.chainSteps_createFaucet,
    Preset.chainSteps_createTenantDaoWithPortal]
  simp [Preset.chainSteps, Preset.Logged.createHotWalletDao, Preset.createHotWalletDao]

/-- C15: in substrate-rpc/story.js every `multisig.approveAsMulti` has threshold 2 and a
null timepoint and names a call by its hash with a max weight; it is followed by a
`multisig.asMulti` of another signer with threshold 2, the same call in full and the same max
weight, whose timepoint is the variable read, between the two submissions, from
`api.query.multisig.multisigs` under the multi-address of the signatories of the group with
threshold 2 and the hash of the call (the variable holds `when` of the entry, or `null`).
Every `asMulti` follows such an `approveAsMulti`. The script has six such pairs: two by
Eve-Charlie and Bob-Dave for Multigroup-2 (its creation, Project-2), and four by Bob DAO and
Dave DAO for Bob-Dave (its creation, its decision on Proposal-1, and its final call in each
of the two pairs for Multigroup-2). -/
theorem substrate_two_step_approvals_paired :
    (∀ u ∈ multisigUses SubstrateRpcStory.run,
      u.firstOfTwoSteps SubstrateRpcStory.run (createdAuthorities SubstrateRpcStory.run) = true ∧
        u.finalOfTwoSteps SubstrateRpcStory.run = true) ∧
      ((timepointReads SubstrateRpcStory.run).map fun q => q.2.1).Nodup ∧
      ((approvalsByHash (multisigUses SubstrateRpcStory.run)).map fun u =>
          (u.step, u.signer, u.onBehalf, u.call.approved.bind Call.group))
        = [ (20, .bob, some .bobDaoId, some .bobDaveDaoId),
            (27, .eve, some .eveCharlieDaoId, some .multigroup2DaoId),
            (30, .bob, some .bobDaoId, some .bobDaveDaoId),
            (41, .eve, some .eveCharlieDaoId, some .multigroup2DaoId),
            (44, .bob, some .bobDaoId, some .bobDaveDaoId),
            (50, .bob, some .bobDaoId, some .bobDaveDaoId) ] ∧
      ((finalApprovals (multisigUses SubstrateRpcStory.run)).map fun u =>
          (u.step, u.signer, u.onBehalf, u.call.approved.bind Call.group))
        = [ (22, .dave, some .daveDaoId, some .bobDaveDaoId),
            (32, .dave, some .daveDaoId, some .bobDaveDaoId),
            (32, .dave, some .bobDaveDaoId, some .multigroup2DaoId),
            (46, .dave, some .daveDaoId, some .bobDaveDaoId),
            (46, .dave, some .bobDaveDaoId, some .multigroup2DaoId),
            (52, .dave, some .daveDaoId, some .bobDaveDaoId) ] := by
  decide!

/-- C16: in substrate-rpc/story.js each of the 22 multisig calls (`asMultiThreshold1`,
`approveAsMulti`, `asMulti`) stands directly inside `deipDao.onBehalf(X, ...)`; for the group
the approved call is made for, the address of `X` is not among the other signatories, the
other signatories together with the address of `X` are exactly the signatories the group is
created with, and the threshold used (1 for `asMultiThreshold1`) is the threshold the group
is created with. -/
theorem substrate_multisig_calls_complete_their_group :
    (∀ u ∈ multisigUses SubstrateRpcStory.run,
      u.completesGroup (createdAuthorities SubstrateRpcStory.run) = true) ∧
      (multisigUses SubstrateRpcStory.run).length = 22 := by
  decide!

/-- The owners that casimir/story.js passes to its DAO creations do not depend on the
configuration. -/
theorem CasimirStory.createdOwners_run_eq (config : Config) :
    createdOwners (submittedTxs (CasimirStory.run config))
      = createdOwners (submittedTxs (CasimirStory.run exampleSubstrateConfig)) := rfl

/-- C17: each of the five multisig DAOs (Alice-Bob, Eve-Charlie, Bob-Dave, Multigroup-1,
Multigroup-2) is created in casimir/story.js with the signers, all of them DAOs of weight 1,
that are its signatories in substrate-rpc/story.js, in the same order, and in both scripts
with the threshold named in the doc comment above the creation step: 1, 1, 2, 1, 2. -/
theorem multisig_daos_same_in_both_stories (config : Config) :
    ∀ p ∈ docCommentThresholds,
      sameAuthority (createdOwners (submittedTxs (CasimirStory.run config)))
        (createdAuthorities SubstrateRpcStory.run) p = true := by
  rw [CasimirStory.createdOwners_run_eq]
  decide!

/-- Bob-Dave, with threshold 2, is one of the five multisig DAOs: under a GRAPHENE
configuration too it is created alike in both stories. -/
theorem multisig_daos_same_in_both_stories_witness :
    (DaoId.bobDaveDaoId, 2) ∈ docCommentThresholds ∧
      sameAuthority (createdOwners (submittedTxs (CasimirStory.run exampleGrapheneConfig)))
        (createdAuthorities SubstrateRpcStory.run) (.bobDaveDaoId, 2) = true :=
  ⟨by decide, multisig_daos_same_in_both_stories exampleGrapheneConfig (.bobDaveDaoId, 2)
    (by decide)⟩

/-- C19 (defect of the code): after the creation of the DAO of a tenant member, preset.js
fetches the account to log with `rpc.getAccountAsync(tenantDaoId)`, the id of the tenant DAO,
not the id of the member DAO just created. After the creation of the faucet DAO, of the
tenant DAO and of the hot-wallet DAO the account is fetched by the id of the DAO created.
The logged run reaches the chain by the same steps as the set-up of the stories. -/
theorem preset_logs_tenant_dao_for_created_member (config : Config) (member : TenantMember) :
    Preset.creationLogs (Preset.Logged.createTenantMemberDao config member)
        = [(.named member.daoId, some (.named config.TENANT_DATA.id))] ∧
      Preset.creationLogs (Preset.Logged.createTenantDaoAndPortal config)
        = [(.named config.TENANT_DATA.id, some (.named config.TENANT_DATA.id))] ∧
      Preset.creationLogs (Preset.Logged.createHotWalletDao config)
        = [(.hotWalletDaoId, some .hotWalletDaoId)] ∧
      Preset.creationLogs (Preset.Logged.setup exampleSubstrateConfig freshChain)
        = [ (.named "faucet", some (.named "faucet")),
            (.named "tenant", some (.named "tenant")),
            (.named "member-1", some (.named "tenant")),
            (.hotWalletDaoId, some .hotWalletDaoId) ] ∧
      ∀ chain, Preset.chainSteps (Preset.Logged.setup config chain) = Preset.setup config chain := by
  refine ⟨rfl, rfl, rfl, by decide!, Preset.chainSteps_setup config⟩

/-- The transactions of casimir/story.js that act for Multigroup-1, and the authorities they
are judged against, do not depend on the configuration. -/
theorem CasimirStory.actingFor_multigroup1_eq (config : Config) :
    actingFor (submittedTxs (CasimirStory.run config)) .multigroup1DaoId
      = actingFor (submittedTxs (CasimirStory.run exampleSubstrateConfig)) .multigroup1DaoId :=
  rfl

/-- C20 fails as stated: in both scripts the actions for Multigroup-1 (its creation and its
decision on Proposal-1) are signed once, by Eve and not by Alice. The key of Alice satisfies
Alice DAO, but neither Eve-Charlie DAO nor Multigroup-1 DAO, and in the Substrate script the
chain of wrappers around these actions does not start at a DAO of Alice. -/
theorem multigroup1_signature_is_not_alices :
    ((actingFor (submittedTxs (CasimirStory.run exampleSubstrateConfig))
        .multigroup1DaoId).map fun p => p.2.signers) = [[.eve], [.eve]] ∧
      ((callsActingFor SubstrateRpcStory.run .multigroup1DaoId).map fun p => p.2)
        = [.eve, .eve] ∧
      (∀ p ∈ actingFor (submittedTxs (CasimirStory.run exampleSubstrateConfig))
          .multigroup1DaoId,
        isSatisfied p.1 .aliceDaoId [.key .alice] = .ok true ∧
          isSatisfied p.1 .eveCharlieDaoId [.key .alice] = .ok false ∧
          isSatisfied p.1 .multigroup1DaoId [.key .alice] = .ok false) ∧
      ∀ p ∈ callsActingFor SubstrateRpcStory.run .multigroup1DaoId,
        ¬ BottomUp (createdAuthorities SubstrateRpcStory.run) .alice p.1.onBehalfChain := by
  decide!

/-- C20, amended: the single signature that acts for the Multigroup-1 DAO is that of Eve. In
casimir/story.js the two transactions that act for Multigroup-1 are signed once, by Eve, and
the key of Eve satisfies Eve DAO, then Eve-Charlie DAO, then Multigroup-1 DAO. In
substrate-rpc/story.js the two calls that act for Multigroup-1 are signed by Eve and wrapped
bottom-up: Eve DAO, Eve-Charlie DAO around the creation of Multigroup-1, and Eve DAO,
Eve-Charlie DAO, Multigroup-1 DAO around the decision on Proposal-1. -/
theorem multigroup1_signature_is_eves (config : Config) :
    (∀ p ∈ actingFor (submittedTxs (CasimirStory.run config)) .multigroup1DaoId,
      p.2.signers = [.eve] ∧
        isSatisfied p.1 .eveDaoId [.key .eve] = .ok true ∧
        isSatisfied p.1 .eveCharlieDaoId [.key .eve] = .ok true ∧
        isSatisfied p.1 .multigroup1DaoId [.key .eve] = .ok true) ∧
      (actingFor (submittedTxs (CasimirStory.run config)) .multigroup1DaoId).length = 2 ∧
      (∀ p ∈ callsActingFor SubstrateRpcStory.run .multigroup1DaoId,
        p.2 = .eve ∧
          BottomUp (createdAuthorities SubstrateRpcStory.run) .eve p.1.onBehalfChain) ∧
      ((callsActingFor SubstrateRpcStory.run .multigroup1DaoId).map fun p =>
          (p.1.onBehalfChain, p.1.core.group))
        = [ ([.eveDaoId, .eveCharlieDaoId], some .multigroup1DaoId),
            ([.eveDaoId, .eveCharlieDaoId, .multigroup1DaoId], none) ] := by
  rw [CasimirStory.actingFor_multigroup1_eq]
  decide!

/-- The result of `toHexFormat` begins with `0x`. -/
theorem toHexFormat_begins_with_hex (s : String) : "0x".toList <+: (toHexFormat s).toList := by
  by_cases h : "0x".toList <+: s.toList
  · rw [toHexFormat_of_hex s h]
    exact h
  · rw [toHexFormat_of_not_hex s h]
    show "0x".data <+: ("0x" ++ s).data
    rw [String.data_append]
    exact List.prefix_append _ _

/-- C21: for every string `s`, `toHexFormat(s)` is `s` when `s` begins with `0x` and
`"0x" + s` otherwise; the result begins with `0x`; `toHexFormat` is idempotent; and
`toHexFormat(getDefaultDomain().substring(2))` is `getDefaultDomain()`. -/
theorem toHexFormat_idempotent (s : String) :
    ("0x".toList <+: s.toList → toHexFormat s = s) ∧
      (¬ "0x".toList <+: s.toList → toHexFormat s = "0x" ++ s) ∧
      "0x".toList <+: (toHexFormat s).toList ∧
      toHexFormat (toHexFormat s) = toHexFormat s ∧
      toHexFormat (substring getDefaultDomain 2) = getDefaultDomain := by
  refine ⟨toHexFormat_of_hex s, toHexFormat_of_not_hex s, toHexFormat_begins_with_hex s,
    toHexFormat_of_hex _ (toHexFormat_begins_with_hex s), by decide!⟩

/-- C22: `fundAddressFromFaucet(target, amount)` of preset.js submits no transaction exactly
when `amount` is falsy (`undefined`, `null`, `0`, the empty string, also `false` and `NaN`).
For every other amount, the string `0` that config.js gives as the default of
`FAUCET_ACCOUNT.fundingAmount` included, it builds one transaction holding one
`TransferFungibleTokenCmd` from the faucet DAO to `target` for that amount of `CORE_ASSET`,
signed with the faucet key. -/
theorem fundAddressFromFaucet_submits_unless_falsy (config : Config) (target : Signer)
    (amount : JsValue) :
    (Preset.fundAddressFromFaucet config target amount = [] ↔ amount.truthy = false) ∧
      (amount.truthy = true →
        Preset.fundAddressFromFaucet config target amount
            = [⟨[⟨.named config.FAUCET_ACCOUNT.username, target, config.CORE_ASSET.id,
                  config.CORE_ASSET.symbol, config.CORE_ASSET.precision, amount⟩],
                .configured config.FAUCET_ACCOUNT.wif⟩] ∧
          (Preset.fundAddressFromFaucet config target amount).map Preset.FundDaoTx.toTx
            = [Tx.single (.TransferFungibleTokenCmd (.named config.FAUCET_ACCOUNT.username)
                target) (.configured config.FAUCET_ACCOUNT.wif)]) ∧
      (∀ falsy ∈ [JsValue.undefined, .null, .number 0, .string "", .bool false, .nan],
        Preset.fundAddressFromFaucet config target falsy = []) ∧
      Preset.fundAddressFromFaucet config target defaultFundingAmount
        = [⟨[⟨.named config.FAUCET_ACCOUNT.username, target, config.CORE_ASSET.id,
              config.CORE_ASSET.symbol, config.CORE_ASSET.precision, .string "0"⟩],
            .configured config.FAUCET_ACCOUNT.wif⟩] := by
  refine ⟨?_, ?_, ?_, rfl⟩
  · unfold Preset.fundAddressFromFaucet
    cases h : amount.truthy <;> simp
  · intro h
    unfold Preset.fundAddressFromFaucet
    simp [h, Preset.FundDaoTx.toTx, Tx.single]
  · intro falsy hf
    simp only [List.mem_cons, List.mem_singleton, List.not_mem_nil, or_false] at hf
    rcases hf with rfl | rfl | rfl | rfl | rfl | rfl <;> rfl

/-- C23: for every configuration and seed account, `getDaoCreator` and
`getDaoCreatorPrivKey` of preset.js select the same party: under SUBSTRATE the user name and
the private key of the seed, otherwise the user name and the `wif` of the faucet. The pair
they answer is never the name of one party with the key of the other. -/
theorem dao_creator_and_key_of_one_party (config : Config) (seed : SeedAccount) :
    (config.PROTOCOL = .SUBSTRATE →
        Preset.getDaoCreator config seed = seed.getUsername ∧
          Preset.getDaoCreatorPrivKey config seed = seed.getPrivKey) ∧
      (config.PROTOCOL ≠ .SUBSTRATE →
        Preset.getDaoCreator config seed = .named config.FAUCET_ACCOUNT.username ∧
          Preset.getDaoCreatorPrivKey config seed = .configured config.FAUCET_ACCOUNT.wif) ∧
      ((Preset.getDaoCreator config seed, Preset.getDaoCreatorPrivKey config seed)
          = (seed.getUsername, seed.getPrivKey) ∨
        (Preset.getDaoCreator config seed, Preset.getDaoCreatorPrivKey config seed)
          = (.named config.FAUCET_ACCOUNT.username, .configured config.FAUCET_ACCOUNT.wif)) := by
  unfold Preset.getDaoCreator Preset.getDaoCreatorPrivKey
  cases h : config.PROTOCOL <;> simp

/-- C24: when the faucet DAO exists on chain already, `createFaucet` of preset.js returns the
account it found (the constant `existingFaucetDao`); its only call is the query
`rpc.getAccountAsync(faucetDaoId)`, and it submits nothing: no DAO creation, no balance
transfer, no core-asset marker, no stablecoin. -/
theorem createFaucet_existing_submits_nothing (config : Config) (chain : Preset.ChainView)
    (h : chain.existingFaucetDao = true) :
    Preset.Full.createFaucetReturns chain = some "existingFaucetDao" ∧
      Preset.Logged.createFaucet config chain
        = [.getAccountAsync "existingFaucetDao" (.named config.FAUCET_ACCOUNT.username)] ∧
      Preset.createFaucet config chain = [] ∧
      Preset.chainSteps (Preset.Logged.createFaucet config chain) = [] := by
  unfold Preset.Full.createFaucetReturns Preset.Logged.createFaucet Preset.createFaucet
  simp [h, Preset.chainSteps]

/-- On a chain with the faucet DAO and without assets, `createFaucet` submits nothing,
although the core-asset marker and the stablecoins would each need a transaction. -/
theorem createFaucet_existing_submits_nothing_witness :
    faucetOnlyChain.existingFaucetDao = true ∧
      Preset.createFaucet exampleStablecoinConfig faucetOnlyChain = [] ∧
      Preset.createCoreTokenAssetMarker exampleStablecoinConfig faucetOnlyChain ≠ [] ∧
      Preset.createFaucetStablecoins exampleStablecoinConfig faucetOnlyChain ≠ [] :=
  ⟨rfl, (createFaucet_existing_submits_nothing exampleStablecoinConfig faucetOnlyChain rfl).2.2.1,
    by decide!, by decide!⟩

/-- The created assets of two lists in sequence. -/
theorem Preset.createdAssets_append (xs ys : List Preset.ReturnedAsset) :
    Preset.createdAssets (xs ++ ys) = Preset.createdAssets xs ++ Preset.createdAssets ys := by
  simp [Preset.createdAssets, List.filterMap_append]

/-- The loop appends one asset per remaining entry, in order. -/
theorem Preset.Full.createFaucetStablecoinsFrom_assets (config : Config)
    (getFungibleTokenAsync : List Preset.AssetTx → String → Bool) (rest : List Asset) :
    ∀ done : List Preset.AssetTx × List Preset.ReturnedAsset,
      (Preset.Full.createFaucetStablecoinsFrom config getFungibleTokenAsync rest done).2.map
          Preset.ReturnedAsset.stablecoin
        = done.2.map Preset.ReturnedAsset.stablecoin ++ rest := by
  induction rest with
  | nil => intro done; simp [Preset.Full.createFaucetStablecoinsFrom]
  | cons stablecoin rest ih =>
    rintro ⟨submitted, assets⟩
    unfold Preset.Full.createFaucetStablecoinsFrom
    split
    · rw [ih]
      simp [Preset.ReturnedAsset.stablecoin]
    · rw [ih]
      simp [Preset.ReturnedAsset.stablecoin]

/-- The loop submits one transaction per asset it had to create, in order. -/
theorem Preset.Full.createFaucetStablecoinsFrom_submitted (config : Config)
    (getFungibleTokenAsync : List Preset.AssetTx → String → Bool) (rest : List Asset) :
    ∀ done : List Preset.AssetTx × List Preset.ReturnedAsset,
      done.1 = (Preset.createdAssets done.2).map (Preset.Full.createAndIssueAssetTx config) →
      (Preset.Full.createFaucetStablecoinsFrom config getFungibleTokenAsync rest done).1
        = (Preset.createdAssets
            (Preset.Full.createFaucetStablecoinsFrom config getFungibleTokenAsync rest
              done).2).map (Preset.Full.createAndIssueAssetTx config) := by
  induction rest with
  | nil => intro done h; simpa [Preset.Full.createFaucetStablecoinsFrom] using h
  | cons stablecoin rest ih =>
    rintro ⟨submitted, assets⟩ h
    unfold Preset.Full.createFaucetStablecoinsFrom
    split
    · apply ih
      simpa [Preset.createdAssets_append, Preset.createdAssets] using h
    · apply ih
      simp only at h
      simp [Preset.createdAssets_append, Preset.createdAssets, h]

/-- The list the loop returns when the read-model does not change during the loop. -/
theorem Preset.Full.createFaucetStablecoinsFrom_static (config : Config)
    (existing : String → Bool) (rest : List Asset) :
    ∀ done : List Preset.AssetTx × List Preset.ReturnedAsset,
      (Preset.Full.createFaucetStablecoinsFrom config (fun _ id => existing id) rest done).2
        = done.2 ++ rest.map fun stablecoin =>
            if existing stablecoin.id then .existingAsset stablecoin else .asset stablecoin := by
  induction rest with
  | nil => intro done; simp [Preset.Full.createFaucetStablecoinsFrom]
  | cons stablecoin rest ih =>
    rintro ⟨submitted, assets⟩
    unfold Preset.Full.createFaucetStablecoinsFrom
    cases h : existing stablecoin.id <;> simp [ih, h]

/-- The asset transaction in full is the one the stories see, for every entry. -/
theorem Preset.Full.createAndIssueAssetTx_toTx (config : Config) (stablecoin : Asset) :
    (Preset.Full.createAndIssueAssetTx config stablecoin).toTx
      = Preset.createAndIssueAssetTx config := rfl

/-- The transactions of the loop are the steps of the story-level loop. -/
theorem Preset.Full.createFaucetStablecoinsFrom_steps (config : Config)
    (chain : Preset.ChainView) (rest : List Asset) :
    ∀ done : List Preset.AssetTx × List Preset.ReturnedAsset,
      (Preset.Full.createFaucetStablecoinsFrom config
          (fun _ id => chain.existingStablecoin id) rest done).1.map
          (fun tx => Step.submit tx.toTx)
        = done.1.map (fun tx => Step.submit tx.toTx) ++
            rest.flatMap fun stablecoin =>
              if chain.existingStablecoin stablecoin.id then []
              else [.submit (Preset.createAndIssueAssetTx config)] := by
  induction rest with
  | nil => intro done; simp [Preset.Full.createFaucetStablecoinsFrom]
  | cons stablecoin rest ih =>
    rintro ⟨submitted, assets⟩
    unfold Preset.Full.createFaucetStablecoinsFrom
    cases h : chain.existingStablecoin stablecoin.id <;>
      simp [ih, h, Preset.Full.createAndIssueAssetTx_toTx]

/-- The transactions of `createFaucetStablecoins` in full are the steps of the story-level
function. -/
theorem Preset.Full.createFaucetStablecoins_steps (config : Config)
    (chain : Preset.ChainView) :
    (Preset.Full.createFaucetStablecoins config
        (fun _ id => chain.existingStablecoin id)).1.map (fun tx => Step.submit tx.toTx)
      = Preset.createFaucetStablecoins config chain := by
  simpa [Preset.Full.createFaucetStablecoins, Preset.createFaucetStablecoins] using
    Preset.Full.createFaucetStablecoinsFrom_steps config chain
      config.DEIP_APPCHAIN_FAUCET_STABLECOINS ([], [])

/-- C25: `createFaucetStablecoins` of preset.js returns a list with one asset per entry of
`config.DEIP_APPCHAIN_FAUCET_STABLECOINS`, in the order of the configuration. For an entry
whose asset the read-model knows it submits nothing and returns the asset found; for every
other entry it submits one transaction, signed with the faucet key, that holds a
`CreateFungibleTokenCmd` followed by an `IssueFungibleTokenCmd` of the whole `maxSupply`
(999999999999999) to the faucet DAO. -/
theorem createFaucetStablecoins_one_asset_per_entry (config : Config)
    (getFungibleTokenAsync : List Preset.AssetTx → String → Bool) (existing : String → Bool) :
    (Preset.Full.createFaucetStablecoins config getFungibleTokenAsync).2.map
        Preset.ReturnedAsset.stablecoin = config.DEIP_APPCHAIN_FAUCET_STABLECOINS ∧
      (Preset.Full.createFaucetStablecoins config getFungibleTokenAsync).1
        = (Preset.createdAssets
            (Preset.Full.createFaucetStablecoins config getFungibleTokenAsync).2).map
            (Preset.Full.createAndIssueAssetTx config) ∧
      (Preset.Full.createFaucetStablecoins config fun _ id => existing id).2
        = config.DEIP_APPCHAIN_FAUCET_STABLECOINS.map (fun stablecoin =>
            if existing stablecoin.id then .existingAsset stablecoin else .asset stablecoin) ∧
      (∀ chain : Preset.ChainView,
        (Preset.Full.createFaucetStablecoins config
            (fun _ id => chain.existingStablecoin id)).1.map (fun tx => Step.submit tx.toTx)
          = Preset.createFaucetStablecoins config chain) ∧
      (∀ stablecoin : Asset,
        Preset.Full.createAndIssueAssetTx config stablecoin
          = ⟨[ .CreateFungibleTokenCmd
                ⟨stablecoin.id, .named config.FAUCET_ACCOUNT.username,
                  "Asset " ++ stablecoin.symbol, stablecoin.symbol, stablecoin.precision, "", 1,
                  999999999999999⟩,
               .IssueFungibleTokenCmd
                ⟨.named config.FAUCET_ACCOUNT.username, stablecoin.id, 999999999999999,
                  .named config.FAUCET_ACCOUNT.username⟩ ],
              .configured config.FAUCET_ACCOUNT.wif⟩) ∧
      Preset.Full.createFaucetStablecoins exampleStablecoinConfig exampleAssetReadModel
        = ([Preset.Full.createAndIssueAssetTx exampleStablecoinConfig ⟨"usd", "USD", 2⟩],
            [.asset ⟨"usd", "USD", 2⟩, .existingAsset ⟨"eur", "EUR", 2⟩,
              .existingAsset ⟨"usd", "USD", 2⟩]) := by
  refine ⟨?_, ?_, ?_, Preset.Full.createFaucetStablecoins_steps config, fun _ => rfl,
    by decide!⟩
  · simpa [Preset.Full.createFaucetStablecoins] using
      Preset.Full.createFaucetStablecoinsFrom_assets config getFungibleTokenAsync
        config.DEIP_APPCHAIN_FAUCET_STABLECOINS ([], [])
  · exact Preset.Full.createFaucetStablecoinsFrom_submitted config getFungibleTokenAsync
      config.DEIP_APPCHAIN_FAUCET_STABLECOINS ([], []) rfl
  · simpa [Preset.Full.createFaucetStablecoins] using
      Preset.Full.createFaucetStablecoinsFrom_static config existing
        config.DEIP_APPCHAIN_FAUCET_STABLECOINS ([], [])

end Deip
